import Mathlib

/-!
OpenRCT2 drawing core: palette maps, palette catalogue, image catalogue, mask dispatch,
palette loading, clipping.

A shallow embedding of `src/openrct2/drawing/Drawing.cpp`, of the selected-object flags
of `src/openrct2/Editor.cpp` and of two functions of
`src/openrct2-ui/interface/ViewportInteraction.cpp`.

Conventions of the embedding
* a byte is a `Nat` below 256, a buffer is a `List Nat`;
* `size_t` is 64 bits wide: `size_t` arithmetic is taken modulo `2 ^ 64`;
* `int16_t`, `uint16_t`, `int32_t` and `uint32_t` values are `Int`s, and every
  store into such a variable goes through the matching `wrap` function;
* a pointer into a pixel buffer is the `Int` offset from the start of the buffer;
* assertions are compiled out (release semantics), as in the shipped game;
* a function that calls collaborators returns the list of those calls, in order.
-/

namespace OpenRCT2

/-! ## Machine integers -/

/-- One more than the greatest `size_t`. -/
def SIZE_MODULUS : Nat := 2 ^ 64

/-- Subtraction `a - b` carried out in `size_t`: it wraps around below zero. -/
def sizeSub (a b : Nat) : Nat := (a % SIZE_MODULUS + SIZE_MODULUS - b % SIZE_MODULUS) % SIZE_MODULUS

/-- Conversion of an `int` to `size_t`. -/
def toSize (v : Int) : Nat := (v % (2 ^ 64 : Int)).toNat

/-- Store into an `int16_t`. -/
def wrap16 (v : Int) : Int := (v + 32768) % 65536 - 32768

/-- Store into a `uint16_t`. -/
def wrapU16 (v : Int) : Int := v % 65536

/-- Store into an `int32_t` (two's complement wrap-around). -/
def wrap32 (v : Int) : Int := (v + 2147483648) % 4294967296 - 2147483648

/-- Store into a `uint32_t`. -/
def wrapU32 (v : Int) : Int := v % 4294967296

/-! ## PaletteMap -/

/-- Modelled from the spec: the class declaration of `PaletteMap` (Drawing.h) is
not among the sources. Spec §3: a palette map "owns a flat byte buffer of fixed
`numMaps × mapLength` size". `data` is the buffer `_data` points to (its length
is the allocated extent), the other fields are `_dataLength`, `_numMaps` and
`_mapLength`. -/
structure PaletteMap where
  data : List Nat
  dataLength : Nat
  numMaps : Nat
  mapLength : Nat
  deriving DecidableEq, Repr

namespace PaletteMap

/-- Modelled from the spec: the constructor `PaletteMap(data, numMaps, mapLength)`
used by `GetPaletteMapForColour` (declared in Drawing.h, not among the sources):
a table of `numMaps` rows of `mapLength` entries, `numMaps × mapLength` bytes. -/
def ofTable (data : List Nat) (numMaps mapLength : Nat) : PaletteMap :=
  { data := data, dataLength := numMaps * mapLength, numMaps := numMaps, mapLength := mapLength }

/-- Modelled from the spec: the constructor `PaletteMap(uint8_t (&map)[N])` used by
`GetDefault` (declared in Drawing.h, not among the sources): one row holding
the whole array. -/
def ofArray (data : List Nat) : PaletteMap :=
  { data := data, dataLength := data.length, numMaps := 1, mapLength := data.length }

/-- A map whose buffer is exactly as large as its bookkeeping says. -/
def WellFormed (m : PaletteMap) : Prop :=
  m.data.length = m.dataLength ∧ m.dataLength = m.numMaps * m.mapLength

instance (m : PaletteMap) : Decidable m.WellFormed := by
  unfold WellFormed; exact inferInstance

/-- The read accessor `uint8_t PaletteMap::operator[](size_t index) const`. -/
def get (m : PaletteMap) (index : Nat) : Nat :=
  if index ≥ m.dataLength then 0 else m.data.getD index 0

/-- The flat index `((src - 1) * 256) + dst` computed by `Blend`, as an `int`. -/
def blendIdx (src dst : Nat) : Int := ((src : Int) - 1) * 256 + (dst : Int)

/-- The lookup `uint8_t PaletteMap::Blend(uint8_t src, uint8_t dst) const`. -/
def Blend (m : PaletteMap) (src dst : Nat) : Nat :=
  let idx := blendIdx src dst
  m.get (toSize idx)

/-- The `maxLength` local of `PaletteMap::Copy`. -/
def copyMaxLength (self : PaletteMap) (dstIndex srcIndex : Nat) : Nat :=
  min (sizeSub self.mapLength srcIndex) (sizeSub self.mapLength dstIndex)

/-- The `copyLength` local of `PaletteMap::Copy`: the byte count handed to `memcpy`. -/
def copyLength (self : PaletteMap) (dstIndex srcIndex length : Nat) : Nat :=
  min length (self.copyMaxLength dstIndex srcIndex)

end PaletteMap

/-- The call `std::memcpy(&dst[dstOffset], &src[srcOffset], count)` on two separate buffers:
`none` when a byte outside either buffer would be touched. -/
def memcpy (dst : List Nat) (dstOffset : Nat) (src : List Nat) (srcOffset count : Nat) :
    Option (List Nat) :=
  if count = 0 then some dst
  else if srcOffset + count ≤ src.length ∧ dstOffset + count ≤ dst.length then
    some (dst.take dstOffset ++ (src.drop srcOffset).take count ++ dst.drop (dstOffset + count))
  else none

/-- The method
`void PaletteMap::Copy(size_t dstIndex, const PaletteMap& src, size_t srcIndex, size_t length)`.
The result is the destination map after the call, `none` when the `memcpy`
leaves a buffer. -/
def PaletteMap.Copy (self : PaletteMap) (dstIndex : Nat) (src : PaletteMap) (srcIndex length : Nat) :
    Option PaletteMap :=
  let copyLength := self.copyLength dstIndex srcIndex length
  (memcpy self.data dstIndex src.data srcIndex copyLength).map fun d => { self with data := d }

/-- The clamp as the specification words it: the requested length limited by the
space left in the source after `srcIndex` and the space left in the destination
after `dstIndex`, each measured against that map's own length. -/
def PaletteMap.specCopyLength (self : PaletteMap) (dstIndex : Nat) (src : PaletteMap)
    (srcIndex length : Nat) : Nat :=
  min length (min (src.mapLength - srcIndex) (self.mapLength - dstIndex))

/-! ### The default map -/

/-- The function-local statics of `PaletteMap::GetDefault`: the flag `initialised`
and the array `data`; the static `defaultMap` is a view of `data`. -/
structure DefaultStatics where
  initialised : Bool
  data : List Nat
  deriving DecidableEq, Repr

/-- The statics before the first call: zero-initialised storage. -/
def DefaultStatics.initial : DefaultStatics :=
  { initialised := false, data := List.replicate 256 0 }

/-- The loop `for (size_t i = 0; i < sizeof(data); i++) data[i] = static_cast<uint8_t>(i);`. -/
def fillIdentity (data : List Nat) : List Nat :=
  (List.range data.length).foldl (fun d i => d.set i (i % 256)) data

/-- The function `const PaletteMap& PaletteMap::GetDefault()`: the statics after the call and the
map the returned reference designates. -/
def PaletteMap.GetDefault (s : DefaultStatics) : DefaultStatics × PaletteMap :=
  let s1 : DefaultStatics := if !s.initialised then { s with data := fillIdentity s.data } else s
  (s1, PaletteMap.ofArray s1.data)

/-- The statics after `n` calls of `GetDefault`. -/
def staticsAfterCalls : Nat → DefaultStatics
  | 0 => DefaultStatics.initial
  | n + 1 => (PaletteMap.GetDefault (staticsAfterCalls n)).1

/-! ## Image catalogue -/

/-- The result type of `ImageId::GetCatalogue`. -/
inductive ImageCatalogue where
  | UNKNOWN
  | G1
  | G2
  | CSG
  | OBJECT
  | TEMPORARY
  deriving DecidableEq, Repr

/-- The sprite-index constants `GetCatalogue` compares against. Their values are
fixed in sprites.h, which is not among the sources, so they are parameters. -/
structure SpriteBounds where
  SPR_TEMP : Nat
  SPR_RCTC_G1_END : Nat
  SPR_G2_END : Nat
  SPR_CSG_END : Nat
  SPR_IMAGE_LIST_END : Nat
  deriving DecidableEq, Repr

/-- The classifier `ImageCatalogue ImageId::GetCatalogue() const`, as a function of `GetIndex()`. -/
def GetCatalogue (B : SpriteBounds) (index : Nat) : ImageCatalogue :=
  if index = B.SPR_TEMP then ImageCatalogue.TEMPORARY
  else if index < B.SPR_RCTC_G1_END then ImageCatalogue.G1
  else if index < B.SPR_G2_END then ImageCatalogue.G2
  else if index < B.SPR_CSG_END then ImageCatalogue.CSG
  else if index < B.SPR_IMAGE_LIST_END then ImageCatalogue.OBJECT
  else ImageCatalogue.UNKNOWN

/-- The category order the specification gives:
temporary < base (G1) < extension (G2) < custom (CSG) < object-supplied < unknown. -/
def categoryOrdinal : ImageCatalogue → Nat
  | .TEMPORARY => 0
  | .G1 => 1
  | .G2 => 2
  | .CSG => 3
  | .OBJECT => 4
  | .UNKNOWN => 5

/-! ## Mask dispatch -/

/-- The three implementations `mask_fn` can point to. -/
inductive MaskFn where
  | mask_scalar
  | mask_sse4_1
  | mask_avx2
  deriving DecidableEq, Repr

/-- The global `mask_fn` before `mask_init`: `nullptr`. -/
def mask_fn_initial : Option MaskFn := none

/-- The function `void mask_init()`: the value of `mask_fn` after the call, given the results of
`avx2_available()` and `sse41_available()` and the value before the call. -/
def mask_init (avx2_available sse41_available : Bool) (_mask_fn : Option MaskFn) : Option MaskFn :=
  if avx2_available then some MaskFn.mask_avx2
  else if sse41_available then some MaskFn.mask_sse4_1
  else some MaskFn.mask_scalar

/-! ## Clipping -/

/-- Modelled from the spec: the declaration of `rct_drawpixelinfo` (Drawing.h) is
not among the sources. Spec §3: "origin (x, y), width, height, row stride
(pitch), zoom level, and a pointer/offset into a backing buffer"; the five
geometry fields are `int16_t`. -/
structure rct_drawpixelinfo where
  bits : Int
  x : Int
  y : Int
  width : Int
  height : Int
  pitch : Int
  zoom_level : Int
  deriving DecidableEq, Repr

/-- The type `ScreenCoordsXY`: a pair of `int32_t`. -/
structure ScreenCoordsXY where
  x : Int
  y : Int
  deriving DecidableEq, Repr

/-- The block `if (coords.x > dst->x) { ... }`. -/
def clipLeft (dst : rct_drawpixelinfo) (coords : ScreenCoordsXY) : rct_drawpixelinfo :=
  if coords.x > dst.x then
    let clippedFromLeft := wrapU16 (coords.x - dst.x)
    { dst with
      width := wrap16 (dst.width - clippedFromLeft)
      x := wrap16 coords.x
      pitch := wrap16 (dst.pitch + clippedFromLeft)
      bits := dst.bits + clippedFromLeft }
  else dst

/-- The block computing `stickOutWidth` and `if (stickOutWidth > 0) { ... }`. -/
def clipRight (dst : rct_drawpixelinfo) (right : Int) : rct_drawpixelinfo :=
  let stickOutWidth := wrap32 (dst.x + dst.width - right)
  if stickOutWidth > 0 then
    { dst with
      width := wrap16 (dst.width - stickOutWidth)
      pitch := wrap16 (dst.pitch + stickOutWidth) }
  else dst

/-- The block `if (coords.y > dst->y) { ... }`. -/
def clipTop (dst : rct_drawpixelinfo) (coords : ScreenCoordsXY) : rct_drawpixelinfo :=
  if coords.y > dst.y then
    let clippedFromTop := wrapU16 (coords.y - dst.y)
    let bitsPlus := wrapU32 ((dst.pitch + dst.width) * clippedFromTop)
    { dst with
      height := wrap16 (dst.height - clippedFromTop)
      y := wrap16 coords.y
      bits := dst.bits + bitsPlus }
  else dst

/-- The block computing `bp` and `if (bp > 0) { ... }`. -/
def clipBottom (dst : rct_drawpixelinfo) (bottom : Int) : rct_drawpixelinfo :=
  let bp := wrap32 (dst.y + dst.height - bottom)
  if bp > 0 then { dst with height := wrap16 (dst.height - bp) } else dst

/-- The function `bool clip_drawpixelinfo(dst, src, coords, width, height)`: the descriptor
written to `*dst` and the returned flag. -/
def clip_drawpixelinfo (src : rct_drawpixelinfo) (coords : ScreenCoordsXY) (width height : Int) :
    rct_drawpixelinfo × Bool :=
  let right := wrap32 (coords.x + width)
  let bottom := wrap32 (coords.y + height)
  let dst : rct_drawpixelinfo := { src with zoom_level := 0 }
  let dst := clipLeft dst coords
  let dst := clipRight dst right
  let dst := clipTop dst coords
  let dst := clipBottom dst bottom
  if dst.width > 0 ∧ dst.height > 0 then
    ({ dst with x := wrap16 (dst.x - coords.x), y := wrap16 (dst.y - coords.y) }, true)
  else (dst, false)

/-- The descriptor `*dst` of `clip_drawpixelinfo` after its four clipping blocks,
just before the final test `dst->width > 0 && dst->height > 0`. -/
def clipStages (src : rct_drawpixelinfo) (coords : ScreenCoordsXY) (width height : Int) :
    rct_drawpixelinfo :=
  clipBottom (clipTop (clipRight (clipLeft { src with zoom_level := 0 } coords)
    (wrap32 (coords.x + width))) coords) (wrap32 (coords.y + height))

/-- The pixel `(px, py)` lies in the rectangle `[x, x + w) × [y, y + h)`. -/
def InRect (x y w h px py : Int) : Prop :=
  x ≤ px ∧ px < x + w ∧ y ≤ py ∧ py < y + h

instance (x y w h px py : Int) : Decidable (InRect x y w h px py) := by
  unfold InRect; exact inferInstance

/-- Every store of the block `if (coords.x > dst->x) { ... }` keeps its value:
`clippedFromLeft` fits a `uint16_t`, the new `width`, `x` and `pitch` fit an
`int16_t`. -/
def clipLeftExact (dst : rct_drawpixelinfo) (coords : ScreenCoordsXY) : Prop :=
  coords.x > dst.x →
    wrapU16 (coords.x - dst.x) = coords.x - dst.x ∧
    wrap16 (dst.width - (coords.x - dst.x)) = dst.width - (coords.x - dst.x) ∧
    wrap16 coords.x = coords.x ∧
    wrap16 (dst.pitch + (coords.x - dst.x)) = dst.pitch + (coords.x - dst.x)

/-- The computation of `stickOutWidth` does not overflow and every store of the
block `if (stickOutWidth > 0) { ... }` keeps its value. -/
def clipRightExact (dst : rct_drawpixelinfo) (right : Int) : Prop :=
  wrap32 (dst.x + dst.width - right) = dst.x + dst.width - right ∧
  (dst.x + dst.width - right > 0 →
    wrap16 (dst.width - (dst.x + dst.width - right)) = dst.width - (dst.x + dst.width - right) ∧
    wrap16 (dst.pitch + (dst.x + dst.width - right)) = dst.pitch + (dst.x + dst.width - right))

/-- Every 16-bit store of the block `if (coords.y > dst->y) { ... }` keeps its value:
`clippedFromTop` fits a `uint16_t`, the new `height` and `y` fit an `int16_t`. -/
def clipTopExact (dst : rct_drawpixelinfo) (coords : ScreenCoordsXY) : Prop :=
  coords.y > dst.y →
    wrapU16 (coords.y - dst.y) = coords.y - dst.y ∧
    wrap16 (dst.height - (coords.y - dst.y)) = dst.height - (coords.y - dst.y) ∧
    wrap16 coords.y = coords.y

/-- The computation of `bp` does not overflow and the store of the block
`if (bp > 0) { ... }` keeps its value. -/
def clipBottomExact (dst : rct_drawpixelinfo) (bottom : Int) : Prop :=
  wrap32 (dst.y + dst.height - bottom) = dst.y + dst.height - bottom ∧
  (dst.y + dst.height - bottom > 0 →
    wrap16 (dst.height - (dst.y + dst.height - bottom)) =
      dst.height - (dst.y + dst.height - bottom))

/-- No 16-bit field truncates during `clip_drawpixelinfo src coords width height`:
every value the call stores into a 16-bit variable or field fits it, and the
`int32_t` sums and differences it forms do not overflow (signed overflow is
undefined behaviour). The conditions follow the statements of the function in
order. -/
def NoTruncation (src : rct_drawpixelinfo) (coords : ScreenCoordsXY) (width height : Int) : Prop :=
  wrap32 (coords.x + width) = coords.x + width ∧
  wrap32 (coords.y + height) = coords.y + height ∧
  clipLeftExact { src with zoom_level := 0 } coords ∧
  clipRightExact (clipLeft { src with zoom_level := 0 } coords) (wrap32 (coords.x + width)) ∧
  clipTopExact
    (clipRight (clipLeft { src with zoom_level := 0 } coords) (wrap32 (coords.x + width)))
    coords ∧
  clipBottomExact
    (clipTop
      (clipRight (clipLeft { src with zoom_level := 0 } coords) (wrap32 (coords.x + width)))
      coords)
    (wrap32 (coords.y + height)) ∧
  ((clipStages src coords width height).width > 0 ∧
      (clipStages src coords width height).height > 0 →
    wrap16 ((clipStages src coords width height).x - coords.x) =
      (clipStages src coords width height).x - coords.x ∧
    wrap16 ((clipStages src coords width height).y - coords.y) =
      (clipStages src coords width height).y - coords.y)

instance (dst : rct_drawpixelinfo) (coords : ScreenCoordsXY) :
    Decidable (clipLeftExact dst coords) := by
  unfold clipLeftExact; exact inferInstance

instance (dst : rct_drawpixelinfo) (right : Int) : Decidable (clipRightExact dst right) := by
  unfold clipRightExact; exact inferInstance

instance (dst : rct_drawpixelinfo) (coords : ScreenCoordsXY) :
    Decidable (clipTopExact dst coords) := by
  unfold clipTopExact; exact inferInstance

instance (dst : rct_drawpixelinfo) (bottom : Int) : Decidable (clipBottomExact dst bottom) := by
  unfold clipBottomExact; exact inferInstance

instance (src : rct_drawpixelinfo) (coords : ScreenCoordsXY) (width height : Int) :
    Decidable (NoTruncation src coords width height) := by
  unfold NoTruncation; exact inferInstance

/-! ## Palette catalogue -/

/-! ### Sprite ids of the palettes (the anonymous `enum` of `SPR_PALETTE_*`) -/

def SPR_PALETTE_3100 : Nat := 3100
def SPR_PALETTE_3101 : Nat := 3101
def SPR_PALETTE_3102 : Nat := 3102
def SPR_PALETTE_3103 : Nat := 3103
def SPR_PALETTE_3104 : Nat := 3104
def SPR_PALETTE_3105 : Nat := 3105
def SPR_PALETTE_3106 : Nat := 3106
def SPR_PALETTE_3107 : Nat := 3107
def SPR_PALETTE_3108 : Nat := 3108
def SPR_PALETTE_3109 : Nat := 3109
def SPR_PALETTE_3110 : Nat := 3110
def SPR_PALETTE_BLACK : Nat := 4915
def SPR_PALETTE_GREY : Nat := 4916
def SPR_PALETTE_WHITE : Nat := 4917
def SPR_PALETTE_DARK_PURPLE : Nat := 4918
def SPR_PALETTE_LIGHT_PURPLE : Nat := 4919
def SPR_PALETTE_BRIGHT_PURPLE : Nat := 4920
def SPR_PALETTE_DARK_BLUE : Nat := 4921
def SPR_PALETTE_LIGHT_BLUE : Nat := 4922
def SPR_PALETTE_ICY_BLUE : Nat := 4923
def SPR_PALETTE_TEAL : Nat := 4924
def SPR_PALETTE_AQUAMARINE : Nat := 4925
def SPR_PALETTE_SATURATED_GREEN : Nat := 4926
def SPR_PALETTE_DARK_GREEN : Nat := 4927
def SPR_PALETTE_MOSS_GREEN : Nat := 4928
def SPR_PALETTE_BRIGHT_GREEN : Nat := 4929
def SPR_PALETTE_OLIVE_GREEN : Nat := 4930
def SPR_PALETTE_DARK_OLIVE_GREEN : Nat := 4931
def SPR_PALETTE_BRIGHT_YELLOW : Nat := 4932
def SPR_PALETTE_YELLOW : Nat := 4933
def SPR_PALETTE_DARK_YELLOW : Nat := 4934
def SPR_PALETTE_LIGHT_ORANGE : Nat := 4935
def SPR_PALETTE_DARK_ORANGE : Nat := 4936
def SPR_PALETTE_LIGHT_BROWN : Nat := 4937
def SPR_PALETTE_SATURATED_BROWN : Nat := 4938
def SPR_PALETTE_DARK_BROWN : Nat := 4939
def SPR_PALETTE_SALMON_PINK : Nat := 4940
def SPR_PALETTE_BORDEAUX_RED : Nat := 4941
def SPR_PALETTE_SATURATED_RED : Nat := 4942
def SPR_PALETTE_BRIGHT_RED : Nat := 4943
def SPR_PALETTE_DARK_PINK : Nat := 4944
def SPR_PALETTE_BRIGHT_PINK : Nat := 4945
def SPR_PALETTE_LIGHT_PINK : Nat := 4946
def SPR_PALETTE_WATER : Nat := 4947
def SPR_PALETTE_4948 : Nat := 4948
def SPR_PALETTE_4949 : Nat := 4949
def SPR_PALETTE_4950 : Nat := 4950
def SPR_PALETTE_DARKEN_3 : Nat := 4951
def SPR_PALETTE_4952 : Nat := 4952
def SPR_PALETTE_DARKEN_1 : Nat := 4953
def SPR_PALETTE_DARKEN_2 : Nat := 4954
def SPR_PALETTE_4955 : Nat := 4955
def SPR_PALETTE_TRANSLUCENT_GREY : Nat := 4956
def SPR_PALETTE_TRANSLUCENT_GREY_HIGHLIGHT : Nat := 4957
def SPR_PALETTE_TRANSLUCENT_GREY_SHADOW : Nat := 4958
def SPR_PALETTE_TRANSLUCENT_LIGHT_BLUE : Nat := 4959
def SPR_PALETTE_TRANSLUCENT_LIGHT_BLUE_HIGHLIGHT : Nat := 4960
def SPR_PALETTE_TRANSLUCENT_LIGHT_BLUE_SHADOW : Nat := 4961
def SPR_PALETTE_TRANSLUCENT_BORDEAUX_RED : Nat := 4962
def SPR_PALETTE_TRANSLUCENT_BORDEAUX_RED_HIGHLIGHT : Nat := 4963
def SPR_PALETTE_TRANSLUCENT_BORDEAUX_RED_SHADOW : Nat := 4964
def SPR_PALETTE_TRANSLUCENT_DARK_GREEN : Nat := 4965
def SPR_PALETTE_TRANSLUCENT_DARK_GREEN_HIGHLIGHT : Nat := 4966
def SPR_PALETTE_TRANSLUCENT_DARK_GREEN_SHADOW : Nat := 4967
def SPR_PALETTE_TRANSLUCENT_LIGHT_PURPLE : Nat := 4968
def SPR_PALETTE_TRANSLUCENT_LIGHT_PURPLE_HIGHLIGHT : Nat := 4969
def SPR_PALETTE_TRANSLUCENT_LIGHT_PURPLE_SHADOW : Nat := 4970
def SPR_PALETTE_TRANSLUCENT_DARK_OLIVE_GREEN : Nat := 4971
def SPR_PALETTE_TRANSLUCENT_DARK_OLIVE_GREEN_HIGHLIGHT : Nat := 4972
def SPR_PALETTE_TRANSLUCENT_DARK_OLIVE_GREEN_SHADOW : Nat := 4973
def SPR_PALETTE_TRANSLUCENT_LIGHT_BROWN : Nat := 4974
def SPR_PALETTE_TRANSLUCENT_LIGHT_BROWN_HIGHLIGHT : Nat := 4975
def SPR_PALETTE_TRANSLUCENT_LIGHT_BROWN_SHADOW : Nat := 4976
def SPR_PALETTE_TRANSLUCENT_YELLOW : Nat := 4977
def SPR_PALETTE_TRANSLUCENT_YELLOW_HIGHLIGHT : Nat := 4978
def SPR_PALETTE_TRANSLUCENT_YELLOW_SHADOW : Nat := 4979
def SPR_PALETTE_TRANSLUCENT_MOSS_GREEN : Nat := 4980
def SPR_PALETTE_TRANSLUCENT_MOSS_GREEN_HIGHLIGHT : Nat := 4981
def SPR_PALETTE_TRANSLUCENT_MOSS_GREEN_SHADOW : Nat := 4982
def SPR_PALETTE_TRANSLUCENT_OLIVE_GREEN : Nat := 4983
def SPR_PALETTE_TRANSLUCENT_OLIVE_GREEN_HIGHLIGHT : Nat := 4984
def SPR_PALETTE_TRANSLUCENT_OLIVE_GREEN_SHADOW : Nat := 4985
def SPR_PALETTE_TRANSLUCENT_BRIGHT_GREEN : Nat := 4986
def SPR_PALETTE_TRANSLUCENT_BRIGHT_GREEN_HIGHLIGHT : Nat := 4987
def SPR_PALETTE_TRANSLUCENT_BRIGHT_GREEN_SHADOW : Nat := 4988
def SPR_PALETTE_TRANSLUCENT_SALMON_PINK : Nat := 4989
def SPR_PALETTE_TRANSLUCENT_SALMON_PINK_HIGHLIGHT : Nat := 4990
def SPR_PALETTE_TRANSLUCENT_SALMON_PINK_SHADOW : Nat := 4991
def SPR_PALETTE_TRANSLUCENT_BRIGHT_PURPLE : Nat := 4992
def SPR_PALETTE_TRANSLUCENT_BRIGHT_PURPLE_HIGHLIGHT : Nat := 4993
def SPR_PALETTE_TRANSLUCENT_BRIGHT_PURPLE_SHADOW : Nat := 4994
def SPR_PALETTE_TRANSLUCENT_BRIGHT_RED : Nat := 4995
def SPR_PALETTE_TRANSLUCENT_BRIGHT_RED_HIGHLIGHT : Nat := 4996
def SPR_PALETTE_TRANSLUCENT_BRIGHT_RED_SHADOW : Nat := 4997
def SPR_PALETTE_TRANSLUCENT_LIGHT_ORANGE : Nat := 4998
def SPR_PALETTE_TRANSLUCENT_LIGHT_ORANGE_HIGHLIGHT : Nat := 4999
def SPR_PALETTE_TRANSLUCENT_LIGHT_ORANGE_SHADOW : Nat := 5000
def SPR_PALETTE_TRANSLUCENT_TEAL : Nat := 5001
def SPR_PALETTE_TRANSLUCENT_TEAL_HIGHLIGHT : Nat := 5002
def SPR_PALETTE_TRANSLUCENT_TEAL_SHADOW : Nat := 5003
def SPR_PALETTE_TRANSLUCENT_BRIGHT_PINK : Nat := 5004
def SPR_PALETTE_TRANSLUCENT_BRIGHT_PINK_HIGHLIGHT : Nat := 5005
def SPR_PALETTE_TRANSLUCENT_BRIGHT_PINK_SHADOW : Nat := 5006
def SPR_PALETTE_TRANSLUCENT_DARK_BROWN : Nat := 5007
def SPR_PALETTE_TRANSLUCENT_DARK_BROWN_HIGHLIGHT : Nat := 5008
def SPR_PALETTE_TRANSLUCENT_DARK_BROWN_SHADOW : Nat := 5009
def SPR_PALETTE_TRANSLUCENT_LIGHT_PINK : Nat := 5010
def SPR_PALETTE_TRANSLUCENT_LIGHT_PINK_HIGHLIGHT : Nat := 5011
def SPR_PALETTE_TRANSLUCENT_LIGHT_PINK_SHADOW : Nat := 5012
def SPR_PALETTE_TRANSLUCENT_WHITE : Nat := 5013
def SPR_PALETTE_TRANSLUCENT_WHITE_HIGHLIGHT : Nat := 5014
def SPR_PALETTE_TRANSLUCENT_WHITE_SHADOW : Nat := 5015
def SPR_PALETTE_GLASS_BLACK : Nat := 5016
def SPR_PALETTE_GLASS_GREY : Nat := 5017
def SPR_PALETTE_GLASS_WHITE : Nat := 5018
def SPR_PALETTE_GLASS_DARK_PURPLE : Nat := 5019
def SPR_PALETTE_GLASS_LIGHT_PURPLE : Nat := 5020
def SPR_PALETTE_GLASS_BRIGHT_PURPLE : Nat := 5021
def SPR_PALETTE_GLASS_DARK_BLUE : Nat := 5022
def SPR_PALETTE_GLASS_LIGHT_BLUE : Nat := 5023
def SPR_PALETTE_GLASS_ICY_BLUE : Nat := 5024
def SPR_PALETTE_GLASS_TEAL : Nat := 5025
def SPR_PALETTE_GLASS_AQUAMARINE : Nat := 5026
def SPR_PALETTE_GLASS_SATURATED_GREEN : Nat := 5027
def SPR_PALETTE_GLASS_DARK_GREEN : Nat := 5028
def SPR_PALETTE_GLASS_MOSS_GREEN : Nat := 5029
def SPR_PALETTE_GLASS_BRIGHT_GREEN : Nat := 5030
def SPR_PALETTE_GLASS_OLIVE_GREEN : Nat := 5031
def SPR_PALETTE_GLASS_DARK_OLIVE_GREEN : Nat := 5032
def SPR_PALETTE_GLASS_BRIGHT_YELLOW : Nat := 5033
def SPR_PALETTE_GLASS_YELLOW : Nat := 5034
def SPR_PALETTE_GLASS_DARK_YELLOW : Nat := 5035
def SPR_PALETTE_GLASS_LIGHT_ORANGE : Nat := 5036
def SPR_PALETTE_GLASS_DARK_ORANGE : Nat := 5037
def SPR_PALETTE_GLASS_LIGHT_BROWN : Nat := 5038
def SPR_PALETTE_GLASS_SATURATED_BROWN : Nat := 5039
def SPR_PALETTE_GLASS_DARK_BROWN : Nat := 5040
def SPR_PALETTE_GLASS_SALMON_PINK : Nat := 5041
def SPR_PALETTE_GLASS_BORDEAUX_RED : Nat := 5042
def SPR_PALETTE_GLASS_SATURATED_RED : Nat := 5043
def SPR_PALETTE_GLASS_BRIGHT_RED : Nat := 5044
def SPR_PALETTE_GLASS_DARK_PINK : Nat := 5045
def SPR_PALETTE_GLASS_BRIGHT_PINK : Nat := 5046
def SPR_PALETTE_GLASS_LIGHT_PINK : Nat := 5047

/-- Modelled from the spec: the colour enumeration (interface/Colour.h) is not among
the sources. `COLOUR_COUNT` is the number of colours: the arrays declared with
`COLOUR_COUNT` elements, `GlassPaletteIds` and `TranslucentWindowPalettes`,
list 32 initialisers each, from `COLOUR_BLACK` to the light pink. -/
def COLOUR_COUNT : Nat := 32

/-- Modelled from the spec: the enumeration `FILTER_PALETTE_ID` (Drawing.h) is not
among the sources. These are the enumerators Drawing.cpp names, listed in the
order in which `palette_to_g1_offset` lists the like-named `SPR_PALETTE_*`
sprites, from table position 52 on: an enumerator is an index into that table
(the table's comments name `PALETTE_WATER` at position 32 and `PALETTE_51` at
position 51). -/
inductive FILTER_PALETTE_ID where
  | PALETTE_TRANSLUCENT_GREY
  | PALETTE_TRANSLUCENT_GREY_HIGHLIGHT
  | PALETTE_TRANSLUCENT_GREY_SHADOW
  | PALETTE_TRANSLUCENT_LIGHT_BLUE
  | PALETTE_TRANSLUCENT_LIGHT_BLUE_HIGHLIGHT
  | PALETTE_TRANSLUCENT_LIGHT_BLUE_SHADOW
  | PALETTE_TRANSLUCENT_BORDEAUX_RED
  | PALETTE_TRANSLUCENT_BORDEAUX_RED_HIGHLIGHT
  | PALETTE_TRANSLUCENT_BORDEAUX_RED_SHADOW
  | PALETTE_TRANSLUCENT_DARK_GREEN
  | PALETTE_TRANSLUCENT_DARK_GREEN_HIGHLIGHT
  | PALETTE_TRANSLUCENT_DARK_GREEN_SHADOW
  | PALETTE_TRANSLUCENT_LIGHT_PURPLE
  | PALETTE_TRANSLUCENT_LIGHT_PURPLE_HIGHLIGHT
  | PALETTE_TRANSLUCENT_LIGHT_PURPLE_SHADOW
  | PALETTE_TRANSLUCENT_DARK_OLIVE_GREEN
  | PALETTE_TRANSLUCENT_DARK_OLIVE_GREEN_HIGHLIGHT
  | PALETTE_TRANSLUCENT_DARK_OLIVE_GREEN_SHADOW
  | PALETTE_TRANSLUCENT_LIGHT_BROWN
  | PALETTE_TRANSLUCENT_LIGHT_BROWN_HIGHLIGHT
  | PALETTE_TRANSLUCENT_LIGHT_BROWN_SHADOW
  | PALETTE_TRANSLUCENT_YELLOW
  | PALETTE_TRANSLUCENT_YELLOW_HIGHLIGHT
  | PALETTE_TRANSLUCENT_YELLOW_SHADOW
  | PALETTE_TRANSLUCENT_MOSS_GREEN
  | PALETTE_TRANSLUCENT_MOSS_GREEN_HIGHLIGHT
  | PALETTE_TRANSLUCENT_MOSS_GREEN_SHADOW
  | PALETTE_TRANSLUCENT_OLIVE_GREEN
  | PALETTE_TRANSLUCENT_OLIVE_GREEN_HIGHLIGHT
  | PALETTE_TRANSLUCENT_OLIVE_GREEN_SHADOW
  | PALETTE_TRANSLUCENT_BRIGHT_GREEN
  | PALETTE_TRANSLUCENT_BRIGHT_GREEN_HIGHLIGHT
  | PALETTE_TRANSLUCENT_BRIGHT_GREEN_SHADOW
  | PALETTE_TRANSLUCENT_SALMON_PINK
  | PALETTE_TRANSLUCENT_SALMON_PINK_HIGHLIGHT
  | PALETTE_TRANSLUCENT_SALMON_PINK_SHADOW
  | PALETTE_TRANSLUCENT_BRIGHT_PURPLE
  | PALETTE_TRANSLUCENT_BRIGHT_PURPLE_HIGHLIGHT
  | PALETTE_TRANSLUCENT_BRIGHT_PURPLE_SHADOW
  | PALETTE_TRANSLUCENT_BRIGHT_RED
  | PALETTE_TRANSLUCENT_BRIGHT_RED_HIGHLIGHT
  | PALETTE_TRANSLUCENT_BRIGHT_RED_SHADOW
  | PALETTE_TRANSLUCENT_LIGHT_ORANGE
  | PALETTE_TRANSLUCENT_LIGHT_ORANGE_HIGHLIGHT
  | PALETTE_TRANSLUCENT_LIGHT_ORANGE_SHADOW
  | PALETTE_TRANSLUCENT_TEAL
  | PALETTE_TRANSLUCENT_TEAL_HIGHLIGHT
  | PALETTE_TRANSLUCENT_TEAL_SHADOW
  | PALETTE_TRANSLUCENT_BRIGHT_PINK
  | PALETTE_TRANSLUCENT_BRIGHT_PINK_HIGHLIGHT
  | PALETTE_TRANSLUCENT_BRIGHT_PINK_SHADOW
  | PALETTE_TRANSLUCENT_DARK_BROWN
  | PALETTE_TRANSLUCENT_DARK_BROWN_HIGHLIGHT
  | PALETTE_TRANSLUCENT_DARK_BROWN_SHADOW
  | PALETTE_TRANSLUCENT_LIGHT_PINK
  | PALETTE_TRANSLUCENT_LIGHT_PINK_HIGHLIGHT
  | PALETTE_TRANSLUCENT_LIGHT_PINK_SHADOW
  | PALETTE_TRANSLUCENT_WHITE
  | PALETTE_TRANSLUCENT_WHITE_HIGHLIGHT
  | PALETTE_TRANSLUCENT_WHITE_SHADOW
  | PALETTE_GLASS_BLACK
  | PALETTE_GLASS_GREY
  | PALETTE_GLASS_WHITE
  | PALETTE_GLASS_DARK_PURPLE
  | PALETTE_GLASS_LIGHT_PURPLE
  | PALETTE_GLASS_BRIGHT_PURPLE
  | PALETTE_GLASS_DARK_BLUE
  | PALETTE_GLASS_LIGHT_BLUE
  | PALETTE_GLASS_ICY_BLUE
  | PALETTE_GLASS_TEAL
  | PALETTE_GLASS_AQUAMARINE
  | PALETTE_GLASS_SATURATED_GREEN
  | PALETTE_GLASS_DARK_GREEN
  | PALETTE_GLASS_MOSS_GREEN
  | PALETTE_GLASS_BRIGHT_GREEN
  | PALETTE_GLASS_OLIVE_GREEN
  | PALETTE_GLASS_DARK_OLIVE_GREEN
  | PALETTE_GLASS_BRIGHT_YELLOW
  | PALETTE_GLASS_YELLOW
  | PALETTE_GLASS_DARK_YELLOW
  | PALETTE_GLASS_LIGHT_ORANGE
  | PALETTE_GLASS_DARK_ORANGE
  | PALETTE_GLASS_LIGHT_BROWN
  | PALETTE_GLASS_SATURATED_BROWN
  | PALETTE_GLASS_DARK_BROWN
  | PALETTE_GLASS_SALMON_PINK
  | PALETTE_GLASS_BORDEAUX_RED
  | PALETTE_GLASS_SATURATED_RED
  | PALETTE_GLASS_BRIGHT_RED
  | PALETTE_GLASS_DARK_PINK
  | PALETTE_GLASS_BRIGHT_PINK
  | PALETTE_GLASS_LIGHT_PINK
  deriving DecidableEq, Repr

/-- Modelled from the spec: the numeric value of an enumerator of `FILTER_PALETTE_ID`
(Drawing.h is not among the sources): its position in `palette_to_g1_offset`,
52 for `PALETTE_TRANSLUCENT_GREY` up to 143 for `PALETTE_GLASS_LIGHT_PINK`. -/
def FILTER_PALETTE_ID.value (p : FILTER_PALETTE_ID) : Nat := 52 + p.toCtorIdx

/-- The table `const FILTER_PALETTE_ID GlassPaletteIds[COLOUR_COUNT]`. -/
def GlassPaletteIds : List FILTER_PALETTE_ID := [
  .PALETTE_GLASS_BLACK,
  .PALETTE_GLASS_GREY,
  .PALETTE_GLASS_WHITE,
  .PALETTE_GLASS_DARK_PURPLE,
  .PALETTE_GLASS_LIGHT_PURPLE,
  .PALETTE_GLASS_BRIGHT_PURPLE,
  .PALETTE_GLASS_DARK_BLUE,
  .PALETTE_GLASS_LIGHT_BLUE,
  .PALETTE_GLASS_ICY_BLUE,
  .PALETTE_GLASS_TEAL,
  .PALETTE_GLASS_AQUAMARINE,
  .PALETTE_GLASS_SATURATED_GREEN,
  .PALETTE_GLASS_DARK_GREEN,
  .PALETTE_GLASS_MOSS_GREEN,
  .PALETTE_GLASS_BRIGHT_GREEN,
  .PALETTE_GLASS_OLIVE_GREEN,
  .PALETTE_GLASS_DARK_OLIVE_GREEN,
  .PALETTE_GLASS_BRIGHT_YELLOW,
  .PALETTE_GLASS_YELLOW,
  .PALETTE_GLASS_DARK_YELLOW,
  .PALETTE_GLASS_LIGHT_ORANGE,
  .PALETTE_GLASS_DARK_ORANGE,
  .PALETTE_GLASS_LIGHT_BROWN,
  .PALETTE_GLASS_SATURATED_BROWN,
  .PALETTE_GLASS_DARK_BROWN,
  .PALETTE_GLASS_SALMON_PINK,
  .PALETTE_GLASS_BORDEAUX_RED,
  .PALETTE_GLASS_SATURATED_RED,
  .PALETTE_GLASS_BRIGHT_RED,
  .PALETTE_GLASS_DARK_PINK,
  .PALETTE_GLASS_BRIGHT_PINK,
  .PALETTE_GLASS_LIGHT_PINK]

/-- The table `static const uint16_t palette_to_g1_offset[PALETTE_TO_G1_OFFSET_COUNT]`:
its 144 initialisers (the macro `PALETTE_TO_G1_OFFSET_COUNT` is defined in
Drawing.h, which is not among the sources). -/
def palette_to_g1_offset : List Nat := [
  SPR_PALETTE_BLACK,
  SPR_PALETTE_GREY,
  SPR_PALETTE_WHITE,
  SPR_PALETTE_DARK_PURPLE,
  SPR_PALETTE_LIGHT_PURPLE,
  SPR_PALETTE_BRIGHT_PURPLE,
  SPR_PALETTE_DARK_BLUE,
  SPR_PALETTE_LIGHT_BLUE,
  SPR_PALETTE_ICY_BLUE,
  SPR_PALETTE_TEAL,
  SPR_PALETTE_AQUAMARINE,
  SPR_PALETTE_SATURATED_GREEN,
  SPR_PALETTE_DARK_GREEN,
  SPR_PALETTE_MOSS_GREEN,
  SPR_PALETTE_BRIGHT_GREEN,
  SPR_PALETTE_OLIVE_GREEN,
  SPR_PALETTE_DARK_OLIVE_GREEN,
  SPR_PALETTE_BRIGHT_YELLOW,
  SPR_PALETTE_YELLOW,
  SPR_PALETTE_DARK_YELLOW,
  SPR_PALETTE_LIGHT_ORANGE,
  SPR_PALETTE_DARK_ORANGE,
  SPR_PALETTE_LIGHT_BROWN,
  SPR_PALETTE_SATURATED_BROWN,
  SPR_PALETTE_DARK_BROWN,
  SPR_PALETTE_SALMON_PINK,
  SPR_PALETTE_BORDEAUX_RED,
  SPR_PALETTE_SATURATED_RED,
  SPR_PALETTE_BRIGHT_RED,
  SPR_PALETTE_DARK_PINK,
  SPR_PALETTE_BRIGHT_PINK,
  SPR_PALETTE_LIGHT_PINK,
  SPR_PALETTE_WATER,
  SPR_PALETTE_3100,
  SPR_PALETTE_3101,
  SPR_PALETTE_3102,
  SPR_PALETTE_3103,
  SPR_PALETTE_3104,
  SPR_PALETTE_3106,
  SPR_PALETTE_3107,
  SPR_PALETTE_3108,
  SPR_PALETTE_3109,
  SPR_PALETTE_3110,
  SPR_PALETTE_3105,
  SPR_PALETTE_4948,
  SPR_PALETTE_4949,
  SPR_PALETTE_4950,
  SPR_PALETTE_DARKEN_3,
  SPR_PALETTE_4952,
  SPR_PALETTE_DARKEN_1,
  SPR_PALETTE_DARKEN_2,
  SPR_PALETTE_4955,
  SPR_PALETTE_TRANSLUCENT_GREY,
  SPR_PALETTE_TRANSLUCENT_GREY_HIGHLIGHT,
  SPR_PALETTE_TRANSLUCENT_GREY_SHADOW,
  SPR_PALETTE_TRANSLUCENT_LIGHT_BLUE,
  SPR_PALETTE_TRANSLUCENT_LIGHT_BLUE_HIGHLIGHT,
  SPR_PALETTE_TRANSLUCENT_LIGHT_BLUE_SHADOW,
  SPR_PALETTE_TRANSLUCENT_BORDEAUX_RED,
  SPR_PALETTE_TRANSLUCENT_BORDEAUX_RED_HIGHLIGHT,
  SPR_PALETTE_TRANSLUCENT_BORDEAUX_RED_SHADOW,
  SPR_PALETTE_TRANSLUCENT_DARK_GREEN,
  SPR_PALETTE_TRANSLUCENT_DARK_GREEN_HIGHLIGHT,
  SPR_PALETTE_TRANSLUCENT_DARK_GREEN_SHADOW,
  SPR_PALETTE_TRANSLUCENT_LIGHT_PURPLE,
  SPR_PALETTE_TRANSLUCENT_LIGHT_PURPLE_HIGHLIGHT,
  SPR_PALETTE_TRANSLUCENT_LIGHT_PURPLE_SHADOW,
  SPR_PALETTE_TRANSLUCENT_DARK_OLIVE_GREEN,
  SPR_PALETTE_TRANSLUCENT_DARK_OLIVE_GREEN_HIGHLIGHT,
  SPR_PALETTE_TRANSLUCENT_DARK_OLIVE_GREEN_SHADOW,
  SPR_PALETTE_TRANSLUCENT_LIGHT_BROWN,
  SPR_PALETTE_TRANSLUCENT_LIGHT_BROWN_HIGHLIGHT,
  SPR_PALETTE_TRANSLUCENT_LIGHT_BROWN_SHADOW,
  SPR_PALETTE_TRANSLUCENT_YELLOW,
  SPR_PALETTE_TRANSLUCENT_YELLOW_HIGHLIGHT,
  SPR_PALETTE_TRANSLUCENT_YELLOW_SHADOW,
  SPR_PALETTE_TRANSLUCENT_MOSS_GREEN,
  SPR_PALETTE_TRANSLUCENT_MOSS_GREEN_HIGHLIGHT,
  SPR_PALETTE_TRANSLUCENT_MOSS_GREEN_SHADOW,
  SPR_PALETTE_TRANSLUCENT_OLIVE_GREEN,
  SPR_PALETTE_TRANSLUCENT_OLIVE_GREEN_HIGHLIGHT,
  SPR_PALETTE_TRANSLUCENT_OLIVE_GREEN_SHADOW,
  SPR_PALETTE_TRANSLUCENT_BRIGHT_GREEN,
  SPR_PALETTE_TRANSLUCENT_BRIGHT_GREEN_HIGHLIGHT,
  SPR_PALETTE_TRANSLUCENT_BRIGHT_GREEN_SHADOW,
  SPR_PALETTE_TRANSLUCENT_SALMON_PINK,
  SPR_PALETTE_TRANSLUCENT_SALMON_PINK_HIGHLIGHT,
  SPR_PALETTE_TRANSLUCENT_SALMON_PINK_SHADOW,
  SPR_PALETTE_TRANSLUCENT_BRIGHT_PURPLE,
  SPR_PALETTE_TRANSLUCENT_BRIGHT_PURPLE_HIGHLIGHT,
  SPR_PALETTE_TRANSLUCENT_BRIGHT_PURPLE_SHADOW,
  SPR_PALETTE_TRANSLUCENT_BRIGHT_RED,
  SPR_PALETTE_TRANSLUCENT_BRIGHT_RED_HIGHLIGHT,
  SPR_PALETTE_TRANSLUCENT_BRIGHT_RED_SHADOW,
  SPR_PALETTE_TRANSLUCENT_LIGHT_ORANGE,
  SPR_PALETTE_TRANSLUCENT_LIGHT_ORANGE_HIGHLIGHT,
  SPR_PALETTE_TRANSLUCENT_LIGHT_ORANGE_SHADOW,
  SPR_PALETTE_TRANSLUCENT_TEAL,
  SPR_PALETTE_TRANSLUCENT_TEAL_HIGHLIGHT,
  SPR_PALETTE_TRANSLUCENT_TEAL_SHADOW,
  SPR_PALETTE_TRANSLUCENT_BRIGHT_PINK,
  SPR_PALETTE_TRANSLUCENT_BRIGHT_PINK_HIGHLIGHT,
  SPR_PALETTE_TRANSLUCENT_BRIGHT_PINK_SHADOW,
  SPR_PALETTE_TRANSLUCENT_DARK_BROWN,
  SPR_PALETTE_TRANSLUCENT_DARK_BROWN_HIGHLIGHT,
  SPR_PALETTE_TRANSLUCENT_DARK_BROWN_SHADOW,
  SPR_PALETTE_TRANSLUCENT_LIGHT_PINK,
  SPR_PALETTE_TRANSLUCENT_LIGHT_PINK_HIGHLIGHT,
  SPR_PALETTE_TRANSLUCENT_LIGHT_PINK_SHADOW,
  SPR_PALETTE_TRANSLUCENT_WHITE,
  SPR_PALETTE_TRANSLUCENT_WHITE_HIGHLIGHT,
  SPR_PALETTE_TRANSLUCENT_WHITE_SHADOW,
  SPR_PALETTE_GLASS_BLACK,
  SPR_PALETTE_GLASS_GREY,
  SPR_PALETTE_GLASS_WHITE,
  SPR_PALETTE_GLASS_DARK_PURPLE,
  SPR_PALETTE_GLASS_LIGHT_PURPLE,
  SPR_PALETTE_GLASS_BRIGHT_PURPLE,
  SPR_PALETTE_GLASS_DARK_BLUE,
  SPR_PALETTE_GLASS_LIGHT_BLUE,
  SPR_PALETTE_GLASS_ICY_BLUE,
  SPR_PALETTE_GLASS_TEAL,
  SPR_PALETTE_GLASS_AQUAMARINE,
  SPR_PALETTE_GLASS_SATURATED_GREEN,
  SPR_PALETTE_GLASS_DARK_GREEN,
  SPR_PALETTE_GLASS_MOSS_GREEN,
  SPR_PALETTE_GLASS_BRIGHT_GREEN,
  SPR_PALETTE_GLASS_OLIVE_GREEN,
  SPR_PALETTE_GLASS_DARK_OLIVE_GREEN,
  SPR_PALETTE_GLASS_BRIGHT_YELLOW,
  SPR_PALETTE_GLASS_YELLOW,
  SPR_PALETTE_GLASS_DARK_YELLOW,
  SPR_PALETTE_GLASS_LIGHT_ORANGE,
  SPR_PALETTE_GLASS_DARK_ORANGE,
  SPR_PALETTE_GLASS_LIGHT_BROWN,
  SPR_PALETTE_GLASS_SATURATED_BROWN,
  SPR_PALETTE_GLASS_DARK_BROWN,
  SPR_PALETTE_GLASS_SALMON_PINK,
  SPR_PALETTE_GLASS_BORDEAUX_RED,
  SPR_PALETTE_GLASS_SATURATED_RED,
  SPR_PALETTE_GLASS_BRIGHT_RED,
  SPR_PALETTE_GLASS_DARK_PINK,
  SPR_PALETTE_GLASS_BRIGHT_PINK,
  SPR_PALETTE_GLASS_LIGHT_PINK]

/-- Modelled from the spec: the structure `translucent_window_palette` (Drawing.h, not
among the sources): spec §4.2 "the three image indices (body, highlight,
shadow) for the colour's translucent window skin". -/
structure translucent_window_palette where
  base : FILTER_PALETTE_ID
  highlight : FILTER_PALETTE_ID
  shadow : FILTER_PALETTE_ID
  deriving DecidableEq, Repr

def WINDOW_PALETTE_GREY : translucent_window_palette :=
  ⟨.PALETTE_TRANSLUCENT_GREY, .PALETTE_TRANSLUCENT_GREY_HIGHLIGHT, .PALETTE_TRANSLUCENT_GREY_SHADOW⟩

def WINDOW_PALETTE_LIGHT_PURPLE : translucent_window_palette :=
  ⟨.PALETTE_TRANSLUCENT_LIGHT_PURPLE, .PALETTE_TRANSLUCENT_LIGHT_PURPLE_HIGHLIGHT, .PALETTE_TRANSLUCENT_LIGHT_PURPLE_SHADOW⟩

def WINDOW_PALETTE_LIGHT_BLUE : translucent_window_palette :=
  ⟨.PALETTE_TRANSLUCENT_LIGHT_BLUE, .PALETTE_TRANSLUCENT_LIGHT_BLUE_HIGHLIGHT, .PALETTE_TRANSLUCENT_LIGHT_BLUE_SHADOW⟩

def WINDOW_PALETTE_TEAL : translucent_window_palette :=
  ⟨.PALETTE_TRANSLUCENT_TEAL, .PALETTE_TRANSLUCENT_TEAL_HIGHLIGHT, .PALETTE_TRANSLUCENT_TEAL_SHADOW⟩

def WINDOW_PALETTE_BRIGHT_GREEN : translucent_window_palette :=
  ⟨.PALETTE_TRANSLUCENT_BRIGHT_GREEN, .PALETTE_TRANSLUCENT_BRIGHT_GREEN_HIGHLIGHT, .PALETTE_TRANSLUCENT_BRIGHT_GREEN_SHADOW⟩

def WINDOW_PALETTE_YELLOW : translucent_window_palette :=
  ⟨.PALETTE_TRANSLUCENT_YELLOW, .PALETTE_TRANSLUCENT_YELLOW_HIGHLIGHT, .PALETTE_TRANSLUCENT_YELLOW_SHADOW⟩

def WINDOW_PALETTE_LIGHT_ORANGE : translucent_window_palette :=
  ⟨.PALETTE_TRANSLUCENT_LIGHT_ORANGE, .PALETTE_TRANSLUCENT_LIGHT_ORANGE_HIGHLIGHT, .PALETTE_TRANSLUCENT_LIGHT_ORANGE_SHADOW⟩

def WINDOW_PALETTE_LIGHT_BROWN : translucent_window_palette :=
  ⟨.PALETTE_TRANSLUCENT_LIGHT_BROWN, .PALETTE_TRANSLUCENT_LIGHT_BROWN_HIGHLIGHT, .PALETTE_TRANSLUCENT_LIGHT_BROWN_SHADOW⟩

def WINDOW_PALETTE_BRIGHT_RED : translucent_window_palette :=
  ⟨.PALETTE_TRANSLUCENT_BRIGHT_RED, .PALETTE_TRANSLUCENT_BRIGHT_RED_HIGHLIGHT, .PALETTE_TRANSLUCENT_BRIGHT_RED_SHADOW⟩

def WINDOW_PALETTE_BRIGHT_PINK : translucent_window_palette :=
  ⟨.PALETTE_TRANSLUCENT_BRIGHT_PINK, .PALETTE_TRANSLUCENT_BRIGHT_PINK_HIGHLIGHT, .PALETTE_TRANSLUCENT_BRIGHT_PINK_SHADOW⟩

/-- The table `const translucent_window_palette TranslucentWindowPalettes[COLOUR_COUNT]`. -/
def TranslucentWindowPalettes : List translucent_window_palette := [
  WINDOW_PALETTE_GREY,
  WINDOW_PALETTE_GREY,
  ⟨.PALETTE_TRANSLUCENT_WHITE, .PALETTE_TRANSLUCENT_WHITE_HIGHLIGHT,
    .PALETTE_TRANSLUCENT_WHITE_SHADOW⟩,
  WINDOW_PALETTE_LIGHT_PURPLE,
  WINDOW_PALETTE_LIGHT_PURPLE,
  ⟨.PALETTE_TRANSLUCENT_BRIGHT_PURPLE, .PALETTE_TRANSLUCENT_BRIGHT_PURPLE_HIGHLIGHT,
    .PALETTE_TRANSLUCENT_BRIGHT_PURPLE_SHADOW⟩,
  WINDOW_PALETTE_LIGHT_BLUE,
  WINDOW_PALETTE_LIGHT_BLUE,
  WINDOW_PALETTE_LIGHT_BLUE,
  WINDOW_PALETTE_TEAL,
  WINDOW_PALETTE_TEAL,
  WINDOW_PALETTE_BRIGHT_GREEN,
  ⟨.PALETTE_TRANSLUCENT_DARK_GREEN, .PALETTE_TRANSLUCENT_DARK_GREEN_HIGHLIGHT,
    .PALETTE_TRANSLUCENT_DARK_GREEN_SHADOW⟩,
  ⟨.PALETTE_TRANSLUCENT_MOSS_GREEN, .PALETTE_TRANSLUCENT_MOSS_GREEN_HIGHLIGHT,
    .PALETTE_TRANSLUCENT_MOSS_GREEN_SHADOW⟩,
  WINDOW_PALETTE_BRIGHT_GREEN,
  ⟨.PALETTE_TRANSLUCENT_OLIVE_GREEN, .PALETTE_TRANSLUCENT_OLIVE_GREEN_HIGHLIGHT,
    .PALETTE_TRANSLUCENT_OLIVE_GREEN_SHADOW⟩,
  ⟨.PALETTE_TRANSLUCENT_DARK_OLIVE_GREEN, .PALETTE_TRANSLUCENT_DARK_OLIVE_GREEN_HIGHLIGHT,
    .PALETTE_TRANSLUCENT_DARK_OLIVE_GREEN_SHADOW⟩,
  WINDOW_PALETTE_YELLOW,
  WINDOW_PALETTE_YELLOW,
  WINDOW_PALETTE_YELLOW,
  WINDOW_PALETTE_LIGHT_ORANGE,
  WINDOW_PALETTE_LIGHT_ORANGE,
  WINDOW_PALETTE_LIGHT_BROWN,
  WINDOW_PALETTE_LIGHT_BROWN,
  ⟨.PALETTE_TRANSLUCENT_DARK_BROWN, .PALETTE_TRANSLUCENT_DARK_BROWN_HIGHLIGHT,
    .PALETTE_TRANSLUCENT_DARK_BROWN_SHADOW⟩,
  ⟨.PALETTE_TRANSLUCENT_SALMON_PINK, .PALETTE_TRANSLUCENT_SALMON_PINK_HIGHLIGHT,
    .PALETTE_TRANSLUCENT_SALMON_PINK_SHADOW⟩,
  ⟨.PALETTE_TRANSLUCENT_BORDEAUX_RED, .PALETTE_TRANSLUCENT_BORDEAUX_RED_HIGHLIGHT,
    .PALETTE_TRANSLUCENT_BORDEAUX_RED_SHADOW⟩,
  WINDOW_PALETTE_BRIGHT_RED,
  WINDOW_PALETTE_BRIGHT_RED,
  WINDOW_PALETTE_BRIGHT_PINK,
  WINDOW_PALETTE_BRIGHT_PINK,
  ⟨.PALETTE_TRANSLUCENT_LIGHT_PINK, .PALETTE_TRANSLUCENT_LIGHT_PINK_HIGHLIGHT,
    .PALETTE_TRANSLUCENT_LIGHT_PINK_SHADOW⟩]

/-- The translucent skin an enumerator belongs to: the enumerators
`PALETTE_TRANSLUCENT_X`, `PALETTE_TRANSLUCENT_X_HIGHLIGHT` and
`PALETTE_TRANSLUCENT_X_SHADOW` of one skin `X` are three consecutive values,
the skins starting at 52, 55, ..., 109; `none` for a glass enumerator. -/
def FILTER_PALETTE_ID.skin (p : FILTER_PALETTE_ID) : Option Nat :=
  if p.value < 112 then some ((p.value - 52) / 3) else none

/-- The role of a translucent enumerator within its skin: 0 for the body
`PALETTE_TRANSLUCENT_X`, 1 for `..._HIGHLIGHT`, 2 for `..._SHADOW`. -/
def FILTER_PALETTE_ID.skinPart (p : FILTER_PALETTE_ID) : Nat := (p.value - 52) % 3

/-- The function `std::optional<uint32_t> GetPaletteG1Index(colour_t paletteId)`. -/
def GetPaletteG1Index (paletteId : Nat) : Option Nat :=
  if paletteId < palette_to_g1_offset.length then palette_to_g1_offset[paletteId]?
  else none

/-! ## PaletteMap: the mutable accessor and the writes of `GetDefault` -/

/-- The store `map[index] = value` through the reference returned by
`uint8_t& PaletteMap::operator[](size_t index)`: the map and the function-local
static `dummy` after the store, given `dummy` before it. -/
def PaletteMap.set (m : PaletteMap) (dummy : Nat) (index value : Nat) : PaletteMap × Nat :=
  if index ≥ m.dataLength then (m, value)
  else ({ m with data := m.data.set index value }, dummy)

/-- The stores into the static array `data` that one call of `PaletteMap::GetDefault`
performs, in order, as pairs (index, value). -/
def PaletteMap.GetDefaultWrites (s : DefaultStatics) : List (Nat × Nat) :=
  if !s.initialised then (List.range s.data.length).map fun i => (i, i % 256) else []

/-! ## Loading the palette -/

/-- Modelled from the spec: the structure `rct_g1_element` (Drawing.h, not among the
sources). Spec §6: `resolveImage(id) -> element{width, height, xOffset,
yOffset, pixelData}`. `offset` is the buffer the pointer `offset` designates;
the four geometry fields are `int16_t`. -/
structure rct_g1_element where
  offset : List Nat
  width : Int
  height : Int
  x_offset : Int
  y_offset : Int
  deriving DecidableEq, Repr

/-- Modelled from the spec: the structure `rct_water_type` (world/Water.h, not among
the sources), of which `load_palette` reads the field `image_id` only
(spec §6: the water object's "image reference"). -/
structure rct_water_type where
  image_id : Nat
  deriving DecidableEq, Repr

/-- What `load_palette` reads from its collaborators: the flag
`gOpenRCT2NoGraphics`, the result of `object_entry_get_chunk(OBJECT_TYPE_WATER, 0)`
(`none` for `nullptr`), the function `gfx_get_g1_element` (`none` for
`nullptr`), and the results of `context_get_width()` and
`context_get_height()`. -/
structure DrawEnv where
  gOpenRCT2NoGraphics : Bool
  water_type : Option rct_water_type
  gfx_get_g1_element : Nat → Option rct_g1_element
  context_get_width : Int
  context_get_height : Int

/-- The calls `load_palette` makes to its collaborators, with their arguments. -/
inductive DrawCall where
  | gfx_get_g1_element (image_id : Nat)
  | platform_update_palette (colours : List Nat) (start_index num_colours : Int)
  | gfx_set_dirty_blocks (left top right bottom : Int)
  deriving DecidableEq, Repr

/-- The value of the local `palette` of `load_palette` when `gfx_get_g1_element` is
called: `0x5FC`, replaced by the water object's `image_id` when there is one.
The guard `openrct2_assert(water_type->image_id != 0xFFFFFFFF, ...)` does not
change it. -/
def load_palette_image (water_type : Option rct_water_type) : Nat :=
  match water_type with
  | none => 0x5FC
  | some w => w.image_id

/-- The loop `for (; width > 0; width--) { dst[0] = src[0]; dst[1] = src[1];
dst[2] = src[2]; src += 3; dst += 4; }` with `width` iterations left, `dst`
at byte offset `dstOffset` of the buffer `palette` and `src` at byte offset
`srcOffset` of the image data: the buffer after the loop, `none` when a store
or a load leaves its buffer. -/
def copyPaletteEntries : Nat → List Nat → Int → List Nat → Nat → Option (List Nat)
  | 0, palette, _, _, _ => some palette
  | width + 1, palette, dstOffset, src, srcOffset =>
    if 0 ≤ dstOffset ∧ dstOffset + 2 < palette.length ∧ srcOffset + 2 < src.length then
      let d := dstOffset.toNat
      let palette := palette.set d (src.getD srcOffset 0)
      let palette := palette.set (d + 1) (src.getD (srcOffset + 1) 0)
      let palette := palette.set (d + 2) (src.getD (srcOffset + 2) 0)
      copyPaletteEntries width palette (dstOffset + 4) src (srcOffset + 3)
    else none

/-- The body `gfx_set_dirty_blocks(0, 0, context_get_width(), context_get_height())`
of `gfx_invalidate_screen`. -/
def gfx_invalidate_screen (env : DrawEnv) : List DrawCall :=
  [DrawCall.gfx_set_dirty_blocks 0 0 env.context_get_width env.context_get_height]

/-- The function `void load_palette()`: the global `gGamePalette` after the call and
the calls made to the collaborators, in order, given `gGamePalette` before the
call; `none` when the copy loop leaves `gGamePalette` or the image data. -/
def load_palette (env : DrawEnv) (gGamePalette : List Nat) : Option (List Nat × List DrawCall) :=
  if env.gOpenRCT2NoGraphics then some (gGamePalette, [])
  else
    let palette := load_palette_image env.water_type
    let copied : Option (List Nat) :=
      match env.gfx_get_g1_element palette with
      | none => some gGamePalette
      | some g1 =>
        let width := wrap32 g1.width
        let x := wrap32 g1.x_offset
        copyPaletteEntries width.toNat gGamePalette (x * 4) g1.offset 0
    copied.map fun buffer =>
      (buffer,
        [DrawCall.gfx_get_g1_element palette, DrawCall.platform_update_palette buffer 10 236] ++
          gfx_invalidate_screen env)

/-- Byte `j` of the palette buffer is one of the bytes 0, 1, 2 of a slot in
`x .. x + w - 1`. -/
def InLoadedSlots (x w j : Nat) : Prop := 4 * x ≤ j ∧ j < 4 * (x + w) ∧ j % 4 ≠ 3

instance (x w j : Nat) : Decidable (InLoadedSlots x w j) := by
  unfold InLoadedSlots; exact inferInstance

/-- The call is a dirty mark `gfx_set_dirty_blocks(...)`. -/
def DrawCall.isDirtyMark : DrawCall → Bool
  | .gfx_set_dirty_blocks _ _ _ _ => true
  | _ => false

/-- The call is a palette update `platform_update_palette(...)`. -/
def DrawCall.isPaletteUpdate : DrawCall → Bool
  | .platform_update_palette _ _ _ => true
  | _ => false

/-! ## The picked-up peep and the transposed palette -/

/-- The constant `UINT32_MAX`. -/
def UINT32_MAX : Nat := 4294967295

/-- The globals `gPickupPeepImage`, `gPickupPeepX` and `gPickupPeepY`. -/
structure PickupPeep where
  gPickupPeepImage : Nat
  gPickupPeepX : Int
  gPickupPeepY : Int
  deriving DecidableEq, Repr

/-- The function `void gfx_invalidate_pickedup_peep()`: the calls it makes to its
collaborators, in order. -/
def gfx_invalidate_pickedup_peep (env : DrawEnv) (g : PickupPeep) : List DrawCall :=
  let sprite := g.gPickupPeepImage
  if sprite ≠ UINT32_MAX then
    match env.gfx_get_g1_element (sprite &&& 0x7FFFF) with
    | some g1 =>
      let left := wrap32 (g.gPickupPeepX + g1.x_offset)
      let top := wrap32 (g.gPickupPeepY + g1.y_offset)
      let right := wrap32 (left + g1.width)
      let bottom := wrap32 (top + g1.height)
      [DrawCall.gfx_get_g1_element (sprite &&& 0x7FFFF),
        DrawCall.gfx_set_dirty_blocks left top right bottom]
    | none => [DrawCall.gfx_get_g1_element (sprite &&& 0x7FFFF)]
  else []

/-- The channel value `(source_pointer[k] * product) >> 8` stored into the `uint8_t`
`dest_pointer[k]` by `gfx_transpose_palette`. -/
def transposeChannel (s product : Nat) : Nat := ((s * product) >>> 8) % 256

/-- The loop `for (; width > 0; width--) { dest_pointer[0] = (source_pointer[0] *
product) >> 8; ...; source_pointer += 3; dest_pointer += 4; }` of
`gfx_transpose_palette`, with `width` iterations left: the buffer after the
loop, `none` when a store or a load leaves its buffer. -/
def transposePaletteEntries : Nat → List Nat → Int → List Nat → Nat → Nat → Option (List Nat)
  | 0, palette, _, _, _, _ => some palette
  | width + 1, palette, dstOffset, src, srcOffset, product =>
    if 0 ≤ dstOffset ∧ dstOffset + 2 < palette.length ∧ srcOffset + 2 < src.length then
      let d := dstOffset.toNat
      let palette := palette.set d (transposeChannel (src.getD srcOffset 0) product)
      let palette := palette.set (d + 1) (transposeChannel (src.getD (srcOffset + 1) 0) product)
      let palette := palette.set (d + 2) (transposeChannel (src.getD (srcOffset + 2) 0) product)
      transposePaletteEntries width palette (dstOffset + 4) src (srcOffset + 3) product
    else none

/-- The function `void gfx_transpose_palette(int32_t pal, uint8_t product)`: the global
`gGamePalette` after the call and the calls made to the collaborators, in
order; `none` when the loop leaves `gGamePalette` or the image data. -/
def gfx_transpose_palette (env : DrawEnv) (pal product : Nat) (gGamePalette : List Nat) :
    Option (List Nat × List DrawCall) :=
  match env.gfx_get_g1_element pal with
  | some g1 =>
    let width := wrap32 g1.width
    let x := wrap32 g1.x_offset
    (transposePaletteEntries width.toNat gGamePalette (x * 4) g1.offset 0 product).map
      fun buffer =>
        (buffer,
          [DrawCall.gfx_get_g1_element pal, DrawCall.platform_update_palette buffer 10 236])
  | none => some (gGamePalette, [DrawCall.gfx_get_g1_element pal])

/-! ## Editor: the selected-object flags -/

/-- The static `std::array<std::vector<uint8_t>, OBJECT_TYPE_COUNT> _editorSelectedObjectFlags`
of Editor.cpp: the vector of each object type (`objectType` ranging over the
valid array indices). -/
abbrev EditorSelectedObjectFlags := Nat → List Nat

/-- The call `list.resize(n)` on a `std::vector<uint8_t>`: truncation, or padding with
zero bytes. -/
def vectorResize (list : List Nat) (n : Nat) : List Nat :=
  if n ≤ list.length then list.take n else list ++ List.replicate (n - list.length) 0

/-- The operand `~flags` for a `uint32_t flags`. -/
def notU32 (flags : Nat) : Nat := 4294967295 - flags % 4294967296

/-- The function `uint8_t Editor::GetSelectedObjectFlags(int32_t objectType, size_t index)`. -/
def GetSelectedObjectFlags (st : EditorSelectedObjectFlags) (objectType index : Nat) : Nat :=
  let list := st objectType
  if list.length > index then list.getD index 0 else 0

/-- The function
`void Editor::ClearSelectedObject(int32_t objectType, size_t index, uint32_t flags)`:
the flag store after the call. -/
def ClearSelectedObject (st : EditorSelectedObjectFlags) (objectType index flags : Nat) :
    EditorSelectedObjectFlags :=
  let list := st objectType
  let list := if list.length ≤ index then vectorResize list (index + 1) else list
  let list := list.set index ((list.getD index 0 &&& notU32 flags) % 256)
  Function.update st objectType list

/-- The function
`void Editor::SetSelectedObject(int32_t objectType, size_t index, uint32_t flags)`:
the flag store after the call. -/
def SetSelectedObject (st : EditorSelectedObjectFlags) (objectType index flags : Nat) :
    EditorSelectedObjectFlags :=
  let list := st objectType
  let list := if list.length ≤ index then vectorResize list (index + 1) else list
  let list := list.set index ((list.getD index 0 ||| flags) % 256)
  Function.update st objectType list

/-- Every stored flag byte is a `uint8_t`. -/
def EditorSelectedObjectFlags.Bytes (st : EditorSelectedObjectFlags) : Prop :=
  ∀ objectType index, GetSelectedObjectFlags st objectType index < 256

/-! ## Viewport interaction: the closest peep -/

/-- The constant `std::numeric_limits<int32_t>::max()`. -/
def INT32_MAX : Int := 2147483647

/-- Modelled from the spec: the class `Peep` (peep/Peep.h) is not among the sources,
and the spec leaves hit-testing to a collaborator. Of a peep the function reads
the four `int16_t` fields of the sprite box; `sprite_index` identifies the
peep. -/
structure Peep where
  sprite_index : Nat
  sprite_left : Int
  sprite_right : Int
  sprite_top : Int
  sprite_bottom : Int
  deriving DecidableEq, Repr

/-- Modelled from the spec: the structure `rct_viewport` (interface/Viewport.h) is not
among the sources; the function reads its screen position `pos`, its view
position `viewPos` and its zoom level `zoom`. -/
structure rct_viewport where
  pos : ScreenCoordsXY
  viewPos : ScreenCoordsXY
  zoom : Int
  deriving DecidableEq, Repr

/-- The expression `abs(((peep->sprite_left + peep->sprite_right) / 2) - screenCoords.x)
+ abs(((peep->sprite_top + peep->sprite_bottom) / 2) - screenCoords.y)` in
`int32_t` arithmetic; the division truncates towards zero. -/
def peepDistance (peep : Peep) (target : ScreenCoordsXY) : Int :=
  wrap32
    (wrap32 (Int.natAbs (wrap32 (Int.tdiv (peep.sprite_left + peep.sprite_right) 2 - target.x))) +
      wrap32 (Int.natAbs (wrap32 (Int.tdiv (peep.sprite_top + peep.sprite_bottom) 2 - target.y))))

/-- The loop `for (auto peep : EntityList<Peep>(SPRITE_LIST_PEEP)) { ... }` over the
remaining peeps, from the current `(closestPeep, closestDistance)`. The value
of `LOCATION_NULL` (world/Location.hpp, not among the sources) is a parameter. -/
def closestPeepLoop (LOCATION_NULL : Int) (target : ScreenCoordsXY) (maxDistance : Int) :
    List Peep → Option Peep × Int → Option Peep × Int
  | [], acc => acc
  | peep :: rest, acc =>
    if peep.sprite_left = LOCATION_NULL then
      closestPeepLoop LOCATION_NULL target maxDistance rest acc
    else
      let distance := peepDistance peep target
      if distance > maxDistance then closestPeepLoop LOCATION_NULL target maxDistance rest acc
      else if distance < acc.2 then
        closestPeepLoop LOCATION_NULL target maxDistance rest (some peep, distance)
      else closestPeepLoop LOCATION_NULL target maxDistance rest acc

/-- The point `screenCoords` after the two assignments
`screenCoords.x = ((screenCoords.x - viewport->pos.x) * viewport->zoom) + viewport->viewPos.x`
and likewise for `y`. The operator `*` between an `int32_t` and the zoom level
is declared in a header that is not among the sources: it is the parameter
`zoomScale`. -/
def viewportTarget (zoomScale : Int → Int → Int) (viewport : rct_viewport)
    (screenCoords : ScreenCoordsXY) : ScreenCoordsXY :=
  { x := wrap32 (zoomScale (wrap32 (screenCoords.x - viewport.pos.x)) viewport.zoom +
      viewport.viewPos.x)
    y := wrap32 (zoomScale (wrap32 (screenCoords.y - viewport.pos.y)) viewport.zoom +
      viewport.viewPos.y) }

/-- The function `static Peep* viewport_interaction_get_closest_peep(ScreenCoordsXY
screenCoords, int32_t maxDistance)`. `window` is the result of
`window_find_from_point(screenCoords)` reduced to its viewport (`none` for no
window, `some none` for a window without viewport), `peeps` the entity list of
peeps in iteration order; the result `none` is `nullptr`. -/
def viewport_interaction_get_closest_peep (LOCATION_NULL : Int) (zoomScale : Int → Int → Int)
    (window : Option (Option rct_viewport)) (peeps : List Peep) (screenCoords : ScreenCoordsXY)
    (maxDistance : Int) : Option Peep :=
  match window with
  | none => none
  | some none => none
  | some (some viewport) =>
    if viewport.zoom ≥ 2 then none
    else
      let target := viewportTarget zoomScale viewport screenCoords
      (closestPeepLoop LOCATION_NULL target maxDistance peeps (none, INT32_MAX)).1

/-- A peep the loop can select when the closest distance so far is `bound`: its
`sprite_left` is not null and its distance is at most `maxDistance` and below
`bound`. -/
def PeepEligible (LOCATION_NULL : Int) (target : ScreenCoordsXY) (maxDistance bound : Int)
    (q : Peep) : Prop :=
  q.sprite_left ≠ LOCATION_NULL ∧ peepDistance q target ≤ maxDistance ∧
    peepDistance q target < bound

instance (LOCATION_NULL : Int) (target : ScreenCoordsXY) (maxDistance bound : Int) (q : Peep) :
    Decidable (PeepEligible LOCATION_NULL target maxDistance bound q) := by
  unfold PeepEligible; exact inferInstance

/-! ## Viewport interaction: the tile under the cursor -/

/-- The type `CoordsXY`: a pair of `int32_t` map coordinates. -/
structure CoordsXY where
  x : Int
  y : Int
  deriving DecidableEq, Repr

/-- The function `std::clamp(v, lo, hi)`. -/
def clamp (v lo hi : Int) : Int := if v < lo then lo else if hi < v then hi else v

/-- Modelled from the spec: the method `CoordsXY::ToTileStart` (world/Location.hpp) is
not among the sources; claim C30 has it round each coordinate down to its tile
start, the multiple of the tile size 32 at or below it. -/
def CoordsXY.ToTileStart (c : CoordsXY) : CoordsXY :=
  { x := 32 * (c.x / 32), y := 32 * (c.y / 32) }

/-- What `sub_68A15E` obtains before its loop: the outputs `mapCoords` and
`interactionType` of `get_map_coordinates_from_pos`, the value of
`tileElement->AsSurface()->GetWaterHeight()`, and the result of
`screen_coord_to_viewport_coord(viewport, screenCoords)`. -/
structure HitTest where
  mapCoords : CoordsXY
  interactionType : Int
  waterHeight : Int
  initialVPPos : ScreenCoordsXY
  deriving DecidableEq, Repr

/-- The collaborators of `sub_68A15E` that are not among the sources: the two
enumerators it compares against, `CoordsXY::setNull`, and the functions
`tile_element_height` and `viewport_coord_to_map_coord`, which may answer
differently at each of the five iterations (first argument). -/
structure MapEnv where
  VIEWPORT_INTERACTION_ITEM_NONE : Int
  VIEWPORT_INTERACTION_ITEM_WATER : Int
  setNull : CoordsXY → CoordsXY
  tile_element_height : Nat → CoordsXY → Int
  viewport_coord_to_map_coord : Nat → Int → Int → Int → CoordsXY

/-- One iteration `i` of the loop `for (int32_t i = 0; i < 5; i++) { ... }` of
`sub_68A15E`: the new `mapPos`. -/
def refineStep (env : MapEnv) (hit : HitTest) (initialPos : CoordsXY) (waterHeight : Int)
    (mapPos : CoordsXY) (i : Nat) : CoordsXY :=
  let z :=
    if hit.interactionType ≠ env.VIEWPORT_INTERACTION_ITEM_WATER then
      wrap16 (env.tile_element_height i mapPos)
    else waterHeight
  let mapPos := env.viewport_coord_to_map_coord i hit.initialVPPos.x hit.initialVPPos.y z
  { x := clamp mapPos.x initialPos.x (wrap32 (initialPos.x + 31))
    y := clamp mapPos.y initialPos.y (wrap32 (initialPos.y + 31)) }

/-- The function `CoordsXY sub_68A15E(const ScreenCoordsXY& screenCoords)`. -/
def sub_68A15E (env : MapEnv) (hit : HitTest) : CoordsXY :=
  let initialPos := hit.mapCoords
  if hit.interactionType = env.VIEWPORT_INTERACTION_ITEM_NONE then env.setNull initialPos
  else
    let waterHeight :=
      if hit.interactionType = env.VIEWPORT_INTERACTION_ITEM_WATER then wrap16 hit.waterHeight
      else 0
    let mapPos : CoordsXY :=
      { x := wrap32 (initialPos.x + 16), y := wrap32 (initialPos.y + 16) }
    let mapPos := (List.range 5).foldl (refineStep env hit initialPos waterHeight) mapPos
    mapPos.ToTileStart

/-! ## Example inputs -/

/-- A destination map over a 256-byte array of zeros. -/
def copyDst256 : PaletteMap := PaletteMap.ofArray (List.replicate 256 0)

/-- A source map over a 16-byte array. -/
def copySrc16 : PaletteMap := PaletteMap.ofArray (List.replicate 16 7)

/-- A table of two rows of sixteen entries holding `0, 1, ..., 31`. -/
def blendTable2x16 : PaletteMap := PaletteMap.ofTable (List.range 32) 2 16

/-- A 100 × 100 surface at the origin, drawn at zoom level 2. -/
def surface100 : rct_drawpixelinfo :=
  { bits := 0, x := 0, y := 0, width := 100, height := 100, pitch := 0, zoom_level := 2 }

/-- A palette buffer of 256 four-byte entries, all zero. -/
def zeroPalette : List Nat := List.replicate 1024 0

/-- A palette image of two RGB triples for the slots 10 and 11. -/
def paletteImage10 : rct_g1_element :=
  { offset := [1, 2, 3, 4, 5, 6], width := 2, height := 1, x_offset := 10, y_offset := 0 }

/-- A palette image of two RGB triples placed at slot 255, the last slot. -/
def paletteImage255 : rct_g1_element :=
  { offset := [1, 2, 3, 4, 5, 6], width := 2, height := 1, x_offset := 255, y_offset := 0 }

/-- Graphics enabled, no water object, no image resolves, a 640 × 480 context. -/
def noWaterEnv : DrawEnv :=
  { gOpenRCT2NoGraphics := false, water_type := none, gfx_get_g1_element := fun _ => none,
    context_get_width := 640, context_get_height := 480 }

/-- Graphics enabled, no water object, image `0x5FC` resolves to `g1`. -/
def defaultPaletteEnv (g1 : rct_g1_element) : DrawEnv :=
  { gOpenRCT2NoGraphics := false, water_type := none,
    gfx_get_g1_element := fun id => if id = 0x5FC then some g1 else none,
    context_get_width := 640, context_get_height := 480 }

/-- Graphics disabled (`gOpenRCT2NoGraphics` set), no water object. -/
def noGraphicsEnv : DrawEnv :=
  { gOpenRCT2NoGraphics := true, water_type := none, gfx_get_g1_element := fun _ => none,
    context_get_width := 640, context_get_height := 480 }

/-- A descriptor with a negative row length: width 5, pitch -10. -/
def negativeRowSurface : rct_drawpixelinfo :=
  { bits := 0, x := 0, y := 0, width := 5, height := 10, pitch := -10, zoom_level := 0 }

/-- A picked-up peep at (100, 200) whose image is `0x5FC` with a flag bit above the
19 index bits. -/
def pickedUpPeep : PickupPeep :=
  { gPickupPeepImage := 0x80000 + 0x5FC, gPickupPeepX := 100, gPickupPeepY := 200 }

/-- A flag store in which object type 2 has the flags `[1, 6]` and every other type
has none. -/
def editorFlagsExample : EditorSelectedObjectFlags :=
  fun objectType => if objectType = 2 then [1, 6] else []

/-- A peep whose sprite box is the single point (0, 0). -/
def peepAtOrigin : Peep :=
  { sprite_index := 7, sprite_left := 0, sprite_right := 0, sprite_top := 0, sprite_bottom := 0 }

/-- A peep whose sprite box is centred at (10, 0). -/
def peepAtTen : Peep :=
  { sprite_index := 8, sprite_left := 8, sprite_right := 12, sprite_top := -2, sprite_bottom := 2 }

/-- A viewport at screen position (0, 0), view position (0, 0), zoom level 0. -/
def plainViewport : rct_viewport := { pos := ⟨0, 0⟩, viewPos := ⟨0, 0⟩, zoom := 0 }

/-- A zoom scaling that multiplies by `2 ^ zoom`, used for the examples. -/
def zoomShift (v zoom : Int) : Int := v * 2 ^ zoom.toNat

/-- Collaborators that send every refinement far away from the tile: the height is
always 1000 and the map position always (5000, -5000). -/
def farAwayMapEnv : MapEnv :=
  { VIEWPORT_INTERACTION_ITEM_NONE := 0, VIEWPORT_INTERACTION_ITEM_WATER := 4,
    setNull := fun c => { c with x := -32768 },
    tile_element_height := fun _ _ => 1000,
    viewport_coord_to_map_coord := fun _ _ _ _ => ⟨5000, -5000⟩ }

/-- A terrain hit at the tile (64, 96). -/
def terrainHit : HitTest :=
  { mapCoords := ⟨64, 96⟩, interactionType := 1, waterHeight := 0, initialVPPos := ⟨300, 200⟩ }

/-! ## Theorems: PaletteMap -/

set_option maxRecDepth 100000 in
/-- C1, the code at the failing input. A well-formed 256-byte destination and a
well-formed 16-byte source, both indices 0, requested length 256: `Copy` hands
`memcpy` a count of 256, so bytes 16 .. 255 are read past the end of the
16-byte source buffer (the model's `Copy` yields `none`). Second input:
`dstIndex = 300` lies beyond the 256-byte destination, the unsigned
subtraction `_mapLength - dstIndex` wraps, the count stays 16 and the write
of bytes 300 .. 315 leaves the destination buffer. -/
theorem Copy_leaves_buffer :
    copyDst256.WellFormed ∧ copySrc16.WellFormed ∧
    copyDst256.data.length = 256 ∧ copySrc16.data.length = 16 ∧
    copyDst256.copyLength 0 0 256 = 256 ∧
    copyDst256.Copy 0 copySrc16 0 256 = none ∧
    copyDst256.copyLength 300 0 16 = 16 ∧
    copyDst256.Copy 300 copySrc16 0 16 = none := by
  decide

set_option maxRecDepth 100000 in
/-- C2, the code at the failing input. With a 256-byte destination and a 16-byte
source, indices 0 and requested length 256, the clamp of the specification is
16 (the space left in the source), while `Copy` transfers 256 bytes: both
operands of its `min` are measured against the destination's `_mapLength`. -/
theorem Copy_clamp_ignores_source_length :
    copyDst256.mapLength = 256 ∧ copySrc16.mapLength = 16 ∧
    copyDst256.specCopyLength 0 copySrc16 0 256 = 16 ∧
    copyDst256.copyLength 0 0 256 = 256 ∧
    copyDst256.copyLength 0 0 256 ≠ copyDst256.specCopyLength 0 copySrc16 0 256 := by
  decide

set_option maxRecDepth 100000 in
/-- C3, the code at the failing input. In a table of 2 rows of 16 entries holding
`0 .. 31`, `src = 2` and `dst = 3` meet the precondition and the byte at flat
index `(2 - 1) * 16 + 3 = 19` is 19, but `Blend` computes the index
`(2 - 1) * 256 + 3 = 259`, which is outside the 32-byte table, and returns 0. -/
theorem Blend_uses_constant_256 :
    blendTable2x16.WellFormed ∧ blendTable2x16.numMaps = 2 ∧ blendTable2x16.mapLength = 16 ∧
    (2 ≠ 0 ∧ 2 - 1 < blendTable2x16.numMaps ∧ 3 < blendTable2x16.mapLength) ∧
    blendTable2x16.data.getD ((2 - 1) * blendTable2x16.mapLength + 3) 0 = 19 ∧
    PaletteMap.blendIdx 2 3 = 259 ∧
    blendTable2x16.Blend 2 3 = 0 := by
  decide

/-! ### The default map -/

theorem foldl_set_length (n : Nat) (d : List Nat) :
    ((List.range n).foldl (fun d i => d.set i (i % 256)) d).length = d.length := by
  induction n with
  | zero => simp
  | succ k ih => simp [List.range_succ, List.foldl_append, ih]

theorem foldl_set_getElem? (n : Nat) (d : List Nat) (i : Nat) (hi : i < d.length) :
    ((List.range n).foldl (fun d i => d.set i (i % 256)) d)[i]? =
      if i < n then some (i % 256) else d[i]? := by
  induction n with
  | zero => simp
  | succ k ih =>
    rw [List.range_succ, List.foldl_append, List.foldl_cons, List.foldl_nil]
    by_cases hik : k = i
    · subst hik
      simp [List.getElem?_set, foldl_set_length, hi]
    · rw [List.getElem?_set_ne hik, ih]
      by_cases hlt : i < k
      · have : i < k + 1 := by omega
        simp [hlt, this]
      · have : ¬ i < k + 1 := by omega
        simp [hlt, this]

theorem fillIdentity_eq_range (d : List Nat) (h : d.length = 256) :
    fillIdentity d = List.range 256 := by
  apply List.ext_getElem?
  intro i
  unfold fillIdentity
  by_cases hi : i < 256
  · rw [foldl_set_getElem? _ _ _ (by omega), h]
    simp [hi, List.getElem?_range hi, Nat.mod_eq_of_lt hi]
  · rw [List.getElem?_eq_none (by rw [foldl_set_length]; omega),
      List.getElem?_eq_none (by simp; omega)]

theorem staticsAfterCalls_inv (n : Nat) :
    (staticsAfterCalls n).initialised = false ∧ (staticsAfterCalls n).data.length = 256 := by
  induction n with
  | zero => exact ⟨rfl, List.length_replicate _ _⟩
  | succ k ih =>
    obtain ⟨h1, h2⟩ := ih
    simp [staticsAfterCalls, PaletteMap.GetDefault, h1, fillIdentity_eq_range _ h2]

theorem GetDefault_eq (n : Nat) :
    (PaletteMap.GetDefault (staticsAfterCalls n)).2 = PaletteMap.ofArray (List.range 256) := by
  obtain ⟨h1, h2⟩ := staticsAfterCalls_inv n
  simp [PaletteMap.GetDefault, h1, fillIdentity_eq_range _ h2]

/-- C6. For every `i` in `[0, 256)` the map returned by `PaletteMap::GetDefault`
holds `i` at index `i`, whether the call is the first (`n = 0` earlier calls)
or a later one, and every call returns the same map as the first call. -/
theorem GetDefault_identity (n i : Nat) (hi : i < 256) :
    (PaletteMap.GetDefault (staticsAfterCalls n)).2.get i = i ∧
    (PaletteMap.GetDefault (staticsAfterCalls n)).2.data.getD i 0 = i ∧
    (PaletteMap.GetDefault (staticsAfterCalls n)).2 =
      (PaletteMap.GetDefault (staticsAfterCalls 0)).2 := by
  rw [GetDefault_eq n, GetDefault_eq 0]
  have hlen : (List.range 256).length = 256 := List.length_range 256
  have hget : (List.range 256).getD i 0 = i := by
    rw [List.getD_eq_getElem?_getD, List.getElem?_range hi, Option.getD_some]
  generalize List.range 256 = r at hlen hget ⊢
  refine ⟨?_, hget, rfl⟩
  simp only [PaletteMap.get, PaletteMap.ofArray, hlen, hget]
  rw [if_neg (by omega)]

/-- C6 witness: the fourth call, index 200. -/
theorem GetDefault_identity_witness :
    200 < 256 ∧ (PaletteMap.GetDefault (staticsAfterCalls 3)).2.get 200 = 200 :=
  ⟨by decide, (GetDefault_identity 3 200 (by decide)).1⟩

/-! ## Theorems: image catalogue -/

/-- C7. For ascending boundaries and every index other than `SPR_TEMP`,
`GetCatalogue` classifies by half-open range: G1 below `SPR_RCTC_G1_END`, G2 in
`[SPR_RCTC_G1_END, SPR_G2_END)`, CSG in `[SPR_G2_END, SPR_CSG_END)`, OBJECT in
`[SPR_CSG_END, SPR_IMAGE_LIST_END)`, UNKNOWN from `SPR_IMAGE_LIST_END` on, and
never TEMPORARY; the five ranges are pairwise disjoint and cover every index
(exactly one of them holds); the index `SPR_TEMP` itself is TEMPORARY. -/
theorem GetCatalogue_ranges (B : SpriteBounds) (index : Nat)
    (hasc : B.SPR_RCTC_G1_END ≤ B.SPR_G2_END ∧ B.SPR_G2_END ≤ B.SPR_CSG_END ∧
      B.SPR_CSG_END ≤ B.SPR_IMAGE_LIST_END)
    (hne : index ≠ B.SPR_TEMP) :
    (GetCatalogue B index = ImageCatalogue.G1 ↔ index < B.SPR_RCTC_G1_END) ∧
    (GetCatalogue B index = ImageCatalogue.G2 ↔
      B.SPR_RCTC_G1_END ≤ index ∧ index < B.SPR_G2_END) ∧
    (GetCatalogue B index = ImageCatalogue.CSG ↔ B.SPR_G2_END ≤ index ∧ index < B.SPR_CSG_END) ∧
    (GetCatalogue B index = ImageCatalogue.OBJECT ↔
      B.SPR_CSG_END ≤ index ∧ index < B.SPR_IMAGE_LIST_END) ∧
    (GetCatalogue B index = ImageCatalogue.UNKNOWN ↔ B.SPR_IMAGE_LIST_END ≤ index) ∧
    GetCatalogue B index ≠ ImageCatalogue.TEMPORARY ∧
    (∃! k : Fin 5,
      (k = 0 ∧ index < B.SPR_RCTC_G1_END) ∨
      (k = 1 ∧ B.SPR_RCTC_G1_END ≤ index ∧ index < B.SPR_G2_END) ∨
      (k = 2 ∧ B.SPR_G2_END ≤ index ∧ index < B.SPR_CSG_END) ∨
      (k = 3 ∧ B.SPR_CSG_END ≤ index ∧ index < B.SPR_IMAGE_LIST_END) ∨
      (k = 4 ∧ B.SPR_IMAGE_LIST_END ≤ index)) ∧
    GetCatalogue B B.SPR_TEMP = ImageCatalogue.TEMPORARY := by
  obtain ⟨h1, h2, h3⟩ := hasc
  refine ⟨?_, ?_, ?_, ?_, ?_, ?_, ?_, ?_⟩
  · unfold GetCatalogue; rw [if_neg hne]; split_ifs <;> simp <;> omega
  · unfold GetCatalogue; rw [if_neg hne]; split_ifs <;> simp <;> omega
  · unfold GetCatalogue; rw [if_neg hne]; split_ifs <;> simp <;> omega
  · unfold GetCatalogue; rw [if_neg hne]; split_ifs <;> simp <;> omega
  · unfold GetCatalogue; rw [if_neg hne]; split_ifs <;> simp <;> omega
  · unfold GetCatalogue; rw [if_neg hne]; split_ifs <;> simp
  · by_cases c1 : index < B.SPR_RCTC_G1_END
    · refine ⟨0, Or.inl ⟨rfl, c1⟩, ?_⟩
      rintro k (⟨hk, _⟩ | ⟨hk, _, _⟩ | ⟨hk, _, _⟩ | ⟨hk, _, _⟩ | ⟨hk, _⟩) <;>
        first | exact hk | omega
    · by_cases c2 : index < B.SPR_G2_END
      · refine ⟨1, Or.inr (Or.inl ⟨rfl, by omega, c2⟩), ?_⟩
        rintro k (⟨hk, _⟩ | ⟨hk, _, _⟩ | ⟨hk, _, _⟩ | ⟨hk, _, _⟩ | ⟨hk, _⟩) <;>
          first | exact hk | omega
      · by_cases c3 : index < B.SPR_CSG_END
        · refine ⟨2, Or.inr (Or.inr (Or.inl ⟨rfl, by omega, c3⟩)), ?_⟩
          rintro k (⟨hk, _⟩ | ⟨hk, _, _⟩ | ⟨hk, _, _⟩ | ⟨hk, _, _⟩ | ⟨hk, _⟩) <;>
            first | exact hk | omega
        · by_cases c4 : index < B.SPR_IMAGE_LIST_END
          · refine ⟨3, Or.inr (Or.inr (Or.inr (Or.inl ⟨rfl, by omega, c4⟩))), ?_⟩
            rintro k (⟨hk, _⟩ | ⟨hk, _, _⟩ | ⟨hk, _, _⟩ | ⟨hk, _, _⟩ | ⟨hk, _⟩) <;>
              first | exact hk | omega
          · refine ⟨4, Or.inr (Or.inr (Or.inr (Or.inr ⟨rfl, by omega⟩))), ?_⟩
            rintro k (⟨hk, _⟩ | ⟨hk, _, _⟩ | ⟨hk, _, _⟩ | ⟨hk, _, _⟩ | ⟨hk, _⟩) <;>
              first | exact hk | omega
  · simp [GetCatalogue]

/-- C7 witness: boundaries 10 ≤ 20 ≤ 30 ≤ 40 with `SPR_TEMP = 99`; index 25 is CSG. -/
theorem GetCatalogue_ranges_witness :
    ((10 : Nat) ≤ 20 ∧ (20 : Nat) ≤ 30 ∧ (30 : Nat) ≤ 40) ∧ (25 : Nat) ≠ 99 ∧
    (GetCatalogue ⟨99, 10, 20, 30, 40⟩ 25 = ImageCatalogue.CSG ↔ 20 ≤ 25 ∧ 25 < 30) :=
  ⟨by decide, by decide,
    (GetCatalogue_ranges ⟨99, 10, 20, 30, 40⟩ 25 (by decide) (by decide)).2.2.1⟩

/-- C8 as stated fails. With `SPR_TEMP = 0x7FFFE` and any values of the four range
boundaries, index 0 is not temporary (ordinal at least 1) while the greater
index `0x7FFFE` is TEMPORARY (ordinal 0): the ordinal decreases from 0 to
`0x7FFFE`. The same holds for every non-zero `SPR_TEMP`. -/
theorem GetCatalogue_not_monotone :
    (¬ ∃ B : SpriteBounds, B.SPR_TEMP = 0x7FFFE ∧
      categoryOrdinal (GetCatalogue B 0) ≤ categoryOrdinal (GetCatalogue B 0x7FFFE)) ∧
    (¬ ∃ B : SpriteBounds, 0 < B.SPR_TEMP ∧
      categoryOrdinal (GetCatalogue B 0) ≤ categoryOrdinal (GetCatalogue B B.SPR_TEMP)) := by
  have key : ∀ B : SpriteBounds, 0 < B.SPR_TEMP →
      ¬ categoryOrdinal (GetCatalogue B 0) ≤ categoryOrdinal (GetCatalogue B B.SPR_TEMP) := by
    intro B hB hle
    have h1 : GetCatalogue B B.SPR_TEMP = ImageCatalogue.TEMPORARY := by
      simp [GetCatalogue]
    have h0 : 1 ≤ categoryOrdinal (GetCatalogue B 0) := by
      unfold GetCatalogue
      rw [if_neg (by omega)]
      split_ifs <;> simp [categoryOrdinal]
    have ht : categoryOrdinal ImageCatalogue.TEMPORARY = 0 := rfl
    rw [h1, ht] at hle
    omega
  constructor
  · rintro ⟨B, hB, hle⟩
    rw [← hB] at hle
    exact key B (by rw [hB]; decide) hle
  · rintro ⟨B, hB, hle⟩
    exact key B hB hle

/-- C8 amended. Over the indices other than `SPR_TEMP`, `GetCatalogue` is monotone
for every boundary set: if `a ≤ b` and neither is `SPR_TEMP`, the category
ordinal of `a` is at most that of `b`. -/
theorem GetCatalogue_monotone_off_temp (B : SpriteBounds) (a b : Nat) (hab : a ≤ b)
    (ha : a ≠ B.SPR_TEMP) (hb : b ≠ B.SPR_TEMP) :
    categoryOrdinal (GetCatalogue B a) ≤ categoryOrdinal (GetCatalogue B b) := by
  unfold GetCatalogue
  rw [if_neg ha, if_neg hb]
  split_ifs <;> simp [categoryOrdinal] <;> omega

/-- C8 witness: boundaries 10, 20, 30, 40 with `SPR_TEMP = 99`; indices 5 ≤ 35. -/
theorem GetCatalogue_monotone_off_temp_witness :
    (5 : Nat) ≤ 35 ∧ (5 : Nat) ≠ 99 ∧ (35 : Nat) ≠ 99 ∧
    categoryOrdinal (GetCatalogue ⟨99, 10, 20, 30, 40⟩ 5) ≤
      categoryOrdinal (GetCatalogue ⟨99, 10, 20, 30, 40⟩ 35) :=
  ⟨by decide, by decide, by decide,
    GetCatalogue_monotone_off_temp ⟨99, 10, 20, 30, 40⟩ 5 35 (by decide) (by decide) (by decide)⟩

/-! ## Theorems: mask dispatch -/

/-- C9. Whatever `mask_fn` held before and whatever the two probes answer,
`mask_init` binds `mask_fn` widest first: `mask_avx2` when AVX2 is available
(for either SSE4.1 answer), else `mask_sse4_1` when SSE4.1 is available, else
`mask_scalar`; the pointer is never null afterwards, in particular when it was
null (`mask_fn_initial`) before. -/
theorem mask_init_binds_widest_first (avx2 sse41 : Bool) (prev : Option MaskFn) :
    mask_init true sse41 prev = some MaskFn.mask_avx2 ∧
    mask_init false true prev = some MaskFn.mask_sse4_1 ∧
    mask_init false false prev = some MaskFn.mask_scalar ∧
    mask_init avx2 sse41 prev ≠ none ∧
    mask_init avx2 sse41 mask_fn_initial ≠ none ∧
    (∃! f : MaskFn, mask_init avx2 sse41 prev = some f) := by
  refine ⟨rfl, rfl, rfl, ?_, ?_, ?_⟩
  · cases avx2 <;> cases sse41 <;> simp [mask_init]
  · cases avx2 <;> cases sse41 <;> simp [mask_init]
  · cases avx2 <;> cases sse41 <;> simp [mask_init]

/-! ## Theorems: clipping -/

theorem clipLeft_exact (dst : rct_drawpixelinfo) (coords : ScreenCoordsXY)
    (h : clipLeftExact dst coords) :
    (clipLeft dst coords).x = max dst.x coords.x ∧
    (clipLeft dst coords).width = dst.x + dst.width - max dst.x coords.x ∧
    (clipLeft dst coords).y = dst.y ∧ (clipLeft dst coords).height = dst.height ∧
    (clipLeft dst coords).zoom_level = dst.zoom_level := by
  unfold clipLeft
  unfold clipLeftExact at h
  split_ifs with hc
  · obtain ⟨e1, e2, e3, _⟩ := h hc
    refine ⟨?_, ?_, rfl, rfl, rfl⟩
    · show wrap16 coords.x = max dst.x coords.x
      rw [e3]; omega
    · show wrap16 (dst.width - wrapU16 (coords.x - dst.x)) = _
      rw [e1, e2]; omega
  · refine ⟨?_, ?_, rfl, rfl, rfl⟩ <;> omega

theorem clipRight_exact (dst : rct_drawpixelinfo) (right : Int)
    (h : clipRightExact dst right) :
    (clipRight dst right).x = dst.x ∧
    (clipRight dst right).width = min (dst.x + dst.width) right - dst.x ∧
    (clipRight dst right).y = dst.y ∧ (clipRight dst right).height = dst.height ∧
    (clipRight dst right).zoom_level = dst.zoom_level := by
  unfold clipRight
  obtain ⟨e0, h⟩ := h
  simp only [e0]
  split_ifs with hc
  · obtain ⟨e1, _⟩ := h hc
    refine ⟨rfl, ?_, rfl, rfl, rfl⟩
    show wrap16 (dst.width - (dst.x + dst.width - right)) = _
    rw [e1]; omega
  · refine ⟨rfl, ?_, rfl, rfl, rfl⟩
    omega

theorem clipTop_exact (dst : rct_drawpixelinfo) (coords : ScreenCoordsXY)
    (h : clipTopExact dst coords) :
    (clipTop dst coords).y = max dst.y coords.y ∧
    (clipTop dst coords).height = dst.y + dst.height - max dst.y coords.y ∧
    (clipTop dst coords).x = dst.x ∧ (clipTop dst coords).width = dst.width ∧
    (clipTop dst coords).zoom_level = dst.zoom_level := by
  unfold clipTop
  unfold clipTopExact at h
  split_ifs with hc
  · obtain ⟨e1, e2, e3⟩ := h hc
    refine ⟨?_, ?_, rfl, rfl, rfl⟩
    · show wrap16 coords.y = max dst.y coords.y
      rw [e3]; omega
    · show wrap16 (dst.height - wrapU16 (coords.y - dst.y)) = _
      rw [e1, e2]; omega
  · refine ⟨?_, ?_, rfl, rfl, rfl⟩ <;> omega

theorem clipBottom_exact (dst : rct_drawpixelinfo) (bottom : Int)
    (h : clipBottomExact dst bottom) :
    (clipBottom dst bottom).y = dst.y ∧
    (clipBottom dst bottom).height = min (dst.y + dst.height) bottom - dst.y ∧
    (clipBottom dst bottom).x = dst.x ∧ (clipBottom dst bottom).width = dst.width ∧
    (clipBottom dst bottom).zoom_level = dst.zoom_level := by
  unfold clipBottom
  obtain ⟨e0, h⟩ := h
  simp only [e0]
  split_ifs with hc
  · have e1 := h hc
    refine ⟨rfl, ?_, rfl, rfl, rfl⟩
    show wrap16 (dst.height - (dst.y + dst.height - bottom)) = _
    rw [e1]; omega
  · refine ⟨rfl, ?_, rfl, rfl, rfl⟩
    omega

/-- Without truncation the four clipping blocks leave the intersection of the two
rectangles: left and top edges are the maxima, right and bottom edges the minima. -/
theorem clipStages_exact (src : rct_drawpixelinfo) (coords : ScreenCoordsXY) (width height : Int)
    (hs : NoTruncation src coords width height) :
    (clipStages src coords width height).x = max src.x coords.x ∧
    (clipStages src coords width height).width =
      min (src.x + src.width) (coords.x + width) - max src.x coords.x ∧
    (clipStages src coords width height).y = max src.y coords.y ∧
    (clipStages src coords width height).height =
      min (src.y + src.height) (coords.y + height) - max src.y coords.y ∧
    (clipStages src coords width height).zoom_level = 0 := by
  obtain ⟨hr, hb, hL, hR, hT, hB, _⟩ := hs
  unfold clipStages
  rw [hr] at hR hT hB ⊢
  rw [hb] at hB ⊢
  obtain ⟨l1, l2, l3, l4, l5⟩ := clipLeft_exact _ _ hL
  simp only [] at l1 l2 l3 l4 l5
  obtain ⟨r1, r2, r3, r4, r5⟩ := clipRight_exact _ _ hR
  obtain ⟨t1, t2, t3, t4, t5⟩ := clipTop_exact _ _ hT
  obtain ⟨b1, b2, b3, b4, b5⟩ := clipBottom_exact _ _ hB
  refine ⟨?_, ?_, ?_, ?_, ?_⟩
  · rw [b3, t3, r1, l1]
  · rw [b4, t4, r2, l1, l2]; omega
  · rw [b1, t1, r3, l3]
  · rw [b2, t1, t2, r3, l3, r4, l4]; omega
  · rw [b5, t5, r5, l5]

theorem clip_drawpixelinfo_eq (src : rct_drawpixelinfo) (coords : ScreenCoordsXY)
    (width height : Int) :
    clip_drawpixelinfo src coords width height =
      if (clipStages src coords width height).width > 0 ∧
          (clipStages src coords width height).height > 0 then
        ({ clipStages src coords width height with
            x := wrap16 ((clipStages src coords width height).x - coords.x)
            y := wrap16 ((clipStages src coords width height).y - coords.y) }, true)
      else (clipStages src coords width height, false) := rfl

/-- Without truncation `clip_drawpixelinfo` succeeds exactly when the intersection
has positive width and height, and then returns its extent and its top-left
corner relative to the requested origin. -/
theorem clip_exact (src : rct_drawpixelinfo) (coords : ScreenCoordsXY) (width height : Int)
    (hs : NoTruncation src coords width height) :
    ((clip_drawpixelinfo src coords width height).2 = true ↔
      0 < min (src.x + src.width) (coords.x + width) - max src.x coords.x ∧
      0 < min (src.y + src.height) (coords.y + height) - max src.y coords.y) ∧
    ((clip_drawpixelinfo src coords width height).2 = true →
      (clip_drawpixelinfo src coords width height).1.width =
        min (src.x + src.width) (coords.x + width) - max src.x coords.x ∧
      (clip_drawpixelinfo src coords width height).1.height =
        min (src.y + src.height) (coords.y + height) - max src.y coords.y ∧
      (clip_drawpixelinfo src coords width height).1.x = max src.x coords.x - coords.x ∧
      (clip_drawpixelinfo src coords width height).1.y = max src.y coords.y - coords.y ∧
      (clip_drawpixelinfo src coords width height).1.zoom_level = 0) := by
  obtain ⟨e1, e2, e3, e4, e5⟩ := clipStages_exact src coords width height hs
  have hfin := hs.2.2.2.2.2.2
  rw [clip_drawpixelinfo_eq]
  by_cases hpos : (clipStages src coords width height).width > 0 ∧
      (clipStages src coords width height).height > 0
  · rw [if_pos hpos]
    obtain ⟨f1, f2⟩ := hfin hpos
    rw [e2, e4] at hpos
    refine ⟨⟨fun _ => ⟨hpos.1, hpos.2⟩, fun _ => rfl⟩, fun _ => ⟨e2, e4, ?_, ?_, e5⟩⟩
    · show wrap16 ((clipStages src coords width height).x - coords.x) = _
      rw [f1, e1]
    · show wrap16 ((clipStages src coords width height).y - coords.y) = _
      rw [f2, e3]
  · rw [if_neg hpos]
    rw [e2, e4] at hpos
    refine ⟨⟨fun h => ?_, fun h => ?_⟩, fun h => ?_⟩
    · exact absurd h (by simp)
    · exact absurd ⟨h.1, h.2⟩ hpos
    · exact absurd h (by simp)

/-- The two rectangles share a pixel exactly when the intersection has positive
width and height. -/
theorem overlap_iff (sx sy sw sh x y w h : Int) :
    (∃ px py, InRect sx sy sw sh px py ∧ InRect x y w h px py) ↔
      0 < min (sx + sw) (x + w) - max sx x ∧ 0 < min (sy + sh) (y + h) - max sy y := by
  unfold InRect
  constructor
  · rintro ⟨px, py, ⟨a1, a2, a3, a4⟩, b1, b2, b3, b4⟩
    constructor <;> omega
  · rintro ⟨hw, hh⟩
    exact ⟨max sx x, max sy y, ⟨by omega, by omega, by omega, by omega⟩,
      by omega, by omega, by omega, by omega⟩

theorem surface100_exact_a : NoTruncation surface100 ⟨-10, -10⟩ 50 50 := by decide

theorem surface100_exact_b : NoTruncation surface100 ⟨200, 200⟩ 10 10 := by decide

/-- C4. For a source descriptor and a requested region for which no 16-bit field
truncates (`NoTruncation`), `clip_drawpixelinfo` returns true exactly when the
source rectangle and the requested rectangle share a pixel, i.e. overlap in a
region of positive width and height; on success the destination's width and
height are those of the overlap, its origin is the overlap's top-left corner
relative to the requested origin, and its zoom level is 0. -/
theorem clip_drawpixelinfo_overlap (src : rct_drawpixelinfo) (coords : ScreenCoordsXY)
    (width height : Int) (hs : NoTruncation src coords width height) :
    ((clip_drawpixelinfo src coords width height).2 = true ↔
      ∃ px py, InRect src.x src.y src.width src.height px py ∧
        InRect coords.x coords.y width height px py) ∧
    ((clip_drawpixelinfo src coords width height).2 = true →
      (clip_drawpixelinfo src coords width height).1.width =
        min (src.x + src.width) (coords.x + width) - max src.x coords.x ∧
      (clip_drawpixelinfo src coords width height).1.height =
        min (src.y + src.height) (coords.y + height) - max src.y coords.y ∧
      (clip_drawpixelinfo src coords width height).1.x = max src.x coords.x - coords.x ∧
      (clip_drawpixelinfo src coords width height).1.y = max src.y coords.y - coords.y ∧
      (clip_drawpixelinfo src coords width height).1.zoom_level = 0) := by
  obtain ⟨h1, h2⟩ := clip_exact src coords width height hs
  exact ⟨h1.trans (overlap_iff _ _ _ _ _ _ _ _).symm, h2⟩

/-- C4 witness: source (0, 0, 100, 100), requested origin (-10, -10), size 50 × 50:
success with a 40 × 40 result whose origin (10, 10) relative to the request is
source pixel (0, 0), so the result covers source pixels [0, 40) × [0, 40). -/
theorem clip_drawpixelinfo_overlap_witness :
    NoTruncation surface100 ⟨-10, -10⟩ 50 50 ∧
    (clip_drawpixelinfo surface100 ⟨-10, -10⟩ 50 50).2 = true ∧
    (clip_drawpixelinfo surface100 ⟨-10, -10⟩ 50 50).1.width = 40 ∧
    (clip_drawpixelinfo surface100 ⟨-10, -10⟩ 50 50).1.height = 40 ∧
    (clip_drawpixelinfo surface100 ⟨-10, -10⟩ 50 50).1.x + (-10) = 0 ∧
    (clip_drawpixelinfo surface100 ⟨-10, -10⟩ 50 50).1.y + (-10) = 0 :=
  have hok : (clip_drawpixelinfo surface100 ⟨-10, -10⟩ 50 50).2 = true :=
    (clip_drawpixelinfo_overlap surface100 ⟨-10, -10⟩ 50 50 surface100_exact_a).1.2
      ⟨0, 0, by decide, by decide⟩
  have hres := (clip_drawpixelinfo_overlap surface100 ⟨-10, -10⟩ 50 50 surface100_exact_a).2 hok
  ⟨surface100_exact_a, hok, hres.1.trans (by decide), hres.2.1.trans (by decide),
    by rw [hres.2.2.1]; decide, by rw [hres.2.2.2.1]; decide⟩

/-- C5 as stated fails. Source (0, 0, 100, 100) and the requested region with origin
(65546, 0) and size 50 × 50 share no pixel, yet `clip_drawpixelinfo` returns
true (with a 90 × 50 result): the 16-bit store of `coords.x - dst->x = 65546`
keeps 10, and the 16-bit store of `coords.x` keeps 10. -/
theorem clip_drawpixelinfo_outside_succeeds :
    (¬ ∃ px py, InRect surface100.x surface100.y surface100.width surface100.height px py ∧
        InRect 65546 0 50 50 px py) ∧
    clip_drawpixelinfo surface100 ⟨65546, 0⟩ 50 50 =
      ({ bits := 10, x := 0, y := 0, width := 90, height := 50, pitch := 10, zoom_level := 0 },
        true) := by
  refine ⟨?_, by decide⟩
  rintro ⟨px, py, ⟨a1, a2, a3, a4⟩, b1, b2, b3, b4⟩
  simp only [surface100] at a1 a2 a3 a4
  omega

/-- C5 amended. For a source descriptor and a requested region for which no 16-bit
field truncates (`NoTruncation`), a requested region that shares no pixel with
the source rectangle makes `clip_drawpixelinfo` return false. -/
theorem clip_drawpixelinfo_outside_fails (src : rct_drawpixelinfo) (coords : ScreenCoordsXY)
    (width height : Int) (hs : NoTruncation src coords width height)
    (hout : ¬ ∃ px py, InRect src.x src.y src.width src.height px py ∧
        InRect coords.x coords.y width height px py) :
    (clip_drawpixelinfo src coords width height).2 = false := by
  obtain ⟨h1, _⟩ := clip_exact src coords width height hs
  cases hc : (clip_drawpixelinfo src coords width height).2 with
  | false => rfl
  | true => exact absurd ((overlap_iff _ _ _ _ _ _ _ _).2 (h1.1 hc)) hout

/-- C5 witness: source (0, 0, 100, 100), requested origin (200, 200), size 10 × 10. -/
theorem clip_drawpixelinfo_outside_fails_witness :
    NoTruncation surface100 ⟨200, 200⟩ 10 10 ∧
    (¬ ∃ px py, InRect surface100.x surface100.y surface100.width surface100.height px py ∧
        InRect 200 200 10 10 px py) ∧
    (clip_drawpixelinfo surface100 ⟨200, 200⟩ 10 10).2 = false :=
  have hout : ¬ ∃ px py,
      InRect surface100.x surface100.y surface100.width surface100.height px py ∧
        InRect 200 200 10 10 px py := by
    rintro ⟨px, py, ⟨a1, a2, a3, a4⟩, b1, b2, b3, b4⟩
    simp only [surface100] at a1 a2 a3 a4
    omega
  ⟨surface100_exact_b, hout,
    clip_drawpixelinfo_outside_fails surface100 ⟨200, 200⟩ 10 10 surface100_exact_b hout⟩

/-! ## Theorems: palette catalogue -/

set_option maxRecDepth 100000 in
/-- C11. For every palette id, `GetPaletteG1Index` returns an absent result exactly
when the id is not a valid index of `palette_to_g1_offset` (which has 144
entries), and otherwise returns the table entry stored at that index; the
only table access is at a valid index. -/
theorem GetPaletteG1Index_bounds (paletteId : Nat) :
    (GetPaletteG1Index paletteId = none ↔ ¬ paletteId < palette_to_g1_offset.length) ∧
    (∀ h : paletteId < palette_to_g1_offset.length,
      GetPaletteG1Index paletteId = some (palette_to_g1_offset.get ⟨paletteId, h⟩)) ∧
    palette_to_g1_offset.length = 144 := by
  refine ⟨?_, ?_, by decide⟩
  · unfold GetPaletteG1Index
    generalize palette_to_g1_offset = t
    by_cases h : paletteId < t.length
    · rw [if_pos h, List.getElem?_eq_getElem h]
      simp [h]
    · rw [if_neg h]
      simp [h]
  · intro h
    unfold GetPaletteG1Index
    revert h
    generalize palette_to_g1_offset = t
    intro h
    rw [if_pos h, List.getElem?_eq_getElem h]
    rfl

set_option maxRecDepth 100000 in
/-- C11 witness: id 33 is a valid index and yields the entry stored there,
`SPR_PALETTE_3100`. -/
theorem GetPaletteG1Index_bounds_witness :
    GetPaletteG1Index 33 = some SPR_PALETTE_3100 ∧ GetPaletteG1Index 144 = none :=
  ⟨((GetPaletteG1Index_bounds 33).2.1 (by decide)).trans (by decide),
    (GetPaletteG1Index_bounds 144).1.2 (by decide)⟩

set_option maxRecDepth 100000 in
/-- C12 as stated fails. `GlassPaletteIds` has 32 entries, one per colour, but
`palette_to_g1_offset` has 144 entries, not 32. -/
theorem palette_to_g1_offset_not_colour_count :
    GlassPaletteIds.length = COLOUR_COUNT ∧ palette_to_g1_offset.length = 144 ∧
    ¬ (GlassPaletteIds.length = COLOUR_COUNT ∧ palette_to_g1_offset.length = COLOUR_COUNT) ∧
    palette_to_g1_offset.length ≠ GlassPaletteIds.length := by
  decide

set_option maxRecDepth 100000 in
/-- C12 amended. `GlassPaletteIds` and `TranslucentWindowPalettes` each have exactly as
many entries as there are colours (32); `palette_to_g1_offset` has 144 entries,
the 32 colour entries followed by 112 further entries. -/
theorem palette_table_cardinalities :
    GlassPaletteIds.length = COLOUR_COUNT ∧
    TranslucentWindowPalettes.length = COLOUR_COUNT ∧
    GlassPaletteIds.length = TranslucentWindowPalettes.length ∧
    palette_to_g1_offset.length = COLOUR_COUNT + 112 := by
  decide

set_option maxRecDepth 100000 in
/-- C13. For every colour ordinal `c` in `[0, 32)`, `GetPaletteG1Index(c)` is present
and equals `SPR_PALETTE_BLACK + c = 4915 + c`; the glass entry for colour `c`,
at table position `112 + c`, which is the value of `GlassPaletteIds[c]`, is
present and equals `SPR_PALETTE_GLASS_BLACK + c = 5016 + c`. -/
theorem colour_blocks_contiguous (c : Nat) (hc : c < 32) :
    GetPaletteG1Index c = some (SPR_PALETTE_BLACK + c) ∧
    GetPaletteG1Index c = some (4915 + c) ∧
    (GlassPaletteIds[c]?).map FILTER_PALETTE_ID.value = some (112 + c) ∧
    GetPaletteG1Index (112 + c) = some (SPR_PALETTE_GLASS_BLACK + c) ∧
    GetPaletteG1Index (112 + c) = some (5016 + c) := by
  revert c
  decide

/-- C13 witness: colour ordinal 31, the last colour. -/
theorem colour_blocks_contiguous_witness :
    31 < 32 ∧ GetPaletteG1Index 31 = some (4915 + 31) ∧
    GetPaletteG1Index (112 + 31) = some (5016 + 31) :=
  ⟨by decide, (colour_blocks_contiguous 31 (by decide)).2.1,
    (colour_blocks_contiguous 31 (by decide)).2.2.2.2⟩

set_option maxRecDepth 100000 in
/-- C14. `TranslucentWindowPalettes` has one triple per colour, every triple consists
of the body, the highlight and the shadow enumerator of one and the same
translucent skin, and `COLOUR_BLACK` (index 0) and `COLOUR_GREY` (index 1)
both map to the grey skin's triple. -/
theorem TranslucentWindowPalettes_skins :
    TranslucentWindowPalettes.length = COLOUR_COUNT ∧
    (∀ t ∈ TranslucentWindowPalettes,
      t.base.skin ≠ none ∧ t.highlight.skin = t.base.skin ∧ t.shadow.skin = t.base.skin ∧
      t.base.skinPart = 0 ∧ t.highlight.skinPart = 1 ∧ t.shadow.skinPart = 2) ∧
    TranslucentWindowPalettes[0]? = some ⟨.PALETTE_TRANSLUCENT_GREY,
      .PALETTE_TRANSLUCENT_GREY_HIGHLIGHT, .PALETTE_TRANSLUCENT_GREY_SHADOW⟩ ∧
    TranslucentWindowPalettes[1]? = TranslucentWindowPalettes[0]? := by
  decide

/-! ## Theorems: PaletteMap accessors -/

/-- C15. For every palette map and every index, the read-only accessor returns 0
when `index >= _dataLength`, and when `index < _dataLength` it returns the
byte stored at that index of the buffer (the buffer holding `_dataLength`
bytes). -/
theorem get_bounds_checked (m : PaletteMap) (index : Nat)
    (hbuf : m.data.length = m.dataLength) :
    (index ≥ m.dataLength → m.get index = 0) ∧
    (∀ h : index < m.dataLength, m.get index = m.data.get ⟨index, hbuf ▸ h⟩) := by
  constructor
  · intro h
    simp [PaletteMap.get, h]
  · intro h
    have hlen : index < m.data.length := hbuf ▸ h
    have hnot : ¬ index ≥ m.dataLength := by omega
    simp only [PaletteMap.get, if_neg hnot]
    rw [List.getD_eq_getElem?_getD, List.getElem?_eq_getElem hlen]
    rfl

set_option maxRecDepth 100000 in
/-- C15 witness: the two-row table holding `0 .. 31`, read at 19 and at 259. -/
theorem get_bounds_checked_witness :
    blendTable2x16.data.length = blendTable2x16.dataLength ∧
    blendTable2x16.get 259 = 0 ∧ blendTable2x16.get 19 = 19 :=
  ⟨by decide, (get_bounds_checked blendTable2x16 259 (by decide)).1 (by decide),
    ((get_bounds_checked blendTable2x16 19 (by decide)).2 (by decide)).trans (by decide)⟩

/-- C16. Writing a value through the mutable accessor at an index
`>= _dataLength` leaves the map (every byte and all bookkeeping) unchanged, the
value landing in the static `dummy`; at an index `< _dataLength` the byte at
that index becomes the value, every other byte of the buffer is unchanged,
and `dummy` is untouched. -/
theorem set_frame (m : PaletteMap) (dummy index value : Nat)
    (hbuf : m.data.length = m.dataLength) :
    (index ≥ m.dataLength → (m.set dummy index value).1 = m ∧ (m.set dummy index value).2 = value) ∧
    (index < m.dataLength →
      (m.set dummy index value).1.get index = value ∧
      (∀ j, j ≠ index → (m.set dummy index value).1.data[j]? = m.data[j]?) ∧
      (∀ j, j ≠ index → (m.set dummy index value).1.get j = m.get j) ∧
      (m.set dummy index value).1.data.length = m.data.length ∧
      (m.set dummy index value).1.dataLength = m.dataLength ∧
      (m.set dummy index value).1.numMaps = m.numMaps ∧
      (m.set dummy index value).1.mapLength = m.mapLength ∧
      (m.set dummy index value).2 = dummy) := by
  constructor
  · intro h
    simp [PaletteMap.set, h]
  · intro h
    have hnot : ¬ index ≥ m.dataLength := by omega
    have hlen : index < m.data.length := hbuf ▸ h
    have hset : m.set dummy index value = ({ m with data := m.data.set index value }, dummy) := by
      simp only [PaletteMap.set, if_neg hnot]
    rw [hset]
    refine ⟨?_, ?_, ?_, ?_, rfl, rfl, rfl, rfl⟩
    · show (if index ≥ m.dataLength then 0 else (m.data.set index value).getD index 0) = value
      rw [if_neg hnot, List.getD_eq_getElem?_getD, List.getElem?_set_self hlen]
      rfl
    · intro j hj
      show (m.data.set index value)[j]? = m.data[j]?
      rw [List.getElem?_set_ne (Ne.symm hj)]
    · intro j hj
      show (if j ≥ m.dataLength then 0 else (m.data.set index value).getD j 0) =
        (if j ≥ m.dataLength then 0 else m.data.getD j 0)
      rw [List.getD_eq_getElem?_getD, List.getD_eq_getElem?_getD,
        List.getElem?_set_ne (Ne.symm hj)]
    · show (m.data.set index value).length = m.data.length
      rw [List.length_set]

set_option maxRecDepth 100000 in
/-- C16 witness: the two-row table holding `0 .. 31`, written at 259 and at 19. -/
theorem set_frame_witness :
    blendTable2x16.data.length = blendTable2x16.dataLength ∧
    (blendTable2x16.set 0 259 77).1 = blendTable2x16 ∧
    (blendTable2x16.set 0 19 77).1.get 19 = 77 ∧
    (blendTable2x16.set 0 19 77).1.get 20 = blendTable2x16.get 20 :=
  ⟨by decide, ((set_frame blendTable2x16 0 259 77 (by decide)).1 (by decide)).1,
    ((set_frame blendTable2x16 0 19 77 (by decide)).2 (by decide)).1,
    ((set_frame blendTable2x16 0 19 77 (by decide)).2 (by decide)).2.2.1 20 (by decide)⟩

/-! ## Theorems: the effect of `Copy` -/

theorem sizeSub_of_le (a b : Nat) (hb : b ≤ a) (ha : a < SIZE_MODULUS) : sizeSub a b = a - b := by
  have hM : SIZE_MODULUS = 18446744073709551616 := by norm_num [SIZE_MODULUS]
  unfold sizeSub
  rw [hM] at ha ⊢
  omega

theorem splice_getElem? (dst src : List Nat) (d s n : Nat) (hs : s + n ≤ src.length)
    (hd : d + n ≤ dst.length) (j : Nat) :
    (dst.take d ++ (src.drop s).take n ++ dst.drop (d + n))[j]? =
      if d ≤ j ∧ j < d + n then src[s + (j - d)]? else dst[j]? := by
  have h1 : (dst.take d).length = d := by rw [List.length_take]; omega
  have h2 : ((src.drop s).take n).length = n := by
    rw [List.length_take, List.length_drop]; omega
  have h12 : (dst.take d ++ (src.drop s).take n).length = d + n := by
    rw [List.length_append, h1, h2]
  by_cases hj1 : j < d
  · rw [if_neg (by omega), List.getElem?_append_left (by rw [h12]; omega),
      List.getElem?_append_left (by rw [h1]; exact hj1), List.getElem?_take_of_lt hj1]
  · by_cases hj2 : j < d + n
    · rw [if_pos ⟨by omega, hj2⟩, List.getElem?_append_left (by rw [h12]; exact hj2),
        List.getElem?_append_right (by rw [h1]; omega), h1,
        List.getElem?_take_of_lt (by omega), List.getElem?_drop]
    · rw [if_neg (by omega), List.getElem?_append_right (by rw [h12]; omega), h12,
        List.getElem?_drop]
      congr 1
      omega

theorem splice_length (dst src : List Nat) (d s n : Nat) (hs : s + n ≤ src.length)
    (hd : d + n ≤ dst.length) :
    (dst.take d ++ (src.drop s).take n ++ dst.drop (d + n)).length = dst.length := by
  simp only [List.length_append, List.length_take, List.length_drop]
  omega

/-- Within bounds `memcpy` succeeds, keeps the length of the destination and
replaces exactly the bytes `d .. d + n - 1` by the bytes `s .. s + n - 1` of the
source. -/
theorem memcpy_spec (dst src : List Nat) (d s n : Nat) (hs : s + n ≤ src.length)
    (hd : d + n ≤ dst.length) :
    ∃ r, memcpy dst d src s n = some r ∧ r.length = dst.length ∧
      ∀ j, r[j]? = if d ≤ j ∧ j < d + n then src[s + (j - d)]? else dst[j]? := by
  unfold memcpy
  by_cases hn : n = 0
  · rw [if_pos hn]
    refine ⟨dst, rfl, rfl, fun j => ?_⟩
    rw [if_neg (by omega)]
  · rw [if_neg hn, if_pos ⟨hs, hd⟩]
    exact ⟨_, rfl, splice_length dst src d s n hs hd, splice_getElem? dst src d s n hs hd⟩

theorem get_eq_getElem? (m : PaletteMap) (j : Nat) :
    m.get j = if j ≥ m.dataLength then 0 else (m.data[j]?).getD 0 := by
  unfold PaletteMap.get
  rw [List.getD_eq_getElem?_getD]

/-- C17. For two distinct maps of the same map length `L` (each with a buffer of
`_dataLength` bytes holding at least one row) and every `dstIndex <= L`,
`srcIndex <= L` and `length <= min(L - srcIndex, L - dstIndex)`, the call
`self.Copy(dstIndex, src, srcIndex, length)` succeeds, afterwards
`self[dstIndex + k] = src[srcIndex + k]` for every `k < length`, every other
byte of the destination and its bookkeeping are unchanged; the source, passed
by const reference and only read by `memcpy`, is not part of the result. -/
theorem Copy_frame (self src : PaletteMap) (L dstIndex srcIndex length : Nat)
    (hL : self.mapLength = L) (hLs : src.mapLength = L) (hsize : L < SIZE_MODULUS)
    (hselfrow : L ≤ self.data.length) (hselfbuf : self.data.length = self.dataLength)
    (hsrcrow : L ≤ src.data.length) (hsrcbuf : src.data.length = src.dataLength)
    (hd : dstIndex ≤ L) (hs : srcIndex ≤ L)
    (hlen : length ≤ min (L - srcIndex) (L - dstIndex)) :
    ∃ r, self.Copy dstIndex src srcIndex length = some r ∧
      (∀ k, k < length → r.get (dstIndex + k) = src.get (srcIndex + k)) ∧
      (∀ j, j < dstIndex ∨ dstIndex + length ≤ j → r.get j = self.get j) ∧
      r.data.length = self.data.length ∧ r.dataLength = self.dataLength ∧
      r.numMaps = self.numMaps ∧ r.mapLength = self.mapLength := by
  have hcl : self.copyLength dstIndex srcIndex length = length := by
    unfold PaletteMap.copyLength PaletteMap.copyMaxLength
    rw [hL, sizeSub_of_le L srcIndex hs hsize, sizeSub_of_le L dstIndex hd hsize]
    omega
  have hlen1 : length ≤ L - srcIndex := le_trans hlen (Nat.min_le_left _ _)
  have hlen2 : length ≤ L - dstIndex := le_trans hlen (Nat.min_le_right _ _)
  obtain ⟨d, hd1, hd2, hd3⟩ :=
    memcpy_spec self.data src.data dstIndex srcIndex length (by omega) (by omega)
  refine ⟨{ self with data := d }, ?_, ?_, ?_, hd2, rfl, rfl, rfl⟩
  · unfold PaletteMap.Copy
    simp only [hcl, hd1, Option.map_some']
  · intro k hk
    have h1 : ¬ dstIndex + k ≥ self.dataLength := by omega
    have h2 : ¬ srcIndex + k ≥ src.dataLength := by omega
    rw [get_eq_getElem?, get_eq_getElem?]
    show (if dstIndex + k ≥ self.dataLength then 0 else (d[dstIndex + k]?).getD 0) = _
    rw [if_neg h1, if_neg h2, hd3, if_pos ⟨by omega, by omega⟩]
    congr 2
    omega
  · intro j hj
    rw [get_eq_getElem?, get_eq_getElem?]
    show (if j ≥ self.dataLength then 0 else (d[j]?).getD 0) = _
    have hc : ¬ (dstIndex ≤ j ∧ j < dstIndex + length) := by omega
    rw [hd3, if_neg hc]

set_option maxRecDepth 100000 in
/-- C17 witness: in a 16-byte map of zeros, `Copy(4, src, 2, 8)` from a 16-byte map
of sevens. -/
theorem Copy_frame_witness :
    ∃ r, (PaletteMap.ofArray (List.replicate 16 0)).Copy 4 copySrc16 2 8 = some r ∧
      r.get 4 = copySrc16.get 2 ∧ r.get 11 = 7 ∧ r.get 12 = 0 ∧ r.get 3 = 0 :=
  match Copy_frame (PaletteMap.ofArray (List.replicate 16 0)) copySrc16 16 4 2 8
      (by decide) (by decide) (by decide) (by decide) (by decide) (by decide) (by decide)
      (by decide) (by decide) (by decide) with
  | ⟨r, h1, h2, h3, _⟩ =>
    ⟨r, h1, h2 0 (by decide), (h2 7 (by decide)).trans (by decide),
      (h3 12 (Or.inr (by decide))).trans (by decide), (h3 3 (Or.inl (by decide))).trans (by decide)⟩

/-! ## Theorems: the initialisation guard of `GetDefault` -/

theorem GetDefault_data_eq_writes (s : DefaultStatics) :
    (PaletteMap.GetDefault s).1.data =
      (PaletteMap.GetDefaultWrites s).foldl (fun d w => d.set w.1 w.2) s.data := by
  unfold PaletteMap.GetDefault PaletteMap.GetDefaultWrites fillIdentity
  cases s.initialised
  · simp only [Bool.not_false, if_true, List.foldl_map]
  · simp only [Bool.not_true, Bool.false_eq_true, if_false, List.foldl_nil]

/-- C18, the code at the failing input. `GetDefault` never assigns its guard: after
the first call from program start `initialised` is still false, and the second
call performs the 256 stores of the fill loop again; the same holds for every
later call. -/
theorem GetDefault_guard_never_set :
    DefaultStatics.initial.initialised = false ∧
    (staticsAfterCalls 1).initialised = false ∧
    (PaletteMap.GetDefaultWrites (staticsAfterCalls 1)).length = 256 ∧
    (∀ n, (staticsAfterCalls n).initialised = false ∧
      (PaletteMap.GetDefaultWrites (staticsAfterCalls n)).length = 256) := by
  have key : ∀ n, (staticsAfterCalls n).initialised = false ∧
      (PaletteMap.GetDefaultWrites (staticsAfterCalls n)).length = 256 := by
    intro n
    obtain ⟨h1, h2⟩ := staticsAfterCalls_inv n
    refine ⟨h1, ?_⟩
    unfold PaletteMap.GetDefaultWrites
    rw [h1]
    simp only [Bool.not_false, if_true, List.length_map, List.length_range, h2]
  exact ⟨rfl, (key 1).1, (key 1).2, key⟩

/-! ## Theorems: loading the palette -/

/-- C19. `load_palette` resolves the palette image id `0x5FC` when no water object is
loaded and the water object's `image_id` when one is loaded, and the image it
looks up is the one with that id: its result depends on `gfx_get_g1_element`
only through the value at that id; when that image does not resolve (graphics
enabled) the call with that id is the first one recorded. -/
theorem load_palette_resolution (env : DrawEnv) (gGamePalette : List Nat) :
    load_palette_image none = 0x5FC ∧
    (∀ w : rct_water_type, load_palette_image (some w) = w.image_id) ∧
    (∀ f : Nat → Option rct_g1_element,
      f (load_palette_image env.water_type) =
        env.gfx_get_g1_element (load_palette_image env.water_type) →
      load_palette { env with gfx_get_g1_element := f } gGamePalette =
        load_palette env gGamePalette) ∧
    (env.gOpenRCT2NoGraphics = false →
      env.gfx_get_g1_element (load_palette_image env.water_type) = none →
      load_palette env gGamePalette =
        some (gGamePalette,
          [DrawCall.gfx_get_g1_element (load_palette_image env.water_type),
            DrawCall.platform_update_palette gGamePalette 10 236,
            DrawCall.gfx_set_dirty_blocks 0 0 env.context_get_width env.context_get_height])) := by
  refine ⟨rfl, fun _ => rfl, ?_, ?_⟩
  · intro f hf
    unfold load_palette
    simp only [hf, gfx_invalidate_screen]
  · intro hg hnone
    unfold load_palette
    simp only [hg, hnone, gfx_invalidate_screen, Bool.false_eq_true, if_false, Option.map_some',
      List.cons_append, List.nil_append]

set_option maxRecDepth 100000 in
/-- C19 witness: graphics enabled, no water object, image `0x5FC` unresolved. -/
theorem load_palette_resolution_witness :
    load_palette noWaterEnv zeroPalette =
      some (zeroPalette,
        [DrawCall.gfx_get_g1_element 0x5FC, DrawCall.platform_update_palette zeroPalette 10 236,
          DrawCall.gfx_set_dirty_blocks 0 0 640 480]) :=
  (load_palette_resolution noWaterEnv zeroPalette).2.2.2 rfl rfl

theorem getElem?_eq_some_getD (l : List Nat) (i : Nat) (h : i < l.length) :
    l[i]? = some (l.getD i 0) := by
  rw [List.getD_eq_getElem?_getD, List.getElem?_eq_getElem h]
  rfl

theorem copyPaletteEntries_spec (n : Nat) :
    ∀ (buf : List Nat) (s : Nat) (src : List Nat) (t : Nat),
      4 * (s + n) ≤ buf.length → 3 * (t + n) ≤ src.length →
      ∃ r, copyPaletteEntries n buf ((4 * s : Nat) : Int) src (3 * t) = some r ∧
        r.length = buf.length ∧
        ∀ j, r[j]? =
          if InLoadedSlots s n j then src[3 * (t + (j / 4 - s)) + j % 4]? else buf[j]? := by
  induction n with
  | zero =>
    intro buf s src t _ _
    refine ⟨buf, rfl, rfl, fun j => ?_⟩
    rw [if_neg (by unfold InLoadedSlots; omega)]
  | succ n ih =>
    intro buf s src t hb hs
    have hcond : (0 : Int) ≤ ((4 * s : Nat) : Int) ∧
        ((4 * s : Nat) : Int) + 2 < (buf.length : Int) ∧ 3 * t + 2 < src.length := by
      refine ⟨by omega, by omega, by omega⟩
    have hnext : ((4 * s : Nat) : Int) + 4 = ((4 * (s + 1) : Nat) : Int) := by omega
    have htoNat : (((4 * s : Nat) : Int)).toNat = 4 * s := Int.toNat_ofNat _
    rw [copyPaletteEntries, if_pos hcond]
    simp only [htoNat, hnext]
    have hlen1 : (((buf.set (4 * s) (src.getD (3 * t) 0)).set (4 * s + 1)
        (src.getD (3 * t + 1) 0)).set (4 * s + 2) (src.getD (3 * t + 2) 0)).length =
        buf.length := by
      simp only [List.length_set]
    obtain ⟨r, hr1, hr2, hr3⟩ :=
      ih (((buf.set (4 * s) (src.getD (3 * t) 0)).set (4 * s + 1)
        (src.getD (3 * t + 1) 0)).set (4 * s + 2) (src.getD (3 * t + 2) 0)) (s + 1) src (t + 1)
        (by rw [hlen1]; omega) (by omega)
    have hidx : 3 * t + 3 = 3 * (t + 1) := by omega
    rw [hidx]
    refine ⟨r, hr1, hr2.trans hlen1, fun j => ?_⟩
    rw [hr3 j]
    have g0 : src[3 * t]? = some (src.getD (3 * t) 0) := getElem?_eq_some_getD src _ (by omega)
    have g1 : src[3 * t + 1]? = some (src.getD (3 * t + 1) 0) :=
      getElem?_eq_some_getD src _ (by omega)
    have g2 : src[3 * t + 2]? = some (src.getD (3 * t + 2) 0) :=
      getElem?_eq_some_getD src _ (by omega)
    unfold InLoadedSlots
    by_cases c2 : j = 4 * s + 2
    · have hin : 4 * s ≤ j ∧ j < 4 * (s + (n + 1)) ∧ j % 4 ≠ 3 := by omega
      have hout : ¬ (4 * (s + 1) ≤ j ∧ j < 4 * (s + 1 + n) ∧ j % 4 ≠ 3) := by omega
      have hi : 3 * (t + (j / 4 - s)) + j % 4 = 3 * t + 2 := by omega
      rw [if_neg hout, if_pos hin, hi, g2, c2]
      exact List.getElem?_set_self (by simp only [List.length_set]; omega)
    · rw [List.getElem?_set_ne (Ne.symm c2)]
      by_cases c1 : j = 4 * s + 1
      · have hin : 4 * s ≤ j ∧ j < 4 * (s + (n + 1)) ∧ j % 4 ≠ 3 := by omega
        have hout : ¬ (4 * (s + 1) ≤ j ∧ j < 4 * (s + 1 + n) ∧ j % 4 ≠ 3) := by omega
        have hi : 3 * (t + (j / 4 - s)) + j % 4 = 3 * t + 1 := by omega
        rw [if_neg hout, if_pos hin, hi, g1, c1]
        exact List.getElem?_set_self (by simp only [List.length_set]; omega)
      · rw [List.getElem?_set_ne (Ne.symm c1)]
        by_cases c0 : j = 4 * s
        · have hin : 4 * s ≤ j ∧ j < 4 * (s + (n + 1)) ∧ j % 4 ≠ 3 := by omega
          have hout : ¬ (4 * (s + 1) ≤ j ∧ j < 4 * (s + 1 + n) ∧ j % 4 ≠ 3) := by omega
          have hi : 3 * (t + (j / 4 - s)) + j % 4 = 3 * t := by omega
          rw [if_neg hout, if_pos hin, hi, g0, c0]
          exact List.getElem?_set_self (by omega)
        · rw [List.getElem?_set_ne (Ne.symm c0)]
          by_cases cin : 4 * (s + 1) ≤ j ∧ j < 4 * (s + 1 + n) ∧ j % 4 ≠ 3
          · have hin : 4 * s ≤ j ∧ j < 4 * (s + (n + 1)) ∧ j % 4 ≠ 3 := by omega
            have hi : 3 * (t + 1 + (j / 4 - (s + 1))) + j % 4 =
                3 * (t + (j / 4 - s)) + j % 4 := by omega
            rw [if_pos cin, if_pos hin, hi]
          · have hin : ¬ (4 * s ≤ j ∧ j < 4 * (s + (n + 1)) ∧ j % 4 ≠ 3) := by omega
            rw [if_neg cin, if_neg hin]

theorem wrap32_natCast (n : Nat) (h : n ≤ 256) : wrap32 (n : Int) = (n : Int) := by
  unfold wrap32; omega

set_option maxRecDepth 100000 in
/-- C20 as stated fails. A resolved palette image with slot offset 255 and width 2
asks for the slots 255 and 256 of the 256-entry buffer: the second iteration
of the copy loop stores to byte 1024, outside `gGamePalette` (the model yields
`none`), so the call does not confine its effect to the palette slots. -/
theorem load_palette_leaves_buffer :
    (defaultPaletteEnv paletteImage255).gfx_get_g1_element
        (load_palette_image (defaultPaletteEnv paletteImage255).water_type) =
      some paletteImage255 ∧
    paletteImage255.x_offset = 255 ∧ paletteImage255.width = 2 ∧
    zeroPalette.length = 1024 ∧
    load_palette (defaultPaletteEnv paletteImage255) zeroPalette = none := by
  decide

/-- C20 amended. For every prior content of the 1024-byte palette buffer: when the
resolved palette image has slot offset `x` and width `w` with all slots
`x .. x + w - 1` inside the 256 entries and holds `w` RGB triples,
`load_palette` sets bytes 0, 1, 2 of slot `x + i` to the `i`-th triple of the
image and changes no other byte (the 4th byte of every slot and every byte of
every other slot are unchanged); when the image does not resolve, or graphics
are disabled, the whole buffer is unchanged. -/
theorem load_palette_frame (env : DrawEnv) (gGamePalette : List Nat)
    (hbuf : gGamePalette.length = 1024) :
    (∀ (g1 : rct_g1_element) (x w : Nat),
      env.gOpenRCT2NoGraphics = false →
      env.gfx_get_g1_element (load_palette_image env.water_type) = some g1 →
      g1.x_offset = (x : Int) → g1.width = (w : Int) → x + w ≤ 256 →
      3 * w ≤ g1.offset.length →
      ∃ buffer,
        load_palette env gGamePalette =
          some (buffer,
            [DrawCall.gfx_get_g1_element (load_palette_image env.water_type),
              DrawCall.platform_update_palette buffer 10 236,
              DrawCall.gfx_set_dirty_blocks 0 0 env.context_get_width env.context_get_height]) ∧
        buffer.length = 1024 ∧
        (∀ i c, i < w → c < 3 → buffer[4 * (x + i) + c]? = g1.offset[3 * i + c]?) ∧
        (∀ j, ¬ InLoadedSlots x w j → buffer[j]? = gGamePalette[j]?) ∧
        (∀ slot, buffer[4 * slot + 3]? = gGamePalette[4 * slot + 3]?)) ∧
    (env.gOpenRCT2NoGraphics = false →
      env.gfx_get_g1_element (load_palette_image env.water_type) = none →
      load_palette env gGamePalette =
        some (gGamePalette,
          [DrawCall.gfx_get_g1_element (load_palette_image env.water_type),
            DrawCall.platform_update_palette gGamePalette 10 236,
            DrawCall.gfx_set_dirty_blocks 0 0 env.context_get_width env.context_get_height])) ∧
    (env.gOpenRCT2NoGraphics = true → load_palette env gGamePalette = some (gGamePalette, [])) := by
  refine ⟨?_, ?_, ?_⟩
  · intro g1 x w hg hres hx hw hslots hdata
    obtain ⟨r, hr1, hr2, hr3⟩ :=
      copyPaletteEntries_spec w gGamePalette x g1.offset 0 (by omega) (by omega)
    simp only [Nat.mul_zero, Nat.zero_add] at hr1 hr3
    have hxw : wrap32 (x : Int) * 4 = ((4 * x : Nat) : Int) := by
      rw [wrap32_natCast x (by omega)]; omega
    refine ⟨r, ?_, hr2.trans hbuf, ?_, ?_, ?_⟩
    · unfold load_palette
      simp only [hg, hres, hx, hw, wrap32_natCast w (by omega), hxw, Int.toNat_ofNat, hr1,
        gfx_invalidate_screen, Bool.false_eq_true, if_false, Option.map_some', List.cons_append,
        List.nil_append]
    · intro i c hi hc
      have hin : InLoadedSlots x w (4 * (x + i) + c) := by unfold InLoadedSlots; omega
      have hidx : 3 * ((4 * (x + i) + c) / 4 - x) + (4 * (x + i) + c) % 4 = 3 * i + c := by
        omega
      rw [hr3, if_pos hin, hidx]
    · intro j hj
      rw [hr3, if_neg hj]
    · intro slot
      have hout : ¬ InLoadedSlots x w (4 * slot + 3) := by unfold InLoadedSlots; omega
      rw [hr3, if_neg hout]
  · intro hg hnone
    unfold load_palette
    simp only [hg, hnone, gfx_invalidate_screen, Bool.false_eq_true, if_false, Option.map_some',
      List.cons_append, List.nil_append]
  · intro hg
    unfold load_palette
    simp only [hg, if_true]

set_option maxRecDepth 100000 in
/-- C20 witness: image `0x5FC` resolves to two triples for the slots 10 and 11 of a
zeroed buffer: bytes 40 .. 42 and 44 .. 46 become 1, 2, 3 and 4, 5, 6, the
bytes 43 and 47 stay 0. -/
theorem load_palette_frame_witness :
    ∃ buffer calls, load_palette (defaultPaletteEnv paletteImage10) zeroPalette =
        some (buffer, calls) ∧
      buffer[40]? = some 1 ∧ buffer[46]? = some 6 ∧ buffer[43]? = some 0 ∧
      buffer[47]? = some 0 ∧ buffer[48]? = some 0 :=
  match (load_palette_frame (defaultPaletteEnv paletteImage10) zeroPalette (by decide)).1
      paletteImage10 10 2 rfl (by decide) (by decide) (by decide) (by decide) (by decide) with
  | ⟨buffer, h1, _, h3, h4, h5⟩ =>
    ⟨buffer, _, h1, (h3 0 0 (by decide) (by decide)).trans (by decide),
      (h3 1 2 (by decide) (by decide)).trans (by decide),
      (h5 10).trans (by decide), (h5 11).trans (by decide),
      (h4 48 (by decide)).trans (by decide)⟩

set_option maxRecDepth 100000 in
/-- C21 as stated fails. With `gOpenRCT2NoGraphics` set and no water object,
`load_palette` returns at once: no palette update and no dirty mark at all.
And with graphics enabled, a default palette image placed at slot 255 with
width 2 makes the copy loop leave `gGamePalette` before any call is made. -/
theorem load_palette_no_graphics_no_invalidation :
    noGraphicsEnv.water_type = none ∧
    load_palette noGraphicsEnv zeroPalette = some (zeroPalette, []) ∧
    (defaultPaletteEnv paletteImage255).water_type = none ∧
    load_palette (defaultPaletteEnv paletteImage255) zeroPalette = none := by
  decide

/-- C21 amended. Every call of `load_palette` with graphics enabled, no water object
present and a default palette image `0x5FC` that is absent or fits the
1024-byte palette buffer makes exactly these calls, in this order: the image
lookup, one `platform_update_palette(gGamePalette, 10, 236)`, then one dirty
mark of the rectangle from (0, 0) to (context width, context height). -/
theorem load_palette_calls (env : DrawEnv) (gGamePalette : List Nat)
    (hbuf : gGamePalette.length = 1024) (hwater : env.water_type = none)
    (hg : env.gOpenRCT2NoGraphics = false)
    (hfit : ∀ g1, env.gfx_get_g1_element 0x5FC = some g1 →
      ∃ x w : Nat, g1.x_offset = (x : Int) ∧ g1.width = (w : Int) ∧ x + w ≤ 256 ∧
        3 * w ≤ g1.offset.length) :
    ∃ buffer calls,
      load_palette env gGamePalette = some (buffer, calls) ∧
      calls =
        [DrawCall.gfx_get_g1_element 0x5FC, DrawCall.platform_update_palette buffer 10 236,
          DrawCall.gfx_set_dirty_blocks 0 0 env.context_get_width env.context_get_height] ∧
      calls.countP DrawCall.isDirtyMark = 1 ∧
      calls.countP DrawCall.isPaletteUpdate = 1 ∧
      calls.filter (fun c => c.isDirtyMark || c.isPaletteUpdate) =
        [DrawCall.platform_update_palette buffer 10 236,
          DrawCall.gfx_set_dirty_blocks 0 0 env.context_get_width env.context_get_height] := by
  have himg : load_palette_image env.water_type = 0x5FC := by rw [hwater]; rfl
  have hcopied : ∃ buffer,
      (match env.gfx_get_g1_element 0x5FC with
        | none => some gGamePalette
        | some g1 =>
          copyPaletteEntries (wrap32 g1.width).toNat gGamePalette (wrap32 g1.x_offset * 4)
            g1.offset 0) = some buffer := by
    cases hres : env.gfx_get_g1_element 0x5FC with
    | none => exact ⟨gGamePalette, rfl⟩
    | some g1 =>
      obtain ⟨x, w, hx, hw, hslots, hdata⟩ := hfit g1 hres
      obtain ⟨r, hr1, _, _⟩ :=
        copyPaletteEntries_spec w gGamePalette x g1.offset 0 (by omega) (by omega)
      simp only [Nat.mul_zero] at hr1
      have hxw : wrap32 (x : Int) * 4 = ((4 * x : Nat) : Int) := by
        rw [wrap32_natCast x (by omega)]; omega
      refine ⟨r, ?_⟩
      simp only [hx, hw, wrap32_natCast w (by omega), hxw, Int.toNat_ofNat, hr1]
  obtain ⟨buffer, hbuffer⟩ := hcopied
  refine ⟨buffer, _, ?_, rfl, rfl, rfl, rfl⟩
  unfold load_palette
  simp only [hg, himg, hbuffer, gfx_invalidate_screen, Bool.false_eq_true, if_false,
    Option.map_some', List.cons_append, List.nil_append]

set_option maxRecDepth 100000 in
/-- C21 witness: graphics enabled, no water object, image `0x5FC` unresolved, a
640 × 480 context. -/
theorem load_palette_calls_witness :
    ∃ buffer calls, load_palette noWaterEnv zeroPalette = some (buffer, calls) ∧
      calls.countP DrawCall.isDirtyMark = 1 ∧
      calls.filter (fun c => c.isDirtyMark || c.isPaletteUpdate) =
        [DrawCall.platform_update_palette buffer 10 236,
          DrawCall.gfx_set_dirty_blocks 0 0 640 480] :=
  match load_palette_calls noWaterEnv zeroPalette (by decide) rfl rfl
      (fun g1 h => Option.noConfusion (show (none : Option rct_g1_element) = some g1 from h)) with
  | ⟨buffer, calls, h1, _, h3, _, h5⟩ => ⟨buffer, calls, h1, h3, h5⟩

/-! ## Theorems: blending from the transparent index -/

/-- C25. With assertions disabled, for every palette map (whose `_dataLength` is at
most `2 ^ 64 - 256`, as every 32-bit length is) and every byte `dst`,
`Blend(0, dst)` returns 0 and reads no table byte: the index
`(0 - 1) * 256 + dst` is negative, converts to the `size_t` value
`2 ^ 64 - 256 + dst`, which is not below `_dataLength`, so the result is the
same for every table content. -/
theorem Blend_transparent (m : PaletteMap) (dst : Nat) (hdst : dst < 256)
    (hlen : m.dataLength ≤ SIZE_MODULUS - 256) :
    m.Blend 0 dst = 0 ∧ PaletteMap.blendIdx 0 dst < 0 ∧
    toSize (PaletteMap.blendIdx 0 dst) = SIZE_MODULUS - 256 + dst ∧
    toSize (PaletteMap.blendIdx 0 dst) ≥ m.dataLength ∧
    (∀ data : List Nat, ({ m with data := data } : PaletteMap).Blend 0 dst = 0) := by
  have hM : SIZE_MODULUS = 18446744073709551616 := by norm_num [SIZE_MODULUS]
  have hidx : PaletteMap.blendIdx 0 dst = (dst : Int) - 256 := by
    unfold PaletteMap.blendIdx
    push_cast
    ring
  have hsize : toSize (PaletteMap.blendIdx 0 dst) = SIZE_MODULUS - 256 + dst := by
    rw [hidx, hM]
    unfold toSize
    norm_num
    omega
  have hge : toSize (PaletteMap.blendIdx 0 dst) ≥ m.dataLength := by
    rw [hsize]; omega
  refine ⟨?_, by rw [hidx]; omega, hsize, hge, fun data => ?_⟩
  · unfold PaletteMap.Blend PaletteMap.get
    simp only [if_pos hge]
  · unfold PaletteMap.Blend PaletteMap.get
    simp only [if_pos hge]

set_option maxRecDepth 100000 in
/-- C25 witness: the two-row table holding `0 .. 31`, `Blend(0, 3)`. -/
theorem Blend_transparent_witness :
    3 < 256 ∧ blendTable2x16.dataLength ≤ SIZE_MODULUS - 256 ∧ blendTable2x16.Blend 0 3 = 0 :=
  ⟨by decide, by decide, (Blend_transparent blendTable2x16 3 (by decide) (by decide)).1⟩

/-! ## Theorems: clipping, the buffer view -/

theorem clipLeft_row (dst : rct_drawpixelinfo) (coords : ScreenCoordsXY)
    (h : clipLeftExact dst coords) :
    (clipLeft dst coords).pitch + (clipLeft dst coords).width = dst.pitch + dst.width ∧
    (clipLeft dst coords).bits = dst.bits + max 0 (coords.x - dst.x) := by
  unfold clipLeft
  unfold clipLeftExact at h
  split_ifs with hc
  · obtain ⟨e1, e2, _, e4⟩ := h hc
    constructor
    · show wrap16 (dst.pitch + wrapU16 (coords.x - dst.x)) +
        wrap16 (dst.width - wrapU16 (coords.x - dst.x)) = _
      rw [e1, e2, e4]; omega
    · show dst.bits + wrapU16 (coords.x - dst.x) = _
      rw [e1]; omega
  · constructor
    · rfl
    · omega

theorem clipRight_row (dst : rct_drawpixelinfo) (right : Int) (h : clipRightExact dst right) :
    (clipRight dst right).pitch + (clipRight dst right).width = dst.pitch + dst.width ∧
    (clipRight dst right).bits = dst.bits := by
  unfold clipRight
  obtain ⟨e0, h⟩ := h
  simp only [e0]
  split_ifs with hc
  · obtain ⟨e1, e2⟩ := h hc
    refine ⟨?_, rfl⟩
    show wrap16 (dst.pitch + (dst.x + dst.width - right)) +
      wrap16 (dst.width - (dst.x + dst.width - right)) = _
    rw [e1, e2]; omega
  · exact ⟨rfl, rfl⟩

theorem wrapU32_product (r c : Int) (hr0 : 0 ≤ r) (hr : r ≤ 65534) (hc0 : 0 ≤ c)
    (hc : c ≤ 65535) : wrapU32 (r * c) = r * c := by
  unfold wrapU32
  have h0 : 0 ≤ r * c := mul_nonneg hr0 hc0
  have h1 : r * c ≤ 65534 * 65535 := mul_le_mul hr hc hc0 (by norm_num)
  exact Int.emod_eq_of_lt h0 (by omega)

theorem clipTop_row (dst : rct_drawpixelinfo) (coords : ScreenCoordsXY)
    (h : clipTopExact dst coords) (hr0 : 0 ≤ dst.pitch + dst.width)
    (hr : dst.pitch + dst.width ≤ 65534) :
    (clipTop dst coords).pitch = dst.pitch ∧
    (clipTop dst coords).bits = dst.bits + (dst.pitch + dst.width) * max 0 (coords.y - dst.y) := by
  unfold clipTop
  unfold clipTopExact at h
  split_ifs with hc
  · obtain ⟨e1, _, _⟩ := h hc
    refine ⟨rfl, ?_⟩
    show dst.bits + wrapU32 ((dst.pitch + dst.width) * wrapU16 (coords.y - dst.y)) = _
    have hc1 : coords.y - dst.y ≤ 65535 := by unfold wrapU16 at e1; omega
    have hmax : max 0 (coords.y - dst.y) = coords.y - dst.y := by omega
    rw [e1, wrapU32_product _ _ hr0 hr (by omega) hc1, hmax]
  · refine ⟨rfl, ?_⟩
    have hmax : max 0 (coords.y - dst.y) = 0 := by omega
    rw [hmax, mul_zero, add_zero]

theorem clipBottom_row (dst : rct_drawpixelinfo) (bottom : Int) :
    (clipBottom dst bottom).pitch = dst.pitch ∧ (clipBottom dst bottom).bits = dst.bits := by
  unfold clipBottom
  simp only []
  split_ifs <;> exact ⟨rfl, rfl⟩

/-- Without truncation the four clipping blocks keep `pitch + width`. -/
theorem clipStages_row (src : rct_drawpixelinfo) (coords : ScreenCoordsXY) (width height : Int)
    (hs : NoTruncation src coords width height) :
    (clipStages src coords width height).pitch + (clipStages src coords width height).width =
      src.pitch + src.width := by
  obtain ⟨_, _, hL, hR, hT, hB, _⟩ := hs
  unfold clipStages
  obtain ⟨l1, _⟩ := clipLeft_row _ _ hL
  obtain ⟨r1, _⟩ := clipRight_row _ _ hR
  obtain ⟨_, _, _, t4, _⟩ := clipTop_exact _ _ hT
  have t1 : (clipTop (clipRight (clipLeft { src with zoom_level := 0 } coords)
      (wrap32 (coords.x + width))) coords).pitch =
      (clipRight (clipLeft { src with zoom_level := 0 } coords)
        (wrap32 (coords.x + width))).pitch := by
    unfold clipTop; split_ifs <;> rfl
  obtain ⟨b1, _⟩ := clipBottom_row
    (clipTop (clipRight (clipLeft { src with zoom_level := 0 } coords)
      (wrap32 (coords.x + width))) coords) (wrap32 (coords.y + height))
  obtain ⟨_, _, _, b4, _⟩ := clipBottom_exact _ _ hB
  rw [b1, b4, t1, t4, r1, l1]

/-- Without truncation and with a row length in `[0, 65534]` the four clipping blocks
advance `bits` by the clipped columns plus one source row per clipped row. -/
theorem clipStages_bits (src : rct_drawpixelinfo) (coords : ScreenCoordsXY) (width height : Int)
    (hs : NoTruncation src coords width height) (hr0 : 0 ≤ src.pitch + src.width)
    (hr : src.pitch + src.width ≤ 65534) :
    (clipStages src coords width height).bits =
      src.bits + max 0 (coords.x - src.x) +
        (src.pitch + src.width) * max 0 (coords.y - src.y) := by
  obtain ⟨_, _, hL, hR, hT, _, _⟩ := hs
  unfold clipStages
  obtain ⟨l1, l2⟩ := clipLeft_row _ _ hL
  obtain ⟨r1, r2⟩ := clipRight_row _ _ hR
  obtain ⟨_, _, l3, _, _⟩ := clipLeft_exact _ _ hL
  obtain ⟨_, _, r3, _, _⟩ := clipRight_exact _ _ hR
  have hrow : (clipRight (clipLeft { src with zoom_level := 0 } coords)
      (wrap32 (coords.x + width))).pitch +
      (clipRight (clipLeft { src with zoom_level := 0 } coords)
        (wrap32 (coords.x + width))).width = src.pitch + src.width := by
    rw [r1, l1]
  obtain ⟨_, t2⟩ := clipTop_row _ _ hT (by rw [hrow]; exact hr0) (by rw [hrow]; exact hr)
  obtain ⟨_, b2⟩ := clipBottom_row
    (clipTop (clipRight (clipLeft { src with zoom_level := 0 } coords)
      (wrap32 (coords.x + width))) coords) (wrap32 (coords.y + height))
  rw [b2, t2, hrow, r2, l2, r3, l3]

theorem clip_drawpixelinfo_row_fields (src : rct_drawpixelinfo) (coords : ScreenCoordsXY)
    (width height : Int) :
    (clip_drawpixelinfo src coords width height).1.pitch =
      (clipStages src coords width height).pitch ∧
    (clip_drawpixelinfo src coords width height).1.width =
      (clipStages src coords width height).width ∧
    (clip_drawpixelinfo src coords width height).1.height =
      (clipStages src coords width height).height ∧
    (clip_drawpixelinfo src coords width height).1.bits =
      (clipStages src coords width height).bits := by
  rw [clip_drawpixelinfo_eq]
  split_ifs <;> exact ⟨rfl, rfl, rfl, rfl⟩

/-- C24. For every source descriptor and requested region for which no 16-bit field
truncates, `clip_drawpixelinfo` preserves the row length:
`dst.pitch + dst.width = src.pitch + src.width`, whether the call succeeds or
not; the stage after the left and right clipping blocks already has it. -/
theorem clip_drawpixelinfo_row_length (src : rct_drawpixelinfo) (coords : ScreenCoordsXY)
    (width height : Int) (hs : NoTruncation src coords width height) :
    (clip_drawpixelinfo src coords width height).1.pitch +
        (clip_drawpixelinfo src coords width height).1.width = src.pitch + src.width ∧
    (clipRight (clipLeft { src with zoom_level := 0 } coords) (wrap32 (coords.x + width))).pitch +
        (clipRight (clipLeft { src with zoom_level := 0 } coords)
          (wrap32 (coords.x + width))).width = src.pitch + src.width := by
  obtain ⟨f1, f2, _, _⟩ := clip_drawpixelinfo_row_fields src coords width height
  refine ⟨by rw [f1, f2]; exact clipStages_row src coords width height hs, ?_⟩
  obtain ⟨_, _, hL, hR, _⟩ := hs
  rw [(clipRight_row _ _ hR).1, (clipLeft_row _ _ hL).1]

/-- C24 witness: source (0, 0, 100, 100) with pitch 0, request (-10, -10) of size
50 × 50: the result has width 40 and pitch 60. -/
theorem clip_drawpixelinfo_row_length_witness :
    NoTruncation surface100 ⟨-10, -10⟩ 50 50 ∧
    (clip_drawpixelinfo surface100 ⟨-10, -10⟩ 50 50).1.pitch +
        (clip_drawpixelinfo surface100 ⟨-10, -10⟩ 50 50).1.width = 100 :=
  ⟨surface100_exact_a,
    (clip_drawpixelinfo_row_length surface100 ⟨-10, -10⟩ 50 50 surface100_exact_a).1.trans
      (by decide)⟩

/-- C23 as stated fails. The source (0, 0) of width 5, height 10 and pitch -10 has the
negative row length -5. For the request origin (0, 1), size 10 × 10, no 16-bit
field truncates and the call succeeds, but the pointer advances by
4294967291 bytes, not by `0 + (-10 + 5) * 1 = -5`: the row skip is stored in a
`uint32_t` before it is added to the pointer. -/
theorem clip_drawpixelinfo_negative_row_skip :
    NoTruncation negativeRowSurface ⟨0, 1⟩ 10 10 ∧
    (clip_drawpixelinfo negativeRowSurface ⟨0, 1⟩ 10 10).2 = true ∧
    (clip_drawpixelinfo negativeRowSurface ⟨0, 1⟩ 10 10).1.bits =
      negativeRowSurface.bits + 4294967291 ∧
    negativeRowSurface.bits + max 0 ((0 : Int) - negativeRowSurface.x) +
      (negativeRowSurface.pitch + negativeRowSurface.width) *
        max 0 ((1 : Int) - negativeRowSurface.y) = negativeRowSurface.bits + (-5) ∧
    (clip_drawpixelinfo negativeRowSurface ⟨0, 1⟩ 10 10).1.bits ≠
      negativeRowSurface.bits + max 0 ((0 : Int) - negativeRowSurface.x) +
        (negativeRowSurface.pitch + negativeRowSurface.width) *
          max 0 ((1 : Int) - negativeRowSurface.y) := by
  decide

/-- C23 amended. For every source descriptor with `int16_t` pitch and width and a
non-negative row length `src.pitch + src.width`, and every requested region
for which no 16-bit field truncates, `clip_drawpixelinfo` advances the buffer
pointer by exactly `max(0, x - src.x) + (src.pitch + src.width) * max(0, y - src.y)`
bytes. -/
theorem clip_drawpixelinfo_bits (src : rct_drawpixelinfo) (coords : ScreenCoordsXY)
    (width height : Int) (hs : NoTruncation src coords width height)
    (hp : src.pitch ≤ 32767) (hw : src.width ≤ 32767) (hrow : 0 ≤ src.pitch + src.width) :
    (clip_drawpixelinfo src coords width height).1.bits =
      src.bits + (max 0 (coords.x - src.x) +
        (src.pitch + src.width) * max 0 (coords.y - src.y)) := by
  obtain ⟨_, _, _, f4⟩ := clip_drawpixelinfo_row_fields src coords width height
  rw [f4, clipStages_bits src coords width height hs hrow (by omega), add_assoc]

/-- C23 witness: source (0, 0, 100, 100) with pitch 0, request origin (20, 30), size
50 × 50: the pointer advances by `20 + 100 * 30 = 3020`. -/
theorem clip_drawpixelinfo_bits_witness :
    NoTruncation surface100 ⟨20, 30⟩ 50 50 ∧
    (clip_drawpixelinfo surface100 ⟨20, 30⟩ 50 50).1.bits = surface100.bits + 3020 :=
  ⟨by decide,
    (clip_drawpixelinfo_bits surface100 ⟨20, 30⟩ 50 50 (by decide) (by decide) (by decide)
      (by decide)).trans (by decide)⟩

/-- C22. Whenever `clip_drawpixelinfo` succeeds on a source with non-negative
(`int16_t`) width, height and pitch, no 16-bit field truncating, the
destination is a view into the source's pixels: for every column
`0 <= i < dst.width` and row `0 <= j < dst.height` the offset
`dst.bits + j * (dst.pitch + dst.width) + i` equals
`src.bits + r * (src.pitch + src.width) + c` for a source pixel
`0 <= c < src.width`, `0 <= r < src.height`, which is the pixel at the same
absolute coordinates. -/
theorem clip_drawpixelinfo_view (src : rct_drawpixelinfo) (coords : ScreenCoordsXY)
    (width height : Int) (hs : NoTruncation src coords width height)
    (hw0 : 0 ≤ src.width) (hw : src.width ≤ 32767) (hh0 : 0 ≤ src.height)
    (hp0 : 0 ≤ src.pitch) (hp : src.pitch ≤ 32767)
    (hok : (clip_drawpixelinfo src coords width height).2 = true)
    (i j : Int) (hi0 : 0 ≤ i) (hi : i < (clip_drawpixelinfo src coords width height).1.width)
    (hj0 : 0 ≤ j) (hj : j < (clip_drawpixelinfo src coords width height).1.height) :
    ∃ c r : Int, 0 ≤ c ∧ c < src.width ∧ 0 ≤ r ∧ r < src.height ∧
      (clip_drawpixelinfo src coords width height).1.bits +
          j * ((clip_drawpixelinfo src coords width height).1.pitch +
            (clip_drawpixelinfo src coords width height).1.width) + i =
        src.bits + r * (src.pitch + src.width) + c ∧
      src.x + c = coords.x + (clip_drawpixelinfo src coords width height).1.x + i ∧
      src.y + r = coords.y + (clip_drawpixelinfo src coords width height).1.y + j := by
  obtain ⟨_, hres⟩ := clip_exact src coords width height hs
  obtain ⟨ew, eh, ex, ey, _⟩ := hres hok
  obtain ⟨f1, f2, _, f4⟩ := clip_drawpixelinfo_row_fields src coords width height
  have hrowlen : (clip_drawpixelinfo src coords width height).1.pitch +
      (clip_drawpixelinfo src coords width height).1.width = src.pitch + src.width := by
    rw [f1, f2]; exact clipStages_row src coords width height hs
  have hbits := clipStages_bits src coords width height hs (by omega) (by omega)
  rw [ew] at hi
  rw [eh] at hj
  refine ⟨max 0 (coords.x - src.x) + i, max 0 (coords.y - src.y) + j, by omega, by omega,
    by omega, by omega, ?_, ?_, ?_⟩
  · rw [hrowlen, f4, hbits]
    ring
  · rw [ex]; omega
  · rw [ey]; omega

/-- C22 witness: source (0, 0, 100, 100) with pitch 0, request (-10, -10) of size
50 × 50; the destination pixel (39, 39) is the source pixel (39, 39). -/
theorem clip_drawpixelinfo_view_witness :
    ∃ c r : Int, 0 ≤ c ∧ c < 100 ∧ 0 ≤ r ∧ r < 100 ∧
      (clip_drawpixelinfo surface100 ⟨-10, -10⟩ 50 50).1.bits +
          39 * ((clip_drawpixelinfo surface100 ⟨-10, -10⟩ 50 50).1.pitch +
            (clip_drawpixelinfo surface100 ⟨-10, -10⟩ 50 50).1.width) + 39 =
        surface100.bits + r * (surface100.pitch + surface100.width) + c :=
  match clip_drawpixelinfo_view surface100 ⟨-10, -10⟩ 50 50 surface100_exact_a (by decide)
      (by decide) (by decide) (by decide) (by decide) (by decide) 39 39 (by decide) (by decide)
      (by decide) (by decide) with
  | ⟨c, r, h1, h2, h3, h4, h5, _, _⟩ => ⟨c, r, h1, h2, h3, h4, h5⟩

/-! ## Theorems: the picked-up peep -/

/-- C26. When a peep image is set and the image `sprite & 0x7FFFF` resolves to an
element with width `w`, height `h` and offsets `ox`, `oy` (the `int32_t` sums
not overflowing), `gfx_invalidate_pickedup_peep` makes exactly one dirty mark,
with `left = pickupX + ox`, `top = pickupY + oy`, `right = left + w` and
`bottom = top + h`; when no image is set (`UINT32_MAX`) it makes no call, and
when the image does not resolve it makes no dirty mark. -/
theorem gfx_invalidate_pickedup_peep_box (env : DrawEnv) (g : PickupPeep) :
    (∀ g1 : rct_g1_element, g.gPickupPeepImage ≠ UINT32_MAX →
      env.gfx_get_g1_element (g.gPickupPeepImage &&& 0x7FFFF) = some g1 →
      wrap32 (g.gPickupPeepX + g1.x_offset) = g.gPickupPeepX + g1.x_offset →
      wrap32 (g.gPickupPeepY + g1.y_offset) = g.gPickupPeepY + g1.y_offset →
      wrap32 (g.gPickupPeepX + g1.x_offset + g1.width) =
        g.gPickupPeepX + g1.x_offset + g1.width →
      wrap32 (g.gPickupPeepY + g1.y_offset + g1.height) =
        g.gPickupPeepY + g1.y_offset + g1.height →
      (gfx_invalidate_pickedup_peep env g).filter DrawCall.isDirtyMark =
          [DrawCall.gfx_set_dirty_blocks (g.gPickupPeepX + g1.x_offset)
            (g.gPickupPeepY + g1.y_offset) (g.gPickupPeepX + g1.x_offset + g1.width)
            (g.gPickupPeepY + g1.y_offset + g1.height)] ∧
        (gfx_invalidate_pickedup_peep env g).countP DrawCall.isDirtyMark = 1) ∧
    (g.gPickupPeepImage = UINT32_MAX → gfx_invalidate_pickedup_peep env g = []) ∧
    (env.gfx_get_g1_element (g.gPickupPeepImage &&& 0x7FFFF) = none →
      (gfx_invalidate_pickedup_peep env g).filter DrawCall.isDirtyMark = []) := by
  refine ⟨?_, ?_, ?_⟩
  · intro g1 himg hres h1 h2 h3 h4
    unfold gfx_invalidate_pickedup_peep
    simp only [himg, hres, h1, h2, h3, h4, ne_eq, not_false_eq_true, if_true]
    exact ⟨rfl, rfl⟩
  · intro himg
    unfold gfx_invalidate_pickedup_peep
    simp only [himg, ne_eq, not_true_eq_false, if_false]
  · intro hres
    unfold gfx_invalidate_pickedup_peep
    by_cases himg : g.gPickupPeepImage = UINT32_MAX
    · simp only [himg, ne_eq, not_true_eq_false, if_false, List.filter_nil]
    · simp only [himg, hres, ne_eq, not_false_eq_true, if_true]
      rfl

/-- C26 witness: the peep at (100, 200) whose image resolves to an element of width 2,
height 1 and offsets (10, 0): one dirty mark (110, 200, 112, 201). -/
theorem gfx_invalidate_pickedup_peep_box_witness :
    (gfx_invalidate_pickedup_peep (defaultPaletteEnv paletteImage10) pickedUpPeep).filter
        DrawCall.isDirtyMark = [DrawCall.gfx_set_dirty_blocks 110 200 112 201] :=
  ((gfx_invalidate_pickedup_peep_box (defaultPaletteEnv paletteImage10) pickedUpPeep).1
    paletteImage10 (by decide) (by decide) (by decide) (by decide) (by decide)
    (by decide)).1.trans (by decide)

/-! ## Theorems: the transposed palette -/

theorem transposeChannel_eq (s product : Nat) (hs : s < 256) (hp : product < 256) :
    transposeChannel s product = s * product / 256 := by
  unfold transposeChannel
  rw [Nat.shiftRight_eq_div_pow]
  have h : s * product ≤ 255 * 255 := Nat.mul_le_mul (by omega) (by omega)
  have h2 : s * product / 2 ^ 8 < 256 := by
    rw [Nat.div_lt_iff_lt_mul (by norm_num)]; omega
  rw [Nat.mod_eq_of_lt h2]
  norm_num

theorem transposePaletteEntries_eq_copy (product : Nat) (n : Nat) :
    ∀ (buf : List Nat) (off : Int) (src : List Nat) (so : Nat),
      transposePaletteEntries n buf off src so product =
        copyPaletteEntries n buf off (src.map fun v => transposeChannel v product) so := by
  have hz : transposeChannel 0 product = 0 := by simp [transposeChannel]
  have hget : ∀ (src : List Nat) (k : Nat),
      (src.map fun v => transposeChannel v product).getD k 0 =
        transposeChannel (src.getD k 0) product := by
    intro src k
    have h := List.getD_map (l := src) (n := k) (d := 0) (fun v => transposeChannel v product)
    simp only [hz] at h
    exact h
  induction n with
  | zero => intro buf off src so; rfl
  | succ n ih =>
    intro buf off src so
    rw [transposePaletteEntries, copyPaletteEntries]
    simp only [List.length_map, hget, ih]

/-- C27. For every source channel byte `s` and every product byte `p`,
`gfx_transpose_palette` writes the channel value `floor(s * p / 256)`, which is
0 when `s = 0` and strictly less than `s` when `s > 0`; for a resolved image
that fits the 1024-byte palette buffer, bytes 0, 1, 2 of slot `x + i` receive
the transposed channels of the `i`-th triple, the 4th byte of every slot and
every other byte are untouched, and the palette update (10, 236) follows; an
unresolved image leaves the buffer unchanged and makes no update. -/
theorem gfx_transpose_palette_channels (env : DrawEnv) (pal product : Nat)
    (gGamePalette : List Nat) (hbuf : gGamePalette.length = 1024) (hproduct : product < 256) :
    (∀ s, s < 256 →
      transposeChannel s product = s * product / 256 ∧
      (s = 0 → transposeChannel s product = 0) ∧
      (0 < s → transposeChannel s product < s)) ∧
    (∀ (g1 : rct_g1_element) (x w : Nat),
      env.gfx_get_g1_element pal = some g1 →
      g1.x_offset = (x : Int) → g1.width = (w : Int) → x + w ≤ 256 →
      3 * w ≤ g1.offset.length →
      ∃ buffer,
        gfx_transpose_palette env pal product gGamePalette =
          some (buffer,
            [DrawCall.gfx_get_g1_element pal, DrawCall.platform_update_palette buffer 10 236]) ∧
        buffer.length = 1024 ∧
        (∀ i c, i < w → c < 3 →
          buffer[4 * (x + i) + c]? =
            (g1.offset[3 * i + c]?).map fun v => transposeChannel v product) ∧
        (∀ slot, buffer[4 * slot + 3]? = gGamePalette[4 * slot + 3]?) ∧
        (∀ j, ¬ InLoadedSlots x w j → buffer[j]? = gGamePalette[j]?)) ∧
    (env.gfx_get_g1_element pal = none →
      gfx_transpose_palette env pal product gGamePalette =
        some (gGamePalette, [DrawCall.gfx_get_g1_element pal])) := by
  refine ⟨?_, ?_, ?_⟩
  · intro s hs
    have heq := transposeChannel_eq s product hs hproduct
    refine ⟨heq, ?_, ?_⟩
    · intro h0
      rw [heq, h0, Nat.zero_mul, Nat.zero_div]
    · intro hpos
      rw [heq, Nat.div_lt_iff_lt_mul (by norm_num)]
      exact (Nat.mul_lt_mul_left hpos).2 hproduct
  · intro g1 x w hres hx hw hslots hdata
    obtain ⟨r, hr1, hr2, hr3⟩ :=
      copyPaletteEntries_spec w gGamePalette x
        (g1.offset.map fun v => transposeChannel v product) 0 (by omega)
        (by rw [List.length_map]; omega)
    simp only [Nat.mul_zero, Nat.zero_add] at hr1 hr3
    have hxw : wrap32 (x : Int) * 4 = ((4 * x : Nat) : Int) := by
      rw [wrap32_natCast x (by omega)]; omega
    refine ⟨r, ?_, hr2.trans hbuf, ?_, ?_, ?_⟩
    · unfold gfx_transpose_palette
      simp only [hres, hx, hw, wrap32_natCast w (by omega), hxw, Int.toNat_ofNat,
        transposePaletteEntries_eq_copy, hr1, Option.map_some']
    · intro i c hi hc
      have hin : InLoadedSlots x w (4 * (x + i) + c) := by unfold InLoadedSlots; omega
      have hidx : 3 * ((4 * (x + i) + c) / 4 - x) + (4 * (x + i) + c) % 4 = 3 * i + c := by
        omega
      rw [hr3, if_pos hin, hidx, List.getElem?_map]
    · intro slot
      have hout : ¬ InLoadedSlots x w (4 * slot + 3) := by unfold InLoadedSlots; omega
      rw [hr3, if_neg hout]
    · intro j hj
      rw [hr3, if_neg hj]
  · intro hnone
    unfold gfx_transpose_palette
    simp only [hnone]

set_option maxRecDepth 100000 in
/-- C27 witness: product 128 on the image of the triples (1, 2, 3), (4, 5, 6) for the
slots 10 and 11 of a zeroed buffer: byte 46 becomes `6 * 128 / 256 = 3`, byte
47 stays 0. -/
theorem gfx_transpose_palette_channels_witness :
    ∃ buffer calls,
      gfx_transpose_palette (defaultPaletteEnv paletteImage10) 0x5FC 128 zeroPalette =
        some (buffer, calls) ∧
      buffer[46]? = some 3 ∧ buffer[47]? = some 0 ∧ transposeChannel 255 128 < 255 :=
  match (gfx_transpose_palette_channels (defaultPaletteEnv paletteImage10) 0x5FC 128 zeroPalette
      (by decide) (by decide)).2.1 paletteImage10 10 2 (by decide) (by decide) (by decide)
      (by decide) (by decide) with
  | ⟨buffer, h1, _, h3, h4, _⟩ =>
    ⟨buffer, _, h1, (h3 1 2 (by decide) (by decide)).trans (by decide),
      (h4 11).trans (by decide),
      ((gfx_transpose_palette_channels (defaultPaletteEnv paletteImage10) 0x5FC 128 zeroPalette
        (by decide) (by decide)).1 255 (by decide)).2.2 (by decide)⟩

/-! ## Theorems: the editor's selected-object flags -/

theorem or_mod_256 (a b : Nat) : (a ||| b) % 256 = a % 256 ||| b % 256 := by
  apply Nat.eq_of_testBit_eq
  intro i
  have h : (256 : Nat) = 2 ^ 8 := by norm_num
  rw [h]
  simp only [Nat.testBit_mod_two_pow, Nat.testBit_or]
  cases decide (i < 8) <;> simp

theorem and_mod_256 (a b : Nat) : (a &&& b) % 256 = a % 256 &&& b % 256 := by
  apply Nat.eq_of_testBit_eq
  intro i
  have h : (256 : Nat) = 2 ^ 8 := by norm_num
  rw [h]
  simp only [Nat.testBit_mod_two_pow, Nat.testBit_and]
  cases decide (i < 8) <;> simp

theorem notU32_mod_256 (flags : Nat) : notU32 flags % 256 = 255 - flags % 256 := by
  unfold notU32; omega

theorem vectorResize_getElem? (list : List Nat) (index j : Nat) (h : list.length ≤ index) :
    (vectorResize list (index + 1))[j]? =
      if j < list.length then list[j]? else if j ≤ index then some 0 else none := by
  unfold vectorResize
  rw [if_neg (by omega)]
  by_cases hj : j < list.length
  · rw [if_pos hj, List.getElem?_append_left hj]
  · rw [if_neg hj, List.getElem?_append_right (by omega)]
    by_cases hj2 : j ≤ index
    · rw [if_pos hj2, List.getElem?_eq_getElem (by rw [List.length_replicate]; omega),
        List.getElem_replicate]
    · rw [if_neg hj2, List.getElem?_eq_none (by rw [List.length_replicate]; omega)]

theorem GetSelectedObjectFlags_eq (st : EditorSelectedObjectFlags) (objectType index : Nat) :
    GetSelectedObjectFlags st objectType index = ((st objectType)[index]?).getD 0 := by
  unfold GetSelectedObjectFlags
  simp only []
  split_ifs with h
  · rw [List.getD_eq_getElem?_getD]
  · rw [List.getElem?_eq_none (by omega)]
    rfl

/-- The vector after the optional `resize` and the store `list[index] = value`: it
reads `value` at `index` and as before elsewhere (0 beyond the old length). -/
theorem grown_set_getD (list : List Nat) (index value j : Nat) :
    (((if list.length ≤ index then vectorResize list (index + 1) else list).set index
      value)[j]?).getD 0 = if j = index then value else (list[j]?).getD 0 := by
  by_cases hlen : list.length ≤ index
  · rw [if_pos hlen]
    have hl : (vectorResize list (index + 1)).length = index + 1 := by
      unfold vectorResize
      rw [if_neg (by omega), List.length_append, List.length_replicate]; omega
    by_cases hj : j = index
    · subst hj
      rw [if_pos rfl, List.getElem?_set_self (by omega)]
      rfl
    · rw [if_neg hj, List.getElem?_set_ne (Ne.symm hj), vectorResize_getElem? list index j hlen]
      by_cases hj1 : j < list.length
      · rw [if_pos hj1]
      · rw [if_neg hj1, List.getElem?_eq_none (by omega)]
        by_cases hj2 : j ≤ index
        · rw [if_pos hj2]; rfl
        · rw [if_neg hj2]
  · rw [if_neg hlen]
    by_cases hj : j = index
    · subst hj
      rw [if_pos rfl, List.getElem?_set_self (by omega)]
      rfl
    · rw [if_neg hj, List.getElem?_set_ne (Ne.symm hj)]

theorem grown_getD (list : List Nat) (index j : Nat) :
    (if list.length ≤ index then vectorResize list (index + 1) else list).getD j 0 =
      (list[j]?).getD 0 := by
  rw [List.getD_eq_getElem?_getD]
  by_cases hlen : list.length ≤ index
  · rw [if_pos hlen, vectorResize_getElem? list index j hlen]
    by_cases hj1 : j < list.length
    · rw [if_pos hj1]
    · rw [if_neg hj1, List.getElem?_eq_none (by omega)]
      by_cases hj2 : j ≤ index
      · rw [if_pos hj2]; rfl
      · rw [if_neg hj2]
  · rw [if_neg hlen]

theorem SetSelectedObject_read (st : EditorSelectedObjectFlags) (t i f t2 i2 : Nat) :
    GetSelectedObjectFlags (SetSelectedObject st t i f) t2 i2 =
      if t2 = t ∧ i2 = i then (GetSelectedObjectFlags st t i ||| f) % 256
      else GetSelectedObjectFlags st t2 i2 := by
  rw [GetSelectedObjectFlags_eq, GetSelectedObjectFlags_eq, GetSelectedObjectFlags_eq]
  unfold SetSelectedObject
  by_cases ht : t2 = t
  · subst ht
    simp only [Function.update_same, true_and]
    rw [grown_set_getD, grown_getD]
  · simp only [Function.update_noteq ht, ht, false_and, if_false]

theorem ClearSelectedObject_read (st : EditorSelectedObjectFlags) (t i f t2 i2 : Nat) :
    GetSelectedObjectFlags (ClearSelectedObject st t i f) t2 i2 =
      if t2 = t ∧ i2 = i then (GetSelectedObjectFlags st t i &&& notU32 f) % 256
      else GetSelectedObjectFlags st t2 i2 := by
  rw [GetSelectedObjectFlags_eq, GetSelectedObjectFlags_eq, GetSelectedObjectFlags_eq]
  unfold ClearSelectedObject
  by_cases ht : t2 = t
  · subst ht
    simp only [Function.update_same, true_and]
    rw [grown_set_getD, grown_getD]
  · simp only [Function.update_noteq ht, ht, false_and, if_false]

/-- C28. As observed through `GetSelectedObjectFlags` on a store of bytes: after
`SetSelectedObject(t, i, f)` the value read at `(t, i)` is the old value
bitwise-or the low 8 bits of `f`; after `ClearSelectedObject(t, i, f)` it is
the old value and-not the low 8 bits of `f`; in both cases the value read at
every other (type, index) pair is unchanged, and an index at or beyond the old
list length other than `i` reads 0 before and after. -/
theorem selected_object_flags_frame (st : EditorSelectedObjectFlags) (t i f : Nat)
    (hst : st.Bytes) :
    GetSelectedObjectFlags (SetSelectedObject st t i f) t i =
      GetSelectedObjectFlags st t i ||| f % 256 ∧
    GetSelectedObjectFlags (ClearSelectedObject st t i f) t i =
      GetSelectedObjectFlags st t i &&& (255 - f % 256) ∧
    (∀ t2 i2, ¬ (t2 = t ∧ i2 = i) →
      GetSelectedObjectFlags (SetSelectedObject st t i f) t2 i2 =
        GetSelectedObjectFlags st t2 i2 ∧
      GetSelectedObjectFlags (ClearSelectedObject st t i f) t2 i2 =
        GetSelectedObjectFlags st t2 i2) ∧
    (∀ i2, (st t).length ≤ i2 → i2 ≠ i →
      GetSelectedObjectFlags st t i2 = 0 ∧
      GetSelectedObjectFlags (SetSelectedObject st t i f) t i2 = 0 ∧
      GetSelectedObjectFlags (ClearSelectedObject st t i f) t i2 = 0) := by
  have hold : GetSelectedObjectFlags st t i % 256 = GetSelectedObjectFlags st t i :=
    Nat.mod_eq_of_lt (hst t i)
  have hzero : ∀ i2, (st t).length ≤ i2 → GetSelectedObjectFlags st t i2 = 0 := by
    intro i2 h
    rw [GetSelectedObjectFlags_eq, List.getElem?_eq_none h]
    rfl
  refine ⟨?_, ?_, ?_, ?_⟩
  · rw [SetSelectedObject_read, if_pos ⟨rfl, rfl⟩, or_mod_256, hold]
  · rw [ClearSelectedObject_read, if_pos ⟨rfl, rfl⟩, and_mod_256, hold, notU32_mod_256]
  · intro t2 i2 hne
    rw [SetSelectedObject_read, ClearSelectedObject_read, if_neg hne, if_neg hne]
    exact ⟨rfl, rfl⟩
  · intro i2 hlen hne
    have hne2 : ¬ (t = t ∧ i2 = i) := fun h => hne h.2
    rw [SetSelectedObject_read, ClearSelectedObject_read, if_neg hne2, if_neg hne2]
    exact ⟨hzero i2 hlen, hzero i2 hlen, hzero i2 hlen⟩

theorem editorFlagsExample_bytes : editorFlagsExample.Bytes := by
  intro t i
  rw [GetSelectedObjectFlags_eq]
  unfold editorFlagsExample
  by_cases ht : t = 2
  · rw [if_pos ht]
    rcases i with _ | _ | i <;> simp
  · rw [if_neg ht]
    simp

/-- C28 witness: type 2 holds the flags `[1, 6]`; setting `0x1FF` at index 5 grows the
list and reads `0xFF` there; clearing `0x102` at index 1 turns 6 into 4. -/
theorem selected_object_flags_frame_witness :
    GetSelectedObjectFlags (SetSelectedObject editorFlagsExample 2 5 0x1FF) 2 5 = 255 ∧
    GetSelectedObjectFlags (ClearSelectedObject editorFlagsExample 2 1 0x102) 2 1 = 4 ∧
    GetSelectedObjectFlags (SetSelectedObject editorFlagsExample 2 5 0x1FF) 2 1 = 6 :=
  ⟨(selected_object_flags_frame editorFlagsExample 2 5 0x1FF editorFlagsExample_bytes).1.trans
      (by decide),
    (selected_object_flags_frame editorFlagsExample 2 1 0x102
      editorFlagsExample_bytes).2.1.trans (by decide),
    ((selected_object_flags_frame editorFlagsExample 2 5 0x1FF editorFlagsExample_bytes).2.2.1
      2 1 (by decide)).1.trans (by decide)⟩

/-! ## Theorems: the closest peep -/

theorem closestPeepLoop_skip (LN : Int) (target : ScreenCoordsXY) (maxD : Int) (peep : Peep)
    (rest : List Peep) (acc : Option Peep × Int)
    (h : ¬ PeepEligible LN target maxD acc.2 peep) :
    closestPeepLoop LN target maxD (peep :: rest) acc = closestPeepLoop LN target maxD rest acc := by
  rw [closestPeepLoop]
  unfold PeepEligible at h
  by_cases h1 : peep.sprite_left = LN
  · rw [if_pos h1]
  · rw [if_neg h1]
    simp only []
    by_cases h2 : peepDistance peep target > maxD
    · rw [if_pos h2]
    · rw [if_neg h2]
      have h3 : ¬ peepDistance peep target < acc.2 := fun h3 => h ⟨h1, by omega, h3⟩
      rw [if_neg h3]

theorem closestPeepLoop_take (LN : Int) (target : ScreenCoordsXY) (maxD : Int) (peep : Peep)
    (rest : List Peep) (acc : Option Peep × Int)
    (h : PeepEligible LN target maxD acc.2 peep) :
    closestPeepLoop LN target maxD (peep :: rest) acc =
      closestPeepLoop LN target maxD rest (some peep, peepDistance peep target) := by
  rw [closestPeepLoop]
  obtain ⟨h1, h2, h3⟩ := h
  have h2n : ¬ peepDistance peep target > maxD := by omega
  rw [if_neg h1]
  simp only []
  rw [if_neg h2n, if_pos h3]

/-- The loop returns its starting pair when no remaining peep is eligible, and
otherwise the first eligible peep of least distance, with that distance. -/
theorem closestPeepLoop_spec (LN : Int) (target : ScreenCoordsXY) (maxD : Int) :
    ∀ (l : List Peep) (acc : Option Peep × Int),
      ((∀ q ∈ l, ¬ PeepEligible LN target maxD acc.2 q) ∧
        closestPeepLoop LN target maxD l acc = acc) ∨
      (∃ (k : Nat) (p : Peep), l[k]? = some p ∧
        closestPeepLoop LN target maxD l acc = (some p, peepDistance p target) ∧
        PeepEligible LN target maxD acc.2 p ∧
        (∀ q ∈ l, PeepEligible LN target maxD acc.2 q →
          peepDistance p target ≤ peepDistance q target) ∧
        (∀ (k2 : Nat) (q : Peep), k2 < k → l[k2]? = some q →
          PeepEligible LN target maxD acc.2 q →
          peepDistance p target < peepDistance q target)) := by
  intro l
  induction l with
  | nil =>
    intro acc
    exact Or.inl ⟨fun q hq => absurd hq (List.not_mem_nil q), rfl⟩
  | cons peep rest ih =>
    intro acc
    by_cases hE : PeepEligible LN target maxD acc.2 peep
    · rw [closestPeepLoop_take LN target maxD peep rest acc hE]
      rcases ih (some peep, peepDistance peep target) with ⟨hnone, hres⟩ | ⟨k, p, hk, hres, hp, hmin, hfirst⟩
      · refine Or.inr ⟨0, peep, List.getElem?_cons_zero, hres, hE, ?_, ?_⟩
        · intro q hq hqE
          rcases List.mem_cons.1 hq with rfl | hq
          · exact le_refl _
          · have hn := hnone q hq
            unfold PeepEligible at hn hqE
            simp only [] at hn
            by_contra hlt
            exact hn ⟨hqE.1, hqE.2.1, by omega⟩
        · intro k2 q hk2
          exact absurd hk2 (Nat.not_lt_zero k2)
      · have hpd : peepDistance p target < peepDistance peep target := hp.2.2
        refine Or.inr ⟨k + 1, p, by rw [List.getElem?_cons_succ]; exact hk, hres,
          ⟨hp.1, hp.2.1, lt_trans hpd hE.2.2⟩, ?_, ?_⟩
        · intro q hq hqE
          rcases List.mem_cons.1 hq with rfl | hq
          · exact le_of_lt hpd
          · by_cases hqd : peepDistance q target < peepDistance peep target
            · exact hmin q hq ⟨hqE.1, hqE.2.1, hqd⟩
            · omega
        · intro k2 q hk2 hq hqE
          rcases k2 with _ | k2
          · rw [List.getElem?_cons_zero] at hq
            have hqp : peep = q := Option.some.inj hq
            rw [← hqp]
            exact hpd
          · rw [List.getElem?_cons_succ] at hq
            by_cases hqd : peepDistance q target < peepDistance peep target
            · exact hfirst k2 q (by omega) hq ⟨hqE.1, hqE.2.1, hqd⟩
            · omega
    · rw [closestPeepLoop_skip LN target maxD peep rest acc hE]
      rcases ih acc with ⟨hnone, hres⟩ | ⟨k, p, hk, hres, hp, hmin, hfirst⟩
      · refine Or.inl ⟨?_, hres⟩
        intro q hq
        rcases List.mem_cons.1 hq with rfl | hq
        · exact hE
        · exact hnone q hq
      · refine Or.inr ⟨k + 1, p, by rw [List.getElem?_cons_succ]; exact hk, hres, hp, ?_, ?_⟩
        · intro q hq hqE
          rcases List.mem_cons.1 hq with rfl | hq
          · exact absurd hqE hE
          · exact hmin q hq hqE
        · intro k2 q hk2 hq hqE
          rcases k2 with _ | k2
          · rw [List.getElem?_cons_zero] at hq
            have hqp : peep = q := Option.some.inj hq
            rw [← hqp] at hqE
            exact absurd hqE hE
          · rw [List.getElem?_cons_succ] at hq
            exact hfirst k2 q (by omega) hq hqE

theorem tdiv_two_bounds (a : Int) (h : -65536 ≤ a ∧ a ≤ 65536) :
    -32768 ≤ a.tdiv 2 ∧ a.tdiv 2 ≤ 32768 := by
  have h1 := Int.natAbs_tdiv a 2
  have h2 : Int.natAbs (2 : Int) = 2 := rfl
  have h3 : (Int.natAbs a).div 2 = Int.natAbs a / 2 := rfl
  rw [h2, h3] at h1
  omega

/-- For `int16_t` sprite boxes and a target within `2 ^ 29` of the origin, the distance
the code computes is the Manhattan distance from the centre of the sprite box
to the target, and it is below `INT32_MAX`. -/
theorem peepDistance_manhattan (q : Peep) (target : ScreenCoordsXY)
    (hl : -32768 ≤ q.sprite_left ∧ q.sprite_left ≤ 32767)
    (hr : -32768 ≤ q.sprite_right ∧ q.sprite_right ≤ 32767)
    (ht : -32768 ≤ q.sprite_top ∧ q.sprite_top ≤ 32767)
    (hb : -32768 ≤ q.sprite_bottom ∧ q.sprite_bottom ≤ 32767)
    (hx : -536870912 ≤ target.x ∧ target.x ≤ 536870912)
    (hy : -536870912 ≤ target.y ∧ target.y ≤ 536870912) :
    peepDistance q target =
      |Int.tdiv (q.sprite_left + q.sprite_right) 2 - target.x| +
        |Int.tdiv (q.sprite_top + q.sprite_bottom) 2 - target.y| ∧
    peepDistance q target < INT32_MAX := by
  obtain ⟨cx1, cx2⟩ := tdiv_two_bounds (q.sprite_left + q.sprite_right) (by omega)
  obtain ⟨cy1, cy2⟩ := tdiv_two_bounds (q.sprite_top + q.sprite_bottom) (by omega)
  unfold peepDistance INT32_MAX
  generalize Int.tdiv (q.sprite_left + q.sprite_right) 2 = cx at cx1 cx2 ⊢
  generalize Int.tdiv (q.sprite_top + q.sprite_bottom) 2 = cy at cy1 cy2 ⊢
  have w1 : wrap32 (cx - target.x) = cx - target.x := by unfold wrap32; omega
  have w2 : wrap32 (cy - target.y) = cy - target.y := by unfold wrap32; omega
  have a1 : ((Int.natAbs (cx - target.x) : Nat) : Int) = |cx - target.x| := Int.natCast_natAbs _
  have a2 : ((Int.natAbs (cy - target.y) : Nat) : Int) = |cy - target.y| := Int.natCast_natAbs _
  have b1 : |cx - target.x| ≤ 536903680 := by rw [abs_le]; constructor <;> omega
  have b2 : |cy - target.y| ≤ 536903680 := by rw [abs_le]; constructor <;> omega
  have n1 : 0 ≤ |cx - target.x| := abs_nonneg _
  have n2 : 0 ≤ |cy - target.y| := abs_nonneg _
  rw [w1, w2, a1, a2]
  generalize |cx - target.x| = dx at b1 n1 ⊢
  generalize |cy - target.y| = dy at b2 n2 ⊢
  unfold wrap32
  omega

set_option maxRecDepth 100000 in
/-- C29 as stated fails. A single peep with non-null `sprite_left` whose sprite box is
the point (0, 0), the target (2147483647, 0) and `maxDistance = 2147483647`:
the peep's Manhattan distance 2147483647 is within `maxDistance`, but it is
not below the initial `closestDistance` (`INT32_MAX`), so the function returns
null. -/
theorem closest_peep_misses_distance_int32_max :
    plainViewport.zoom < 2 ∧
    viewportTarget zoomShift plainViewport ⟨2147483647, 0⟩ = ⟨2147483647, 0⟩ ∧
    peepAtOrigin.sprite_left ≠ -32768 ∧
    peepDistance peepAtOrigin ⟨2147483647, 0⟩ = 2147483647 ∧
    peepDistance peepAtOrigin ⟨2147483647, 0⟩ ≤ 2147483647 ∧
    viewport_interaction_get_closest_peep (-32768) zoomShift (some (some plainViewport))
      [peepAtOrigin] ⟨2147483647, 0⟩ 2147483647 = none := by
  decide

/-- C29 amended. With a viewport at zoom < 2, for every list of peeps, screen point and
`maxDistance`, call a peep eligible when its `sprite_left` is not null and its
distance to the target is at most `maxDistance` and below `INT32_MAX`. The
function returns null exactly when no peep is eligible; otherwise it returns
an eligible peep whose distance is not greater than that of any eligible peep
and which is the first in list order among the eligible peeps of that
distance. -/
theorem closest_peep_spec (LN : Int) (zoomScale : Int → Int → Int) (viewport : rct_viewport)
    (peeps : List Peep) (screenCoords : ScreenCoordsXY) (maxDistance : Int)
    (hzoom : viewport.zoom < 2) :
    (viewport_interaction_get_closest_peep LN zoomScale (some (some viewport)) peeps
        screenCoords maxDistance = none ↔
      ∀ q ∈ peeps, ¬ PeepEligible LN (viewportTarget zoomScale viewport screenCoords)
        maxDistance INT32_MAX q) ∧
    (∀ p, viewport_interaction_get_closest_peep LN zoomScale (some (some viewport)) peeps
        screenCoords maxDistance = some p →
      ∃ k : Nat, peeps[k]? = some p ∧
        PeepEligible LN (viewportTarget zoomScale viewport screenCoords) maxDistance INT32_MAX p ∧
        (∀ q ∈ peeps,
          PeepEligible LN (viewportTarget zoomScale viewport screenCoords) maxDistance
            INT32_MAX q →
          peepDistance p (viewportTarget zoomScale viewport screenCoords) ≤
            peepDistance q (viewportTarget zoomScale viewport screenCoords)) ∧
        (∀ (k2 : Nat) (q : Peep), k2 < k → peeps[k2]? = some q →
          PeepEligible LN (viewportTarget zoomScale viewport screenCoords) maxDistance
            INT32_MAX q →
          peepDistance p (viewportTarget zoomScale viewport screenCoords) <
            peepDistance q (viewportTarget zoomScale viewport screenCoords))) := by
  have hz : ¬ viewport.zoom ≥ 2 := by omega
  have hfun : viewport_interaction_get_closest_peep LN zoomScale (some (some viewport)) peeps
      screenCoords maxDistance =
      (closestPeepLoop LN (viewportTarget zoomScale viewport screenCoords) maxDistance peeps
        (none, INT32_MAX)).1 := by
    unfold viewport_interaction_get_closest_peep
    simp only [if_neg hz]
  rw [hfun]
  rcases closestPeepLoop_spec LN (viewportTarget zoomScale viewport screenCoords) maxDistance
      peeps (none, INT32_MAX) with ⟨hnone, hres⟩ | ⟨k, p, hk, hres, hp, hmin, hfirst⟩
  · rw [hres]
    refine ⟨⟨fun _ => hnone, fun _ => rfl⟩, ?_⟩
    intro p hp
    exact absurd hp (by simp)
  · rw [hres]
    refine ⟨⟨fun h => absurd h (by simp), fun h => ?_⟩, ?_⟩
    · have hmem : p ∈ peeps := List.getElem?_mem hk
      exact absurd hp (h p hmem)
    · intro p2 hp2
      have hpp : p = p2 := Option.some.inj hp2
      rw [← hpp]
      exact ⟨k, hk, hp, hmin, hfirst⟩

/-- C29 witness: two peeps, the second closer to the target (1, 0) than the first;
the function returns the second, whose distance is not greater than the
first one's. -/
theorem closest_peep_spec_witness :
    ∃ k : Nat, [peepAtTen, peepAtOrigin][k]? = some peepAtOrigin ∧
      peepDistance peepAtOrigin (viewportTarget zoomShift plainViewport ⟨1, 0⟩) ≤
        peepDistance peepAtTen (viewportTarget zoomShift plainViewport ⟨1, 0⟩) :=
  match (closest_peep_spec (-32768) zoomShift plainViewport [peepAtTen, peepAtOrigin] ⟨1, 0⟩ 32
      (by decide)).2 peepAtOrigin (by decide) with
  | ⟨k, hk, _, hmin, _⟩ => ⟨k, hk, hmin peepAtTen (by decide) (by decide)⟩

/-! ## Theorems: the tile under the cursor -/

theorem clamp_mem (v lo hi : Int) (h : lo ≤ hi) : lo ≤ clamp v lo hi ∧ clamp v lo hi ≤ hi := by
  unfold clamp
  split_ifs <;> omega

theorem refineStep_mem (env : MapEnv) (hit : HitTest) (o : CoordsXY) (waterHeight : Int)
    (mapPos : CoordsXY) (i : Nat)
    (hx : -2147483648 ≤ o.x ∧ o.x ≤ 2147483616) (hy : -2147483648 ≤ o.y ∧ o.y ≤ 2147483616) :
    (o.x ≤ (refineStep env hit o waterHeight mapPos i).x ∧
      (refineStep env hit o waterHeight mapPos i).x ≤ o.x + 31) ∧
    (o.y ≤ (refineStep env hit o waterHeight mapPos i).y ∧
      (refineStep env hit o waterHeight mapPos i).y ≤ o.y + 31) := by
  have wx : wrap32 (o.x + 31) = o.x + 31 := by unfold wrap32; omega
  have wy : wrap32 (o.y + 31) = o.y + 31 := by unfold wrap32; omega
  unfold refineStep
  simp only [wx, wy]
  exact ⟨clamp_mem _ _ _ (by omega), clamp_mem _ _ _ (by omega)⟩

theorem ToTileStart_of_mem (c o : CoordsXY) (hx0 : o.x % 32 = 0) (hy0 : o.y % 32 = 0)
    (hx : o.x ≤ c.x ∧ c.x ≤ o.x + 31) (hy : o.y ≤ c.y ∧ c.y ≤ o.y + 31) :
    c.ToTileStart = o := by
  unfold CoordsXY.ToTileStart
  have h1 : 32 * (c.x / 32) = o.x := by omega
  have h2 : 32 * (c.y / 32) = o.y := by omega
  rw [h1, h2]

/-- C30. Whenever the hit test reports an interaction other than NONE at tile-aligned
`int32_t` map coordinates (both multiples of 32), `sub_68A15E` returns exactly
those coordinates, whatever `tile_element_height` and
`viewport_coord_to_map_coord` return at each of the five iterations: the last
iterate is clamped to `[origin, origin + 31]` and then rounded down to its
tile start. When the hit test reports NONE it returns the location produced
by `setNull`. -/
theorem sub_68A15E_tile (env : MapEnv) (hit : HitTest) :
    (hit.interactionType ≠ env.VIEWPORT_INTERACTION_ITEM_NONE →
      hit.mapCoords.x % 32 = 0 → hit.mapCoords.y % 32 = 0 →
      (-2147483648 ≤ hit.mapCoords.x ∧ hit.mapCoords.x ≤ 2147483647) →
      (-2147483648 ≤ hit.mapCoords.y ∧ hit.mapCoords.y ≤ 2147483647) →
      sub_68A15E env hit = hit.mapCoords) ∧
    (hit.interactionType = env.VIEWPORT_INTERACTION_ITEM_NONE →
      sub_68A15E env hit = env.setNull hit.mapCoords) := by
  constructor
  · intro hne hx0 hy0 hx hy
    unfold sub_68A15E
    simp only [if_neg hne]
    rw [List.range_succ, List.foldl_append, List.foldl_cons, List.foldl_nil]
    obtain ⟨mx, my⟩ := refineStep_mem env hit hit.mapCoords
      (if hit.interactionType = env.VIEWPORT_INTERACTION_ITEM_WATER then wrap16 hit.waterHeight
        else 0)
      ((List.range 4).foldl
        (refineStep env hit hit.mapCoords
          (if hit.interactionType = env.VIEWPORT_INTERACTION_ITEM_WATER then
            wrap16 hit.waterHeight else 0))
        { x := wrap32 (hit.mapCoords.x + 16), y := wrap32 (hit.mapCoords.y + 16) })
      4 (by omega) (by omega)
    exact ToTileStart_of_mem _ _ hx0 hy0 mx my
  · intro hnone
    unfold sub_68A15E
    simp only [if_pos hnone]

/-- C30 witness: a terrain hit at the tile (64, 96) with collaborators that answer
(5000, -5000) at every iteration: the result is (64, 96). -/
theorem sub_68A15E_tile_witness :
    terrainHit.interactionType ≠ farAwayMapEnv.VIEWPORT_INTERACTION_ITEM_NONE ∧
    sub_68A15E farAwayMapEnv terrainHit = ⟨64, 96⟩ :=
  ⟨by decide,
    (sub_68A15E_tile farAwayMapEnv terrainHit).1 (by decide) (by decide) (by decide) (by decide)
      (by decide)⟩

end OpenRCT2
